import Mathlib

/-!
# HaciendaBack: attendance ledger and auth guard

A shallow embedding of `src/controllers/attendance.controller.js` together with
the table definitions of `src/models/attendance.model.js` and
`src/models/user.model.js`, of the middlewares `authRequired`, `requireRole` and
`validateSchema`, of the credential handlers of `src/controllers/auth.controller.js`,
of the handlers of `src/controllers/user.controller.js`, of the handlers of the
departments, positions and camps that the properties are about, and of the
routers mounted by `src/app.js`, and the properties proved about them.

Conventions.

* JavaScript numbers.  Every number that occurs in `calculateWorkedHours` is
  either an integer of small magnitude or the quotient of such an integer by
  `60`, so the arithmetic is carried out exactly, on `Int`, and the quotient is
  kept as a fraction.  `NaN` is `none`.
* The persistence layer is a pair of lists of rows.  What the model files
  declare (primary key, foreign key, the partial unique index
  `idx_attendance_employee_date`, the `created_at`/`updated_at` timestamps) is
  part of the write primitives; a write that violates a constraint is the
  exception that the handlers turn into a 500 response.
* `uuidv4()` and the clock are inputs of the handlers that use them, and so are
  the libraries: `jsonwebtoken` (`Jwt`), `bcrypt.compare`, `bcrypt.hash`, the
  email pattern of the schema library and the route matching of Express, of
  which `expressMatches` is the instance for patterns made of literal and
  `:name` segments.
* The departments and positions are kept in a store of their own (`OrgStore`),
  and the camps in a list next to the store of the users: the handlers of one
  group do not write the tables of another.
-/

namespace Hacienda

/-! ## Worked hours (`calculateWorkedHours`) -/

/-- The pieces of `s.split(":")`, on the characters of `s`. -/
def splitColon : List Char → List (List Char)
  | [] => [[]]
  | c :: cs =>
    if c = ':' then [] :: splitColon cs
    else
      match splitColon cs with
      | [] => [[c]]
      | p :: ps => (c :: p) :: ps

/-- The value of a decimal digit. -/
def digitValue (c : Char) : Option Nat :=
  if '0' ≤ c ∧ c ≤ '9' then some (c.toNat - '0'.toNat) else none

/-- The value of a string of decimal digits read left to right, `acc`
being the value of the digits already read. -/
def digitsValue : Nat → List Char → Option Nat
  | acc, [] => some acc
  | acc, c :: cs =>
    match digitValue c with
    | some d => digitsValue (acc * 10 + d) cs
    | none => none

/-- JavaScript `Number(s)` on the strings that a time of day is made of: a run
of decimal digits is its decimal value and the empty string is `0`.  Every
other string is sent to `none` (`NaN`); this is what JavaScript does for the
strings that are not numeric literals, and the numeric literals that are not
plain digit runs (signs, fractions, exponents, surrounding blanks) occur neither
in a `TIME` column nor in a body accepted by the request schemas. -/
def jsNumber (s : List Char) : Option Int :=
  (digitsValue 0 s).map Int.ofNat

/-- The array `t.split(":").map(Number)`. -/
def timeParts (t : String) : List (Option Int) :=
  (splitColon t.toList).map jsNumber

/-- Array destructuring `[a, b, ...] = parts` at position `i`: a missing element
is `undefined`, which every arithmetic operator turns into `NaN`. -/
def partAt (parts : List (Option Int)) (i : Nat) : Option Int :=
  (parts.get? i).join

/-- JavaScript `a * b` on integers or `NaN`. -/
def jsMul (a b : Option Int) : Option Int := a.bind fun x => b.map fun y => x * y

/-- JavaScript `a + b` on integers or `NaN`. -/
def jsAdd (a b : Option Int) : Option Int := a.bind fun x => b.map fun y => x + y

/-- JavaScript `a - b` on integers or `NaN`. -/
def jsSub (a b : Option Int) : Option Int := a.bind fun x => b.map fun y => x - y

/-- JavaScript `Math.floor(a / k)` for an integer `a` and a positive integer
`k`: the floor of the quotient. -/
def jsFloorDiv (a : Option Int) (k : Nat) : Option Int := a.map fun x => Int.fdiv x k

/-- JavaScript `a % k`: the remainder of the division truncated towards zero,
which takes the sign of the dividend.  (A zero remainder of a negative dividend
is the negative zero of JavaScript, serialised as `0`.) -/
def jsRem (a : Option Int) (k : Nat) : Option Int := a.map fun x => Int.tmod x k

/-- The decimal digits of `n`, padded on the left with zeros to at least
`f + 1` characters. -/
def paddedDigits (n f : Nat) : List Char :=
  let m := Nat.toDigits 10 n
  List.replicate (f + 1 - m.length) '0' ++ m

/-- `Number.prototype.toFixed(f)` applied to the number `num / den` (`den > 0`,
magnitude below `10^21`).  Following ECMA-262: the sign is split off, `n` is the
integer for which `n / 10^f` is closest to the magnitude (the larger one on a
tie), its digits are padded to `f + 1` characters and the decimal point is put
before the last `f` of them. -/
def toFixed (num : Int) (den : Nat) (f : Nat) : String :=
  let s := if num < 0 then "-" else ""
  let n := (2 * num.natAbs * 10 ^ f + den) / (2 * den)
  let m := paddedDigits n f
  let k := m.length
  if f = 0 then s ++ String.mk m
  else s ++ String.mk (m.take (k - f)) ++ "." ++ String.mk (m.drop (k - f))

/-- `(a / k).toFixed(2)` for an integer `a` or `NaN`; `NaN.toFixed(2)` is the
string `NaN`. -/
def jsDivToFixed2 (a : Option Int) (k : Nat) : String :=
  match a with
  | some x => toFixed x k 2
  | none => "NaN"

/-- The object returned by `calculateWorkedHours`. -/
structure WorkedHours where
  hours : Option Int
  minutes : Option Int
  total_minutes : Option Int
  total_hours : String
  deriving DecidableEq, Repr

/-- JavaScript `!t` for a value that is `null` or a string: `null` and the empty
string are falsy. -/
def falsy (t : Option String) : Bool :=
  match t with
  | none => true
  | some s => decide (s = "")

/-- The helper `calculateWorkedHours(entryTime, exitTime)`; `none` is `null`.
The seconds (third piece, default `0`) are read and not used. -/
def calculateWorkedHours (entryTime exitTime : Option String) : Option WorkedHours :=
  if falsy entryTime || falsy exitTime then none
  else
    let entry := timeParts (entryTime.getD "")
    let exit := timeParts (exitTime.getD "")
    let entryInMinutes := jsAdd (jsMul (partAt entry 0) (some 60)) (partAt entry 1)
    let exitInMinutes := jsAdd (jsMul (partAt exit 0) (some 60)) (partAt exit 1)
    let differenceMinutes := jsSub exitInMinutes entryInMinutes
    some
      { hours := jsFloorDiv differenceMinutes 60
        minutes := jsRem differenceMinutes 60
        total_minutes := differenceMinutes
        total_hours := jsDivToFixed2 differenceMinutes 60 }

/-- The schema pattern `^([0-1]?[0-9]|2[0-3]):[0-5][0-9](:[0-5][0-9])?$` of
`attendance.schemas.js`, on the characters of a string. -/
def isDigitIn (lo hi : Char) (c : Char) : Bool := decide (lo ≤ c ∧ c ≤ hi)

/-- The hour part `([0-1]?[0-9]|2[0-3])`. -/
def isHourPart : List Char → Bool
  | [a] => isDigitIn '0' '9' a
  | [a, b] => (isDigitIn '0' '1' a && isDigitIn '0' '9' b) || (a = '2' && isDigitIn '0' '3' b)
  | _ => false

/-- The part `[0-5][0-9]`. -/
def isSixtyPart : List Char → Bool
  | [a, b] => isDigitIn '0' '5' a && isDigitIn '0' '9' b
  | _ => false

/-- A string in the `HH:MM` or `HH:MM:SS` format of the request schemas. -/
def isTimeFormat (t : String) : Bool :=
  match splitColon t.toList with
  | [h, m] => isHourPart h && isSixtyPart m
  | [h, m, s] => isHourPart h && isSixtyPart m && isSixtyPart s
  | _ => false

/-- Two decimal digits for a number below `100`. -/
def twoDigits (n : Nat) : List Char := [Nat.digitChar (n / 10), Nat.digitChar (n % 10)]

/-- The hour written with two digits, or with one when `pad` is off and the
hour is below `10`. -/
def hourDigits (pad : Bool) (h : Nat) : List Char :=
  if pad || 10 ≤ h then twoDigits h else [Nat.digitChar h]

/-- The time of day `h:m` or `h:m:s` written in the format of the schemas. -/
def timeString (pad : Bool) (h m : Nat) (sec : Option Nat) : String :=
  String.mk (hourDigits pad h ++ (':' :: (twoDigits m ++
    (match sec with
     | none => []
     | some s => ':' :: twoDigits s))))

/-- The pieces joined by colons, the inverse of `splitColon`. -/
def joinColon : List (List Char) → List Char
  | [] => []
  | [p] => p
  | p :: q :: ps => p ++ (':' :: joinColon (q :: ps))

/-! ## Tables (`user.model.js`, `attendance.model.js`) -/

/-- The column type `ENUM("employee", "admin", "client")`. -/
inductive Role where
  | employee
  | admin
  | client
  deriving DecidableEq, Repr

/-- The column type `ENUM("active", "inactive", "deleted")` of `users.status`
and of `attendances.record_status`. -/
inductive Lifecycle where
  | active
  | inactive
  | deleted
  deriving DecidableEq, Repr

/-- The column type `ENUM("present", "absent", "late", "justified")`. -/
inductive AttendanceStatus where
  | present
  | absent
  | late
  | justified
  deriving DecidableEq, Repr

/-- A row of `hr.users`.  Identifiers are UUID strings, timestamps are clock
readings. -/
structure User where
  id_user : String
  name : String
  email : String
  password : String
  role : Role
  status : Lifecycle
  created_at : Nat
  updated_at : Nat
  deriving DecidableEq, Repr

/-- A row of `hr.attendances`.  Dates and times are kept as the strings that
were written; the canonical rendering that the database gives to the same date
or time of day is not modelled. -/
structure Attendance where
  id_attendance : String
  id_employee : String
  date : String
  entry_time : Option String
  exit_time : Option String
  status : AttendanceStatus
  observations : Option String
  record_status : Lifecycle
  created_at : Nat
  updated_at : Nat
  deriving DecidableEq, Repr

/-- The persistent state: the rows of the two tables. -/
structure Store where
  users : List User
  attendances : List Attendance
  deriving DecidableEq, Repr

/-- The filter `record_status: ["active", "inactive"]`. -/
def activeOrInactive (a : Attendance) : Bool :=
  a.record_status = Lifecycle.active || a.record_status = Lifecycle.inactive

/-- `User.findByPk(id)`. -/
def User.findByPk (s : Store) (id : String) : Option User :=
  s.users.find? fun u => u.id_user = id

/-- `Attendance.findOne({ where })`. -/
def Attendance.findOne (s : Store) (wh : Attendance → Bool) : Option Attendance :=
  s.attendances.find? wh

/-- `Attendance.findByPk(id)`. -/
def Attendance.findByPk (s : Store) (id : String) : Option Attendance :=
  s.attendances.find? fun a => a.id_attendance = id

/-- Two rows that the unique index `idx_attendance_employee_date` cannot hold
together: same `(id_employee, date)`, both inside the index predicate
`record_status IN ("active", "inactive")`. -/
def indexConflict (row other : Attendance) : Bool :=
  activeOrInactive row && activeOrInactive other &&
    decide (row.id_employee = other.id_employee) && decide (row.date = other.date)

/-- `Attendance.create(row)`: the insert is refused (`none`, the exception that
the handlers catch) when the primary key is taken, when `id_employee`
references no user, or when the unique index would be violated. -/
def Attendance.create (s : Store) (row : Attendance) : Option Store :=
  if s.attendances.any (fun a => a.id_attendance = row.id_attendance) then none
  else if (User.findByPk s row.id_employee).isNone then none
  else if s.attendances.any (indexConflict row) then none
  else some { s with attendances := s.attendances ++ [row] }

/-- The instance method `old.update(values)`, `new` being `old` with the values
set.  Nothing is written when no column changes.  Otherwise `updated_at` is set
to the clock reading and the row with the primary key of `old` is rewritten; the
statement is refused when a changed `id_employee` references no user or when
the row, its indexed columns or its membership of the index changed, would
share its index key with another row. -/
def Attendance.update (s : Store) (old new : Attendance) (now : Nat) : Option Store :=
  if new = old then some s
  else
    let row := { new with updated_at := now }
    if new.id_employee ≠ old.id_employee ∧ (User.findByPk s new.id_employee).isNone then none
    else if (new.id_employee ≠ old.id_employee ∨ new.date ≠ old.date ∨
        activeOrInactive new ≠ activeOrInactive old) ∧
        s.attendances.any (fun a => a.id_attendance ≠ old.id_attendance && indexConflict row a)
      then none
    else
      some { s with attendances :=
        s.attendances.map fun a => if a.id_attendance = old.id_attendance then row else a }

/-! ## Responses -/

/-- The attributes `["id_user", "name", "email", "role"]` of an included
employee. -/
structure EmployeeInfo where
  id_user : String
  name : String
  email : String
  role : Role
  deriving DecidableEq, Repr

/-- An attendance row as it is serialised: the row, the included employee and
the `worked_hours` key (`none` when the key is absent, `some none` when it is
`null`). -/
structure AttendanceView where
  attendance : Attendance
  employee : Option EmployeeInfo
  worked_hours : Option (Option WorkedHours)
  deriving DecidableEq, Repr

/-- The `pagination` object of the list responses; `totalPages` is `none` when
`Math.ceil(count / limit)` is not finite. -/
structure Pagination where
  total : Nat
  page : Int
  limit : Int
  totalPages : Option Int
  deriving DecidableEq, Repr

/-- The `data` (and `pagination`) of a response body. -/
inductive Data where
  | absent
  | null
  | one (v : AttendanceView)
  | many (rows : List AttendanceView) (pagination : Pagination)
  deriving DecidableEq, Repr

/-- A response: HTTP status and the `success`, `message` and `data` of its
body.  The `error` text of a 500 response is not represented. -/
structure Response where
  status : Nat
  success : Bool
  message : String
  data : Data
  deriving DecidableEq, Repr

/-- The attendance records that a response returns. -/
def Response.records (r : Response) : List Attendance :=
  match r.data with
  | Data.one v => [v.attendance]
  | Data.many rows _ => rows.map fun v => v.attendance
  | _ => []

/-- The `include` of the employee: a left join on `id_employee`. -/
def withEmployee (s : Store) (a : Attendance) : AttendanceView :=
  { attendance := a
    employee := (User.findByPk s a.id_employee).map fun u =>
      { id_user := u.id_user, name := u.name, email := u.email, role := u.role }
    worked_hours := none }

/-- `data: await Attendance.findByPk(id, { include })`. -/
def dataByPk (s : Store) (id : String) : Data :=
  match Attendance.findByPk s id with
  | some a => Data.one (withEmployee s a)
  | none => Data.null

/-- JavaScript `t || null` for a value that is absent, `null` or a string. -/
def orNull (t : Option String) : Option String :=
  if falsy t then none else t

/-! ## Handlers of `attendance.controller.js`

A handler takes the store, the clock reading and the identifier that `uuidv4()`
returns where it uses them, and the parameters it reads from the request; it
returns the store it leaves and its response.  A refused write is the exception
caught by the `try`/`catch` of the handler, answered with status 500. -/

/-- A response without `data`. -/
def reply (status : Nat) (success : Bool) (message : String) : Response :=
  { status := status, success := success, message := message, data := Data.absent }

/-- A request body accepted by `createAttendanceSchema`. -/
structure CreateAttendanceBody where
  id_employee : String
  date : String
  entry_time : Option String
  exit_time : Option String
  status : Option AttendanceStatus
  observations : Option String
  deriving DecidableEq, Repr

/-- The filter `{ id_employee, date, record_status: ["active", "inactive"] }`. -/
def sameEmployeeDate (id_employee date : String) (a : Attendance) : Bool :=
  decide (a.id_employee = id_employee) && decide (a.date = date) && activeOrInactive a

/-- The filter `{ id_attendance: id, record_status: ["active", "inactive"] }`. -/
def byIdNotDeleted (id : String) (a : Attendance) : Bool :=
  decide (a.id_attendance = id) && activeOrInactive a

/-- The handler `createAttendance`. -/
def createAttendance (s : Store) (now : Nat) (id_attendance : String)
    (body : CreateAttendanceBody) : Store × Response :=
  match User.findByPk s body.id_employee with
  | none => (s, reply 404 false "Employee not found")
  | some _ =>
    match Attendance.findOne s (sameEmployeeDate body.id_employee body.date) with
    | some _ =>
      (s, reply 400 false "Attendance record already exists for this employee on this date")
    | none =>
      match Attendance.create s
          { id_attendance := id_attendance
            id_employee := body.id_employee
            date := body.date
            entry_time := orNull body.entry_time
            exit_time := orNull body.exit_time
            status := body.status.getD AttendanceStatus.present
            observations := orNull body.observations
            record_status := Lifecycle.active
            created_at := now
            updated_at := now } with
      | none => (s, reply 500 false "Error creating attendance")
      | some s' =>
        (s', { status := 201, success := true, message := "Attendance created successfully",
               data := dataByPk s' id_attendance })

/-- A request body accepted by `registerEntrySchema`. -/
structure RegisterEntryBody where
  id_employee : String
  date : String
  entry_time : String
  deriving DecidableEq, Repr

/-- The handler `registerEntry`.  The columns that it does not pass take
their defaults: `exit_time` and `observations` are `null`. -/
def registerEntry (s : Store) (now : Nat) (id_attendance : String)
    (body : RegisterEntryBody) : Store × Response :=
  match User.findByPk s body.id_employee with
  | none => (s, reply 404 false "Employee not found")
  | some _ =>
    match Attendance.findOne s (sameEmployeeDate body.id_employee body.date) with
    | some _ => (s, reply 400 false "Entry already registered for this employee on this date")
    | none =>
      match Attendance.create s
          { id_attendance := id_attendance
            id_employee := body.id_employee
            date := body.date
            entry_time := some body.entry_time
            exit_time := none
            status := AttendanceStatus.present
            observations := none
            record_status := Lifecycle.active
            created_at := now
            updated_at := now } with
      | none => (s, reply 500 false "Error registering entry")
      | some s' =>
        (s', { status := 201, success := true, message := "Entry registered successfully",
               data := dataByPk s' id_attendance })

/-- The handler `registerExit`, for the `id` of the path and the `exit_time` of
a body accepted by `registerExitSchema`. -/
def registerExit (s : Store) (now : Nat) (id : String) (exit_time : String) :
    Store × Response :=
  match Attendance.findOne s (byIdNotDeleted id) with
  | none => (s, reply 404 false "Attendance not found")
  | some attendance =>
    if !falsy attendance.exit_time then (s, reply 400 false "Exit time already registered")
    else
      match Attendance.update s attendance { attendance with exit_time := some exit_time } now with
      | none => (s, reply 500 false "Error registering exit")
      | some s' =>
        match Attendance.findByPk s' id with
        | none => (s', reply 500 false "Error registering exit")
        | some updated =>
          (s', { status := 200, success := true, message := "Exit registered successfully",
                 data := Data.one
                   { withEmployee s' updated with
                     worked_hours :=
                       some (calculateWorkedHours updated.entry_time updated.exit_time) } })

/-- A request body accepted by `updateAttendanceSchema`.  For each key `none`
means that the key is absent; for the nullable keys `some none` is `null`.  The
schema does not reject the keys that it does not declare and the handler passes
the body as it was sent, so the columns `id_employee` and `record_status` can be
set as well.  (`id_attendance` is ignored by `update` on a stored row.) -/
structure UpdateAttendanceBody where
  date : Option String
  entry_time : Option (Option String)
  exit_time : Option (Option String)
  status : Option AttendanceStatus
  observations : Option (Option String)
  id_employee : Option String
  record_status : Option Lifecycle
  deriving DecidableEq, Repr

/-- The row `a` with the values of the body set. -/
def applyUpdate (a : Attendance) (b : UpdateAttendanceBody) : Attendance :=
  { a with
    date := b.date.getD a.date
    entry_time := b.entry_time.getD a.entry_time
    exit_time := b.exit_time.getD a.exit_time
    status := b.status.getD a.status
    observations := b.observations.getD a.observations
    id_employee := b.id_employee.getD a.id_employee
    record_status := b.record_status.getD a.record_status }

/-- The handler `updateAttendance`. -/
def updateAttendance (s : Store) (now : Nat) (id : String) (updateData : UpdateAttendanceBody) :
    Store × Response :=
  match Attendance.findOne s (byIdNotDeleted id) with
  | none => (s, reply 404 false "Attendance not found")
  | some attendance =>
    match Attendance.update s attendance (applyUpdate attendance updateData) now with
    | none => (s, reply 500 false "Error updating attendance")
    | some s' =>
      (s', { status := 200, success := true, message := "Attendance updated successfully",
             data := dataByPk s' id })

/-- The handler `deleteAttendance`. -/
def deleteAttendance (s : Store) (now : Nat) (id : String) : Store × Response :=
  match Attendance.findOne s (byIdNotDeleted id) with
  | none => (s, reply 404 false "Attendance not found")
  | some attendance =>
    match Attendance.update s attendance
        { attendance with record_status := Lifecycle.deleted } now with
    | none => (s, reply 500 false "Error deleting attendance")
    | some s' => (s', reply 200 true "Attendance deleted successfully")

/-- The handler `getAttendanceById`. -/
def getAttendanceById (s : Store) (id : String) : Response :=
  match Attendance.findOne s (byIdNotDeleted id) with
  | none => reply 404 false "Attendance not found"
  | some attendance =>
    let attendanceData := withEmployee s attendance
    { status := 200, success := true, message := "Attendance retrieved successfully",
      data := Data.one
        (if !falsy attendance.entry_time && !falsy attendance.exit_time then
          { attendanceData with
            worked_hours :=
              some (calculateWorkedHours attendance.entry_time attendance.exit_time) }
         else attendanceData) }

/-! ### Paginated lists -/

/-- The result `{ count, rows }` of `findAndCountAll`. -/
structure Page where
  count : Nat
  rows : List AttendanceView
  deriving DecidableEq, Repr

/-- `Attendance.findAndCountAll({ where, include, limit, offset, order })`: the
rows joined with their employee that pass the filter are counted, put in the
requested order, and the window `offset, limit` of them is returned.  A negative
`limit` or `offset` is refused by the database.  `order a b` says that `a` may
come before `b`; the order among rows that compare equal is left to the
database and is the one of insertion here. -/
def Attendance.findAndCountAll (s : Store) (wh : AttendanceView → Bool)
    (order : AttendanceView → AttendanceView → Bool) (limit offset : Int) : Option Page :=
  if limit < 0 ∨ offset < 0 then none
  else
    let found := (s.attendances.map (withEmployee s)).filter wh
    some
      { count := found.length
        rows := ((found.insertionSort fun a b => order a b = true).drop offset.toNat).take
          limit.toNat }

/-- `Math.ceil(count / limit)` for a non-negative `limit`; the quotient by `0`
is not finite. -/
def totalPages (count : Nat) (limit : Int) : Option Int :=
  if limit = 0 then none else some (-((-(count : Int)) / limit))

/-- The 200 response of a list handler, or its 500 response when the query was
refused. -/
def listResponse (message errorMessage : String) (page limit : Int) (r : Option Page) :
    Response :=
  match r with
  | none => reply 500 false errorMessage
  | some p =>
    { status := 200, success := true, message := message,
      data := Data.many p.rows
        { total := p.count, page := page, limit := limit,
          totalPages := totalPages p.count limit } }

/-- The order of two strings, character by character.  Dates written
`YYYY-MM-DD` and times written `HH:MM:SS` are ordered by it as the database
orders them; for names the order of the database follows its collation. -/
def strLt (a b : String) : Bool := decide (a.toList < b.toList)

/-- `ORDER BY date DESC`. -/
def dateDesc (a b : AttendanceView) : Bool :=
  !strLt a.attendance.date b.attendance.date

/-- The comparison of two nullable strings, `NULL` being the largest. -/
def timeLt (a b : Option String) : Bool :=
  match a, b with
  | some x, some y => strLt x y
  | some _, none => true
  | none, _ => false

/-- `ORDER BY date DESC, entry_time DESC`. -/
def dateEntryDesc (a b : AttendanceView) : Bool :=
  strLt b.attendance.date a.attendance.date ||
    (decide (a.attendance.date = b.attendance.date) &&
      !timeLt a.attendance.entry_time b.attendance.entry_time)

/-- The name of the joined employee, `NULL` when there is none. -/
def employeeName (v : AttendanceView) : Option String := v.employee.map fun e => e.name

/-- `ORDER BY employee.name ASC`. -/
def employeeNameAsc (a b : AttendanceView) : Bool :=
  !timeLt (employeeName b) (employeeName a)

/-- The query parameters `page` and `limit` after `Number(...)`, absent ones
taking the defaults `1` and `10`. -/
structure PageQuery where
  page : Option Int
  limit : Option Int
  deriving DecidableEq, Repr

/-- `Number(page)` with the default. -/
def PageQuery.pageNumber (q : PageQuery) : Int := q.page.getD 1

/-- `Number(limit)` with the default. -/
def PageQuery.limitNumber (q : PageQuery) : Int := q.limit.getD 10

/-- The expression `(Number(page) - 1) * Number(limit)`. -/
def PageQuery.offset (q : PageQuery) : Int := (q.pageNumber - 1) * q.limitNumber

/-- The handler `getAllAttendances`. -/
def getAllAttendances (s : Store) (q : PageQuery) : Response :=
  listResponse "Attendances retrieved successfully" "Error getting attendances"
    q.pageNumber q.limitNumber
    (Attendance.findAndCountAll s (fun v => activeOrInactive v.attendance) dateEntryDesc
      q.limitNumber q.offset)

/-- The handler `getAttendancesByEmployee`. -/
def getAttendancesByEmployee (s : Store) (id_employee : String) (q : PageQuery) : Response :=
  listResponse "Attendances retrieved successfully" "Error getting attendances by employee"
    q.pageNumber q.limitNumber
    (Attendance.findAndCountAll s
      (fun v => decide (v.attendance.id_employee = id_employee) && activeOrInactive v.attendance)
      dateDesc q.limitNumber q.offset)

/-- The handler `getAttendancesByDate`. -/
def getAttendancesByDate (s : Store) (date : String) (q : PageQuery) : Response :=
  listResponse "Attendances retrieved successfully" "Error getting attendances by date"
    q.pageNumber q.limitNumber
    (Attendance.findAndCountAll s
      (fun v => decide (v.attendance.date = date) && activeOrInactive v.attendance)
      employeeNameAsc q.limitNumber q.offset)

/-- The handler `getAttendancesByDateRange`; `Op.between` includes both ends. -/
def getAttendancesByDateRange (s : Store) (start_date end_date : String) (q : PageQuery) :
    Response :=
  listResponse "Attendances retrieved successfully" "Error getting attendances by date range"
    q.pageNumber q.limitNumber
    (Attendance.findAndCountAll s
      (fun v => !strLt v.attendance.date start_date &&
        !strLt end_date v.attendance.date && activeOrInactive v.attendance)
      dateDesc q.limitNumber q.offset)

/-- The handler `getAttendancesByStatus`, for a path parameter that names a
status. -/
def getAttendancesByStatus (s : Store) (status : AttendanceStatus) (q : PageQuery) : Response :=
  listResponse "Attendances retrieved successfully" "Error getting attendances by status"
    q.pageNumber q.limitNumber
    (Attendance.findAndCountAll s
      (fun v => decide (v.attendance.status = status) && activeOrInactive v.attendance)
      dateDesc q.limitNumber q.offset)

/-- The handler `searchAttendances`.  `like pattern value` is the `LIKE`
operator of the database; the `where` inside the `include` makes the join an
inner one, so a row without employee is not found. -/
def searchAttendances (like : String → String → Bool) (s : Store) (q : Option String)
    (pq : PageQuery) : Response :=
  if falsy q then reply 400 false "Search parameter required"
  else
    let searchTerm := "%" ++ q.getD "" ++ "%"
    listResponse "Search completed" "Error searching attendances" pq.pageNumber pq.limitNumber
      (Attendance.findAndCountAll s
        (fun v => activeOrInactive v.attendance &&
          (match v.employee with
           | some e => like searchTerm e.name
           | none => false))
        dateDesc pq.limitNumber pq.offset)

/-! ### Predicates on the store -/

/-- The number of records of employee `e` on date `d` whose `record_status` is
active or inactive. -/
def countActiveOrInactive (s : Store) (e d : String) : Nat :=
  (s.attendances.filter (sameEmployeeDate e d)).length

/-- The ledger invariant: for every employee and date at most one record has
`record_status` active or inactive. -/
def atMostOnePerEmployeeDate (s : Store) : Prop :=
  ∀ e d, countActiveOrInactive s e d ≤ 1

/-- The foreign key of `attendances.id_employee`: every attendance row
references a stored user. -/
def foreignKeyHolds (s : Store) : Prop :=
  ∀ a ∈ s.attendances, ∃ u ∈ s.users, u.id_user = a.id_employee

/-- The primary key of `attendances`: no two rows share `id_attendance`. -/
def primaryKeyHolds (s : Store) : Prop :=
  s.attendances.Pairwise fun a b => a.id_attendance ≠ b.id_attendance

/-- The store in which the records with identifier `id` have `exit_time` set and
`updated_at` moved to the clock reading, everything else being as in `s`. -/
def afterExit (s : Store) (now : Nat) (id exit_time : String) : Store :=
  { s with attendances := s.attendances.map fun x =>
      if x.id_attendance = id then { x with exit_time := some exit_time, updated_at := now }
      else x }

instance (s : Store) : Decidable (foreignKeyHolds s) := by
  unfold foreignKeyHolds
  exact inferInstance

instance (s : Store) : Decidable (primaryKeyHolds s) := by
  unfold primaryKeyHolds
  exact inferInstance

/-! ### Sample data -/

/-- A stored employee. -/
def sampleUser : User :=
  { id_user := "u-1", name := "Ana", email := "ana@hacienda.co", password := "$2b$10$hash",
    role := Role.employee, status := Lifecycle.active, created_at := 1, updated_at := 1 }

/-- An attendance of the sample employee with its entry registered. -/
def sampleAttendance : Attendance :=
  { id_attendance := "a-1", id_employee := "u-1", date := "2024-05-06",
    entry_time := some "08:30:00", exit_time := none, status := AttendanceStatus.present,
    observations := none, record_status := Lifecycle.active, created_at := 2, updated_at := 2 }

/-- A store with one employee and one attendance. -/
def sampleStore : Store :=
  { users := [sampleUser], attendances := [sampleAttendance] }

/-- A second attendance of the sample employee, on the next day. -/
def sampleAttendance2 : Attendance :=
  { id_attendance := "a-2", id_employee := "u-1", date := "2024-05-07",
    entry_time := some "08:45:00", exit_time := some "17:10:00",
    status := AttendanceStatus.late, observations := none,
    record_status := Lifecycle.active, created_at := 3, updated_at := 4 }

/-- A store with one employee and attendances on two days. -/
def sampleStore2 : Store :=
  { users := [sampleUser], attendances := [sampleAttendance, sampleAttendance2] }

/-- An update that only moves the record to a given date. -/
def sampleMove (date : String) : UpdateAttendanceBody :=
  { date := some date, entry_time := none, exit_time := none, status := none,
    observations := none, id_employee := none, record_status := none }

/-- The sample store after the first attendance was soft-deleted. -/
def sampleStoreDeleted : Store :=
  { users := [sampleUser],
    attendances :=
      [{ sampleAttendance with record_status := Lifecycle.deleted, updated_at := 9 },
        sampleAttendance2] }

/-- Whether the characters `needle` occur consecutively in a list. -/
def containsChars (needle : List Char) : List Char → Bool
  | [] => needle.isEmpty
  | c :: cs => needle.isPrefixOf (c :: cs) || containsChars needle cs

/-- A `LIKE` that tests whether the value contains the text between the two
`%` of the pattern, without wildcards inside it. -/
def sampleLike (pattern value : String) : Bool :=
  containsChars ((pattern.toList.drop 1).take (pattern.toList.length - 2)) value.toList

/-- A creation request for the sample employee on a given date. -/
def sampleCreate (date : String) : CreateAttendanceBody :=
  { id_employee := "u-1", date := date, entry_time := some "08:30", exit_time := none,
    status := none, observations := none }

/-- An entry registration for the sample employee on a given date. -/
def sampleEntry (date : String) : RegisterEntryBody :=
  { id_employee := "u-1", date := date, entry_time := "08:30" }

/-! ## Auth guard (`validatetoken.middleware.js`) -/

/-- The pieces of `s.split(sep)` for a one-character separator, on the
characters of `s`. -/
def splitChar (sep : Char) : List Char → List (List Char)
  | [] => [[]]
  | c :: cs =>
    if c = sep then [] :: splitChar sep cs
    else
      match splitChar sep cs with
      | [] => [[c]]
      | p :: ps => (c :: p) :: ps

/-- The claims that a session token carries: the payload given to `jwt.sign`,
and the fields of the decoded payload that the guard reads. -/
structure TokenPayload where
  id_user : String
  email : String
  role : String
  deriving DecidableEq, Repr

/-- The identity `req.user` that the guard attaches to a request. -/
structure ReqUser where
  id_user : String
  email : String
  role : String
  deriving DecidableEq, Repr

/-- The library `jsonwebtoken` under the secret and the expiry of the process,
at the time of the call: `sign` gives the token passed to its callback (`none`
when the callback gets an error), `verify` the decoded payload (`none` when the
token is malformed, badly signed or expired). -/
structure Jwt where
  sign : TokenPayload → Option String
  verify : String → Option TokenPayload

/-- What the middlewares and the router read of a request: method and path
below `/api`, the cookie `token`, the header `authorization`, the body as it
was sent, and `req.user`. -/
structure Request where
  method : String
  path : String
  cookieToken : Option String
  authorization : Option String
  body : String
  user : Option ReqUser
  deriving DecidableEq, Repr

/-- What a middleware does with a request: it sends a response, or it calls
`next()` with the request as it has left it. -/
inductive Outcome where
  | respond (r : Response)
  | next (req : Request)
  deriving DecidableEq, Repr

/-- The variable `token` of `authRequired` after the two lookups: the cookie
when it is truthy; otherwise, when the header is truthy and starts with
`Bearer `, the second piece of the header split at blanks.  `none` is
`undefined`. -/
def requestToken (req : Request) : Option String :=
  if !falsy req.cookieToken then req.cookieToken
  else if !falsy req.authorization then
    let authHeader := (req.authorization.getD "").toList
    if "Bearer ".toList.isPrefixOf authHeader then
      ((splitChar ' ' authHeader).get? 1).map String.mk
    else none
  else none

/-- The middleware `authRequired`. -/
def authRequired (jwt : Jwt) (req : Request) : Outcome :=
  let token := requestToken req
  if falsy token then Outcome.respond (reply 401 false "No token, authorization denied")
  else
    match jwt.verify (token.getD "") with
    | none => Outcome.respond (reply 403 false "Invalid token")
    | some decoded =>
      Outcome.next
        { req with
          user := some { id_user := decoded.id_user, email := decoded.email,
                         role := decoded.role } }

/-- The middleware `requireRole(...roles)`. -/
def requireRole (roles : List String) (req : Request) : Outcome :=
  match req.user with
  | none => Outcome.respond (reply 401 false "Not authenticated")
  | some user =>
    if !roles.contains user.role then
      Outcome.respond (reply 403 false "You don't have permission to access this resource")
    else Outcome.next req

/-- The middleware `validateSchema(schema)` on a body: `schema` says whether
`schema.parseAsync(req.body)` succeeds.  On success `next()` is called (`none`)
and the parsed value is dropped, the body stays as it was sent; on a `ZodError`
the response is 400.  (The `errors` list of that response is not represented,
and a schema given as a predicate raises no other error, so the 500 branch of
the middleware does not occur.) -/
def validateSchema {β : Type} (schema : β → Bool) (body : β) : Option Response :=
  if schema body then none else some (reply 400 false "Error de validación")

/-! ## Credentials (`auth.controller.js`, `createUser` of `user.controller.js`) -/

/-- The code points removed by `String.prototype.trim`: white space and line
terminators of ECMA-262. -/
def isJsWhitespace (c : Char) : Bool :=
  let n := c.toNat
  n = 0x09 || n = 0x0A || n = 0x0B || n = 0x0C || n = 0x0D || n = 0x20 || n = 0xA0 ||
    n = 0x1680 || (0x2000 ≤ n && n ≤ 0x200A) || n = 0x2028 || n = 0x2029 || n = 0x202F ||
    n = 0x205F || n = 0x3000 || n = 0xFEFF

/-- `s.trim()`. -/
def jsTrim (s : String) : String :=
  String.mk ((s.toList.dropWhile isJsWhitespace).reverse.dropWhile isJsWhitespace).reverse

/-- `s.toLowerCase()` on the letters `A` to `Z`; the other characters are kept
(the case mapping of the letters outside ASCII is not modelled; the email
pattern of the schemas admits none). -/
def jsToLowerCase (s : String) : String :=
  String.mk (s.toList.map Char.toLower)

/-- The name of a role in the `ENUM` column. -/
def roleName : Role → String
  | Role.employee => "employee"
  | Role.admin => "admin"
  | Role.client => "client"

/-- `User.findOne({ where: { email } })`: the email is compared as it was given,
character by character (a case-sensitive comparison, the one of PostgreSQL for
`=` on a `VARCHAR` column). -/
def User.findOne (s : Store) (email : String) : Option User :=
  s.users.find? fun u => u.email = email

/-- `User.create(values)`: the setters of the model trim the name and trim and
lowercase the email; the insert is refused when the primary key is taken, when
the email, as stored, is taken (`unique: true`), or when a value is longer than
its `STRING(n)` column.  The result is the store and the created row. -/
def User.create (s : Store) (values : User) : Option (Store × User) :=
  let row := { values with
    name := jsTrim values.name
    email := jsToLowerCase (jsTrim values.email) }
  if s.users.any (fun u => u.id_user = row.id_user) then none
  else if s.users.any (fun u => u.email = row.email) then none
  else if 100 < row.name.length ∨ 100 < row.email.length ∨ 255 < row.password.length then none
  else some ({ s with users := s.users ++ [row] }, row)

/-- A user as it is serialised after `const { password: _, ...userResponse }`. -/
structure UserView where
  id_user : String
  name : String
  email : String
  role : Role
  status : Lifecycle
  created_at : Nat
  updated_at : Nat
  deriving DecidableEq, Repr

/-- The row without its `password`. -/
def User.view (u : User) : UserView :=
  { id_user := u.id_user, name := u.name, email := u.email, role := u.role,
    status := u.status, created_at := u.created_at, updated_at := u.updated_at }

/-- The `data` of a response of the credential handlers. -/
inductive AuthData where
  | absent
  | user (u : UserView)
  | session (user : UserView) (token : String)
  deriving DecidableEq, Repr

/-- A response of the credential handlers: status, body and the value of the
cookie `token` when `res.cookie("token", ...)` was called. -/
structure AuthResponse where
  status : Nat
  success : Bool
  message : String
  data : AuthData
  cookie : Option String
  deriving DecidableEq, Repr

/-- A response with `success` and `message` only, and no cookie. -/
def authReply (status : Nat) (success : Bool) (message : String) : AuthResponse :=
  { status := status, success := success, message := message, data := AuthData.absent,
    cookie := none }

/-- The state of a promise when nothing more can happen. -/
inductive Settled (α : Type) where
  | resolved (a : α)
  | rejected
  | pending
  deriving DecidableEq, Repr

/-- The helper `createAccessToken(payload)`: the promise is rejected on an
error, resolved with a truthy token, and left pending otherwise. -/
def createAccessToken (jwt : Jwt) (payload : TokenPayload) : Settled String :=
  match jwt.sign payload with
  | none => Settled.rejected
  | some token => if token = "" then Settled.pending else Settled.resolved token

/-- A request body of `POST /auth/login` with its two strings. -/
structure LoginBody where
  email : String
  password : String
  deriving DecidableEq, Repr

/-- The handler `login`; `compare` is `bcrypt.compare`.  The result is `none`
when no response is sent because the promise of `createAccessToken` stays
pending. -/
def login (compare : String → String → Bool) (jwt : Jwt) (s : Store) (body : LoginBody) :
    Option AuthResponse :=
  match User.findOne s body.email with
  | none => some (authReply 401 false "Invalid credentials")
  | some userFound =>
    if userFound.status ≠ Lifecycle.active then
      some (authReply 401 false "Inactive user. Contact administrator")
    else if !compare body.password userFound.password then
      some (authReply 401 false "Invalid credentials")
    else
      match createAccessToken jwt
          { id_user := userFound.id_user, email := userFound.email,
            role := roleName userFound.role } with
      | Settled.rejected => some (authReply 500 false "Server error")
      | Settled.pending => none
      | Settled.resolved token =>
        some
          { status := 200, success := true, message := "Login successful",
            data := AuthData.session userFound.view token, cookie := some token }

/-- The check of `loginSchema` on a body with its two strings: the email passes
the email pattern of the schema library, given as `isEmail`, and the password
has at least 6 characters. -/
def loginSchema (isEmail : String → Bool) (body : LoginBody) : Bool :=
  isEmail body.email && decide (6 ≤ body.password.length)

/-- The route `POST /auth/login`: `validateSchema(loginSchema)`, then `login`. -/
def loginRoute (isEmail : String → Bool) (compare : String → String → Bool) (jwt : Jwt)
    (s : Store) (body : LoginBody) : Option AuthResponse :=
  match validateSchema (loginSchema isEmail) body with
  | some r => some (authReply r.status r.success r.message)
  | none => login compare jwt s body

/-- A request body of `POST /auth/register`; `role` is `none` when absent. -/
structure RegisterBody where
  name : String
  email : String
  password : String
  role : Option Role
  deriving DecidableEq, Repr

/-- The handler `register`; `hash` is `bcrypt.hash(_, 10)`. -/
def register (hash : String → String) (s : Store) (now : Nat) (id_user : String)
    (body : RegisterBody) : Store × AuthResponse :=
  match User.findOne s body.email with
  | some _ => (s, authReply 409 false "Email already registered")
  | none =>
    match User.create s
        { id_user := id_user, name := body.name, email := body.email,
          password := hash body.password, role := body.role.getD Role.client,
          status := Lifecycle.active, created_at := now, updated_at := now } with
    | none => (s, authReply 500 false "Error creating user")
    | some (s', newUser) =>
      (s', { status := 201, success := true, message := "User registered successfully",
             data := AuthData.user newUser.view, cookie := none })

/-- A request body of `POST /users` accepted by `createUserSchema`. -/
structure CreateUserBody where
  name : String
  email : String
  password : String
  role : Role
  status : Option Lifecycle
  deriving DecidableEq, Repr

/-- The handler `createUser`. -/
def createUser (hash : String → String) (s : Store) (now : Nat) (id_user : String)
    (body : CreateUserBody) : Store × AuthResponse :=
  match User.findOne s body.email with
  | some _ => (s, authReply 400 false "Email already registered")
  | none =>
    match User.create s
        { id_user := id_user, name := body.name, email := body.email,
          password := hash body.password, role := body.role,
          status := body.status.getD Lifecycle.active, created_at := now,
          updated_at := now } with
    | none => (s, authReply 500 false "Error creating user")
    | some (s', newUser) =>
      (s', { status := 201, success := true, message := "User created successfully",
             data := AuthData.user newUser.view, cookie := none })

/-- The unique constraint of `users.email`. -/
def emailUniqueHolds (s : Store) : Prop :=
  s.users.Pairwise fun a b => a.email ≠ b.email

instance (s : Store) : Decidable (emailUniqueHolds s) := by
  unfold emailUniqueHolds
  exact inferInstance

/-! ## Routing (`app.js`, `routes/*.routes.js`) -/

/-- A function in the handler stack of a route or of `router.use`: one of the
two middlewares or a controller function, named by its module and its name. -/
inductive Middleware where
  | authRequired
  | validateSchema (schema : String)
  | controller (module name : String)
  deriving DecidableEq, Repr

/-- A layer of a router: `router.use(m)`, which every request goes through, or
`router.METHOD(path, ...stack)`. -/
inductive Layer where
  | use (m : Middleware)
  | route (method path : String) (stack : List Middleware)
  deriving DecidableEq, Repr

/-- The router of `auth.routes.js`. -/
def authRoutes : List Layer :=
  [ Layer.route "POST" "/auth/login"
      [Middleware.validateSchema "loginSchema", Middleware.controller "auth" "login"],
    Layer.route "POST" "/auth/register"
      [Middleware.validateSchema "registerSchema", Middleware.controller "auth" "register"],
    Layer.route "POST" "/auth/verify" [Middleware.controller "auth" "verifyToken"],
    Layer.route "POST" "/auth/logout"
      [Middleware.authRequired, Middleware.controller "auth" "logout"],
    Layer.route "GET" "/auth/profile"
      [Middleware.authRequired, Middleware.controller "auth" "getProfile"],
    Layer.route "POST" "/auth/change-password"
      [Middleware.authRequired, Middleware.validateSchema "changePasswordSchema",
        Middleware.controller "auth" "changePassword"] ]

/-- The router of `user.routes.js`. -/
def userRoutes : List Layer :=
  [ Layer.use Middleware.authRequired,
    Layer.route "POST" "/users"
      [Middleware.validateSchema "createUserSchema", Middleware.controller "user" "createUser"],
    Layer.route "GET" "/users" [Middleware.controller "user" "getAllUsers"],
    Layer.route "GET" "/users/:id" [Middleware.controller "user" "getUserById"],
    Layer.route "PUT" "/users/:id"
      [Middleware.validateSchema "updateUserSchema", Middleware.controller "user" "updateUser"],
    Layer.route "DELETE" "/users/:id" [Middleware.controller "user" "deleteUser"],
    Layer.route "GET" "/users/role/:role" [Middleware.controller "user" "getUsersByRole"],
    Layer.route "GET" "/users/search" [Middleware.controller "user" "searchUsers"],
    Layer.route "PUT" "/profile"
      [Middleware.validateSchema "updateProfileSchema",
        Middleware.controller "user" "updateProfile"] ]

/-- The router of `attendance.routes.js`. -/
def attendanceRoutes : List Layer :=
  [ Layer.use Middleware.authRequired,
    Layer.route "POST" "/attendances"
      [Middleware.validateSchema "createAttendanceSchema",
        Middleware.controller "attendance" "createAttendance"],
    Layer.route "GET" "/attendances" [Middleware.controller "attendance" "getAllAttendances"],
    Layer.route "GET" "/attendances/:id"
      [Middleware.controller "attendance" "getAttendanceById"],
    Layer.route "PUT" "/attendances/:id"
      [Middleware.validateSchema "updateAttendanceSchema",
        Middleware.controller "attendance" "updateAttendance"],
    Layer.route "DELETE" "/attendances/:id"
      [Middleware.controller "attendance" "deleteAttendance"],
    Layer.route "POST" "/attendances/entry"
      [Middleware.validateSchema "registerEntrySchema",
        Middleware.controller "attendance" "registerEntry"],
    Layer.route "POST" "/attendances/:id/exit"
      [Middleware.validateSchema "registerExitSchema",
        Middleware.controller "attendance" "registerExit"],
    Layer.route "GET" "/attendances/employee/:id_employee"
      [Middleware.controller "attendance" "getAttendancesByEmployee"],
    Layer.route "GET" "/attendances/date/:date"
      [Middleware.controller "attendance" "getAttendancesByDate"],
    Layer.route "GET" "/attendances/date-range"
      [Middleware.controller "attendance" "getAttendancesByDateRange"],
    Layer.route "GET" "/attendances/status/:status"
      [Middleware.controller "attendance" "getAttendancesByStatus"],
    Layer.route "GET" "/attendances/search"
      [Middleware.controller "attendance" "searchAttendances"],
    Layer.route "GET" "/attendances/statistics/general"
      [Middleware.controller "attendance" "getGeneralStatistics"],
    Layer.route "GET" "/attendances/statistics/employee/:id_employee"
      [Middleware.controller "attendance" "getStatisticsByEmployee"],
    Layer.route "GET" "/attendances/statistics/date-range"
      [Middleware.controller "attendance" "getStatisticsByDateRange"] ]

/-- The router of `camp.routes.js`. -/
def campRoutes : List Layer :=
  [ Layer.use Middleware.authRequired,
    Layer.route "POST" "/camps"
      [Middleware.validateSchema "createCampSchema", Middleware.controller "camp" "createCamp"],
    Layer.route "GET" "/camps" [Middleware.controller "camp" "getAllCamps"],
    Layer.route "GET" "/camps/:id" [Middleware.controller "camp" "getCampById"],
    Layer.route "PUT" "/camps/:id"
      [Middleware.validateSchema "updateCampSchema", Middleware.controller "camp" "updateCamp"],
    Layer.route "DELETE" "/camps/:id" [Middleware.controller "camp" "deleteCamp"],
    Layer.route "POST" "/camps/:id/assign-employee"
      [Middleware.validateSchema "assignEmployeeSchema",
        Middleware.controller "camp" "assignEmployee"],
    Layer.route "DELETE" "/camps/:id/remove-employee"
      [Middleware.controller "camp" "removeEmployee"],
    Layer.route "GET" "/camps/employee/:id_employee"
      [Middleware.controller "camp" "getCampsByEmployee"],
    Layer.route "GET" "/camps/status/:status" [Middleware.controller "camp" "getCampsByStatus"],
    Layer.route "GET" "/camps/search" [Middleware.controller "camp" "searchCamps"],
    Layer.route "GET" "/camps/statistics/general"
      [Middleware.controller "camp" "getCampStatistics"] ]

/-- The router of `department.routes.js`. -/
def departmentRoutes : List Layer :=
  [ Layer.use Middleware.authRequired,
    Layer.route "POST" "/departments"
      [Middleware.validateSchema "createDepartmentSchema",
        Middleware.controller "department" "createDepartment"],
    Layer.route "GET" "/departments" [Middleware.controller "department" "getAllDepartments"],
    Layer.route "GET" "/departments/:id"
      [Middleware.controller "department" "getDepartmentById"],
    Layer.route "PUT" "/departments/:id"
      [Middleware.validateSchema "updateDepartmentSchema",
        Middleware.controller "department" "updateDepartment"],
    Layer.route "DELETE" "/departments/:id"
      [Middleware.controller "department" "deleteDepartment"],
    Layer.route "GET" "/departments/:id/positions"
      [Middleware.controller "department" "getPositionsByDepartment"],
    Layer.route "GET" "/departments/search"
      [Middleware.controller "department" "searchDepartments"],
    Layer.route "GET" "/departments/statistics/general"
      [Middleware.controller "department" "getDepartmentStatistics"] ]

/-- The router of `position.routes.js`. -/
def positionRoutes : List Layer :=
  [ Layer.use Middleware.authRequired,
    Layer.route "POST" "/positions"
      [Middleware.validateSchema "createPositionSchema",
        Middleware.controller "position" "createPosition"],
    Layer.route "GET" "/positions" [Middleware.controller "position" "getAllPositions"],
    Layer.route "GET" "/positions/:id" [Middleware.controller "position" "getPositionById"],
    Layer.route "PUT" "/positions/:id"
      [Middleware.validateSchema "updatePositionSchema",
        Middleware.controller "position" "updatePosition"],
    Layer.route "DELETE" "/positions/:id" [Middleware.controller "position" "deletePosition"],
    Layer.route "GET" "/positions/department/:id_department"
      [Middleware.controller "position" "getPositionsByDepartment"],
    Layer.route "GET" "/positions/:id/employees"
      [Middleware.controller "position" "getEmployeesByPosition"],
    Layer.route "GET" "/positions/search" [Middleware.controller "position" "searchPositions"] ]

/-- The layers that a request below `/api` goes through, in the order of
`app.use("/api", authRoutes, userRoutes, attendanceRoutes, campRoutes,
departmentRoutes, positionRoutes)`: a router that does not end the request
hands it to the next one. -/
def apiLayers : List Layer :=
  authRoutes ++ userRoutes ++ attendanceRoutes ++ campRoutes ++ departmentRoutes ++
    positionRoutes

/-- How a request ends: a controller function is invoked with the request as
the middlewares left it, a middleware sends a response, or no layer ends it. -/
inductive Dispatched where
  | handled (module name : String) (req : Request)
  | responded (r : Response)
  | notFound
  deriving DecidableEq, Repr

/-- The result of running a handler stack: the request has ended, or the last
function called `next()`. -/
inductive StackResult where
  | done (d : Dispatched)
  | next (req : Request)
  deriving DecidableEq, Repr

/-- The functions of a stack run in order, each one on the request left by the
one before; a controller function sends its response and never calls `next()`.
`accepts schema body` says whether the named schema parses the body. -/
def runStack (jwt : Jwt) (accepts : String → String → Bool) :
    List Middleware → Request → StackResult
  | [], req => StackResult.next req
  | Middleware.authRequired :: ms, req =>
    match authRequired jwt req with
    | Outcome.respond r => StackResult.done (Dispatched.responded r)
    | Outcome.next req' => runStack jwt accepts ms req'
  | Middleware.validateSchema schema :: ms, req =>
    match validateSchema (accepts schema) req.body with
    | some r => StackResult.done (Dispatched.responded r)
    | none => runStack jwt accepts ms req
  | Middleware.controller module name :: _, req =>
    StackResult.done (Dispatched.handled module name req)

/-- The dispatch of Express over a list of layers: the layers are tried in
order, a `use` layer always runs, a route runs when it matches, and the first
function that does not call `next()` ends the request.
`matchesRoute method path m p` says whether the route registered for `method`
and the pattern `path` matches a request with method `m` and path `p`. -/
def dispatch (jwt : Jwt) (matchesRoute : String → String → String → String → Bool)
    (accepts : String → String → Bool) : List Layer → Request → Dispatched
  | [], _ => Dispatched.notFound
  | Layer.use m :: ls, req =>
    match runStack jwt accepts [m] req with
    | StackResult.done d => d
    | StackResult.next req' => dispatch jwt matchesRoute accepts ls req'
  | Layer.route method path stack :: ls, req =>
    if matchesRoute method path req.method req.path then
      match runStack jwt accepts stack req with
      | StackResult.done d => d
      | StackResult.next req' => dispatch jwt matchesRoute accepts ls req'
    else dispatch jwt matchesRoute accepts ls req

/-- The three controller functions that are registered without `authRequired`. -/
def isPublicHandler (module name : String) : Bool :=
  decide (module = "auth") &&
    (decide (name = "login") || decide (name = "register") || decide (name = "verifyToken"))

/-- A static check of a handler stack: every controller function in it is
public or comes after `authRequired`; `authed` says whether `authRequired` has
run before the stack. -/
def stackGuarded : Bool → List Middleware → Bool
  | _, [] => true
  | _, Middleware.authRequired :: ms => stackGuarded true ms
  | authed, Middleware.validateSchema _ :: ms => stackGuarded authed ms
  | authed, Middleware.controller module name :: ms =>
    (authed || isPublicHandler module name) && stackGuarded authed ms

/-- The same static check over the layers of a router. -/
def layersGuarded : Bool → List Layer → Bool
  | _, [] => true
  | _, Layer.use Middleware.authRequired :: ls => layersGuarded true ls
  | authed, Layer.use m :: ls => stackGuarded authed [m] && layersGuarded authed ls
  | authed, Layer.route _ _ stack :: ls => stackGuarded authed stack && layersGuarded authed ls

/-- The methods and paths of the routes whose stack holds a controller
function. -/
def routesOf (module name : String) : List Layer → List (String × String)
  | [] => []
  | Layer.use _ :: ls => routesOf module name ls
  | Layer.route method path stack :: ls =>
    if stack.contains (Middleware.controller module name) then
      (method, path) :: routesOf module name ls
    else routesOf module name ls

/-- Whether a `use` layer holds a controller function. -/
def usesController : List Layer → Bool
  | [] => false
  | Layer.use (Middleware.controller _ _) :: _ => true
  | _ :: ls => usesController ls

/-! ### Sample data for the guard and the credentials -/

/-- A token library that signs a payload into a readable text and verifies the
token of the sample employee only. -/
def sampleJwt : Jwt :=
  { sign := fun p => some ("jwt:" ++ p.id_user ++ ":" ++ p.email ++ ":" ++ p.role)
    verify := fun t =>
      if t = "jwt:u-1:ana@hacienda.co:employee" then
        some { id_user := "u-1", email := "ana@hacienda.co", role := "employee" }
      else none }

/-- A token library that signs the payload of the sample employee only, and
verifies what it signs. -/
def sampleSigner : Jwt :=
  { sign := fun p =>
      if p = { id_user := "u-1", email := "ana@hacienda.co", role := "employee" } then
        some "jwt:u-1:ana@hacienda.co:employee"
      else none
    verify := sampleJwt.verify }

/-- A password comparison under which `secret1` is the password of the sample
employee. -/
def sampleCompare (password hash : String) : Bool :=
  decide (password = "secret1" ∧ hash = "$2b$10$hash")

/-- A password hash. -/
def sampleHash (password : String) : String := "$2b$10$" ++ password

/-- A stand-in for the email pattern of the schema library: the text holds an
`@`. -/
def sampleIsEmail (email : String) : Bool := email.toList.contains '@'

/-- A request for the list of users with a given cookie and header. -/
def sampleRequest (cookie header : Option String) : Request :=
  { method := "GET", path := "/users", cookieToken := cookie, authorization := header,
    body := "", user := none }

/-- The sample store with the employee deactivated. -/
def sampleStoreInactive : Store :=
  { users := [{ sampleUser with status := Lifecycle.inactive }], attendances := [] }

/-- A route matching that compares method and path literally. -/
def sampleMatches (method path m p : String) : Bool :=
  decide (method = m) && decide (path = p)

/-! ## The schema middleware with its error list (`validateschema.middleware.js`) -/

/-- A segment of the `path` of a validation issue: an object key or an array
index. -/
inductive PathSegment where
  | key (k : String)
  | index (i : Nat)
  deriving DecidableEq, Repr

/-- An issue of a `ZodError`: where the body fails and why. -/
structure ZodIssue where
  path : List PathSegment
  message : String
  deriving DecidableEq, Repr

/-- How `schema.parseAsync(req.body)` settles: with the parsed output of the
schema, with a `ZodError` that carries the issues, or with another error. -/
inductive Parsed (α : Type) where
  | value (output : α)
  | zodError (issues : List ZodIssue)
  | otherError
  deriving DecidableEq, Repr

/-- The text of a path segment inside `Array.prototype.join`. -/
def PathSegment.text : PathSegment → String
  | PathSegment.key k => k
  | PathSegment.index i => String.mk (Nat.toDigits 10 i)

/-- `err.path.join(".")`. -/
def joinPath (path : List PathSegment) : String :=
  ".".intercalate (path.map PathSegment.text)

/-- An entry `{ path, message }` of the `errors` list. -/
structure ValidationError where
  path : String
  message : String
  deriving DecidableEq, Repr

/-- A response of the schema middleware: status, `success`, `message` and the
`errors` list (`none` when the body has no such key). -/
structure ValidationResponse where
  status : Nat
  success : Bool
  message : String
  errors : Option (List ValidationError)
  deriving DecidableEq, Repr

/-- What the schema middleware does with a request: it calls `next()`, and the
handler that follows reads `body` as `req.body`, or it sends a response and the
handler is not invoked. -/
inductive Validated (β : Type) where
  | next (body : β)
  | respond (r : ValidationResponse)
  deriving DecidableEq, Repr

/-- The middleware `validateSchema(schema)` with the result of
`schema.parseAsync` in full; the schema library builds its output and leaves the
body that it parses as it is.  The parsed output is awaited and dropped:
`next()` is called on the request as it came. -/
def validateSchema.run {β : Type} (parseAsync : β → Parsed β) (body : β) : Validated β :=
  match parseAsync body with
  | Parsed.value _ => Validated.next body
  | Parsed.zodError issues =>
    Validated.respond
      { status := 400, success := false, message := "Error de validación",
        errors := some (issues.map fun err =>
          { path := joinPath err.path, message := err.message }) }
  | Parsed.otherError =>
    Validated.respond
      { status := 500, success := false, message := "Error interno del servidor",
        errors := none }

/-- The issues of a string under `.min(n, { message })`, the length being
counted in characters. -/
def minIssue (key : String) (n : Nat) (message : String) (value : String) : List ZodIssue :=
  if value.length < n then [{ path := [PathSegment.key key], message := message }] else []

/-- The issues of a string under `.max(n, { message })`. -/
def maxIssue (key : String) (n : Nat) (message : String) (value : String) : List ZodIssue :=
  if n < value.length then [{ path := [PathSegment.key key], message := message }] else []

/-- `registerSchema.parseAsync` on a body whose keys have the declared types.
The checks of a string run in the order they are declared, on the value as it
was sent, and every failed check adds its issue; the output has the name
trimmed, the email trimmed and lowercased, and the role defaulted.  `isEmail` is
the email pattern of the schema library. -/
def registerSchema.parse (isEmail : String → Bool) (body : RegisterBody) :
    Parsed RegisterBody :=
  let issues :=
    minIssue "name" 2 "Name must be at least 2 characters" body.name ++
    maxIssue "name" 100 "Name cannot exceed 100 characters" body.name ++
    (if isEmail body.email then []
     else [{ path := [PathSegment.key "email"], message := "Must be a valid email" }]) ++
    minIssue "password" 6 "Password must be at least 6 characters" body.password ++
    maxIssue "password" 50 "Password cannot exceed 50 characters" body.password
  if issues = [] then
    Parsed.value
      { name := jsTrim body.name, email := jsToLowerCase (jsTrim body.email),
        password := body.password, role := some (body.role.getD Role.client) }
  else Parsed.zodError issues

/-- The pattern `^\d{4}-\d{2}-\d{2}$` of the date schemas. -/
def isDateFormat (d : String) : Bool :=
  match d.toList with
  | [y1, y2, y3, y4, s1, m1, m2, s2, d1, d2] =>
    [y1, y2, y3, y4, m1, m2, d1, d2].all (isDigitIn '0' '9') && s1 = '-' && s2 = '-'
  | _ => false

/-- Whether `updateAttendanceSchema` parses a body: the declared keys that are
present and not `null` have their format.  A `z.object` schema does not reject
the keys that it does not declare. -/
def updateAttendanceSchema (body : UpdateAttendanceBody) : Bool :=
  (match body.date with
   | some d => isDateFormat d
   | none => true) &&
  (match body.entry_time with
   | some (some t) => isTimeFormat t
   | _ => true) &&
  (match body.exit_time with
   | some (some t) => isTimeFormat t
   | _ => true) &&
  (match body.observations with
   | some (some o) => decide (o.length ≤ 500)
   | _ => true)

/-- The route `PUT /attendances/:id` after the guard:
`validateSchema(updateAttendanceSchema)`, then `updateAttendance`. -/
def updateAttendanceRoute (s : Store) (now : Nat) (id : String) (body : UpdateAttendanceBody) :
    Store × Response :=
  match validateSchema updateAttendanceSchema body with
  | some r => (s, r)
  | none => updateAttendance s now id body

/-! ## Route matching of Express -/

/-- A path without one trailing `/`: routing is not strict. -/
def dropTrailingSlash (path : List Char) : List Char :=
  if path.length > 1 ∧ path.getLast? = some '/' then path.dropLast else path

/-- Whether the segments of a route pattern match the segments of a path: a
segment `:name` matches any segment that is not empty, another segment matches
itself, whatever the case of its letters. -/
def matchSegments : List (List Char) → List (List Char) → Bool
  | [], [] => true
  | p :: ps, x :: xs =>
    (if p.head? = some ':' then !x.isEmpty else p.map Char.toLower = x.map Char.toLower) &&
      matchSegments ps xs
  | _, _ => false

/-- Whether a route pattern made of literal and `:name` segments matches a
request path. -/
def matchPath (pattern path : String) : Bool :=
  matchSegments (splitChar '/' pattern.toList) (splitChar '/' (dropTrailingSlash path.toList))

/-- The route matching of Express for a route registered with
`router.METHOD(path, ...)`: the method of the request is the one of the route
(a `HEAD` request is also given to a `GET` route) and the pattern matches the
path. -/
def expressMatches (method path m p : String) : Bool :=
  (decide (method = m) || (decide (m = "HEAD") && decide (method = "GET"))) && matchPath path p

/-- A schema check that accepts every body. -/
def sampleAccepts (_schema _body : String) : Bool := true

/-- A request below `/api` with the session cookie of the sample employee. -/
def sampleAuthed (method path : String) : Request :=
  { method := method, path := path, cookieToken := some "jwt:u-1:ana@hacienda.co:employee",
    authorization := none, body := "", user := none }

/-! ## Users as they are serialised -/

/-- The name of a status in the `ENUM` column. -/
def lifecycleName : Lifecycle → String
  | Lifecycle.active => "active"
  | Lifecycle.inactive => "inactive"
  | Lifecycle.deleted => "deleted"

/-- A clock reading as it is written in a response. -/
def timeText (t : Nat) : String := String.mk (Nat.toDigits 10 t)

/-- A plain object whose values are texts: its keys with their values, in
order. -/
abbrev JsonObject := List (String × String)

/-- The keys of an object. -/
def JsonObject.keys (o : JsonObject) : List String := o.map Prod.fst

/-- `user.toJSON()`: every column of the row, the password hash among them. -/
def User.toJSON (u : User) : JsonObject :=
  [("id_user", u.id_user), ("name", u.name), ("email", u.email), ("password", u.password),
    ("role", roleName u.role), ("status", lifecycleName u.status),
    ("created_at", timeText u.created_at), ("updated_at", timeText u.updated_at)]

/-- The object `userResponse` of `const { password: _, ...userResponse } =
userData`: the keys of `userData` other than `password`. -/
def withoutPassword (userData : JsonObject) : JsonObject :=
  userData.filter fun kv => kv.1 ≠ "password"

/-- A row read with `attributes: [...]`: the listed columns only. -/
def pickAttributes (attributes : List String) (row : JsonObject) : JsonObject :=
  row.filter fun kv => attributes.contains kv.1

/-- No object of a list has the key `password`. -/
def noPassword (objects : List JsonObject) : Prop :=
  ∀ o ∈ objects, "password" ∉ JsonObject.keys o

/-- The view of the credential handlers written as an object. -/
def UserView.toJSON (v : UserView) : JsonObject :=
  [("id_user", v.id_user), ("name", v.name), ("email", v.email),
    ("role", roleName v.role), ("status", lifecycleName v.status),
    ("created_at", timeText v.created_at), ("updated_at", timeText v.updated_at)]

/-- The included employee of an attendance written as an object. -/
def EmployeeInfo.toJSON (e : EmployeeInfo) : JsonObject :=
  [("id_user", e.id_user), ("name", e.name), ("email", e.email), ("role", roleName e.role)]

/-- The user objects in the body of a response of the credential handlers. -/
def AuthResponse.userObjects (r : AuthResponse) : List JsonObject :=
  match r.data with
  | AuthData.absent => []
  | AuthData.user u => [u.toJSON]
  | AuthData.session u _ => [u.toJSON]

/-- The employee objects embedded in the body of a response of the attendance
handlers. -/
def Response.employeeObjects (r : Response) : List JsonObject :=
  match r.data with
  | Data.one v => (v.employee.map EmployeeInfo.toJSON).toList
  | Data.many rows _ => rows.filterMap fun v => v.employee.map EmployeeInfo.toJSON
  | _ => []

/-! ## Handlers of `user.controller.js`, `verifyToken` and `getProfile` -/

/-- The `data` (and `pagination`) of a response that returns users. -/
inductive UserData where
  | absent
  | one (user : JsonObject)
  | many (users : List JsonObject) (pagination : Pagination)
  deriving DecidableEq, Repr

/-- A response of a handler that returns users; `message` is `none` when the
body has no such key.  The `error` text of a 500 response is not represented. -/
structure UserResponse where
  status : Nat
  success : Bool
  message : Option String
  data : UserData
  deriving DecidableEq, Repr

/-- A response with `success` and `message` only. -/
def userReply (status : Nat) (success : Bool) (message : String) : UserResponse :=
  { status := status, success := success, message := some message, data := UserData.absent }

/-- The user objects in the body of a response. -/
def UserResponse.userObjects (r : UserResponse) : List JsonObject :=
  match r.data with
  | UserData.absent => []
  | UserData.one user => [user]
  | UserData.many users _ => users

/-- The `pagination` object in the body of a response, when it has one. -/
def UserResponse.pagination (r : UserResponse) : Option Pagination :=
  match r.data with
  | UserData.many _ pagination => some pagination
  | _ => none

/-- The filter `status: ["active", "inactive"]` on users. -/
def liveUser (u : User) : Bool :=
  u.status = Lifecycle.active || u.status = Lifecycle.inactive

/-- The result `{ count, rows }` of `User.findAndCountAll`. -/
structure UserPage where
  count : Nat
  rows : List User
  deriving DecidableEq, Repr

/-- `User.findAndCountAll({ where, limit, offset, order })`, as
`Attendance.findAndCountAll`. -/
def User.findAndCountAll (s : Store) (wh : User → Bool) (order : User → User → Bool)
    (limit offset : Int) : Option UserPage :=
  if limit < 0 ∨ offset < 0 then none
  else
    let found := s.users.filter wh
    some
      { count := found.length
        rows := ((found.insertionSort fun a b => order a b = true).drop offset.toNat).take
          limit.toNat }

/-- The order `[["created_at", "DESC"]]`. -/
def createdDesc (a b : User) : Bool := decide (b.created_at ≤ a.created_at)

/-- The 200 response of a list of users with the page as the query returned it,
or the 500 response when the query was refused. -/
def userListResponse (message errorMessage : String) (page limit : Int)
    (r : Option UserPage) : UserResponse :=
  match r with
  | none => userReply 500 false errorMessage
  | some p =>
    { status := 200, success := true, message := some message,
      data := UserData.many (p.rows.map fun user => withoutPassword user.toJSON)
        { total := p.count, page := page, limit := limit,
          totalPages := totalPages p.count limit } }

/-- The handler `getAllUsers`. -/
def getAllUsers (s : Store) (q : PageQuery) : UserResponse :=
  userListResponse "Users retrieved successfully" "Error getting users"
    q.pageNumber q.limitNumber
    (User.findAndCountAll s liveUser createdDesc q.limitNumber q.offset)

/-- The handler `getUserById`. -/
def getUserById (s : Store) (id : String) : UserResponse :=
  match User.findByPk s id with
  | none => userReply 404 false "User not found"
  | some user =>
    { status := 200, success := true, message := some "User retrieved successfully",
      data := UserData.one (withoutPassword user.toJSON) }

/-- The handler `getUsersByRole`, for a path parameter that names a role. -/
def getUsersByRole (s : Store) (role : Role) (q : PageQuery) : UserResponse :=
  userListResponse "Users retrieved successfully" "Error getting users by role"
    q.pageNumber q.limitNumber
    (User.findAndCountAll s (fun u => decide (u.role = role) && liveUser u) createdDesc
      q.limitNumber q.offset)

/-- The handler `searchUsers`: the page of users is read first, and the rows of
that page are then filtered by the search term. -/
def searchUsers (s : Store) (q : Option String) (pq : PageQuery) : UserResponse :=
  if falsy q then userReply 400 false "Search parameter required"
  else
    match User.findAndCountAll s liveUser createdDesc pq.limitNumber pq.offset with
    | none => userReply 500 false "Error searching users"
    | some p =>
      let searchTerm := (jsToLowerCase (q.getD "")).toList
      let filteredRows := p.rows.filter fun user =>
        containsChars searchTerm (jsToLowerCase user.name).toList ||
          containsChars searchTerm (jsToLowerCase user.email).toList
      { status := 200, success := true, message := some "Search completed",
        data := UserData.many (filteredRows.map fun user => withoutPassword user.toJSON)
          { total := filteredRows.length, page := pq.pageNumber, limit := pq.limitNumber,
            totalPages := totalPages filteredRows.length pq.limitNumber } }

/-- A request body of `PUT /users/:id` or `PUT /profile`: the keys that the
handlers read or that `update` sets, `none` for an absent key. -/
structure UpdateUserBody where
  name : Option String
  email : Option String
  password : Option String
  role : Option Role
  status : Option Lifecycle
  deriving DecidableEq, Repr

/-- The row `u` with the values set, through the setters of the model. -/
def User.set (u : User) (values : UpdateUserBody) : User :=
  { u with
    name := (values.name.map jsTrim).getD u.name
    email := (values.email.map fun e => jsToLowerCase (jsTrim e)).getD u.email
    password := values.password.getD u.password
    role := values.role.getD u.role
    status := values.status.getD u.status }

/-- The instance method `old.update(values)`.  Nothing is written when no
column changes.  Otherwise the statement sets the columns of the values, and
`updated_at` to the clock reading, on the row that has the primary key of
`old`; it is refused when the changed email is the email of another row or when
a changed value is longer than its `STRING(n)` column. -/
def User.update (s : Store) (old : User) (values : UpdateUserBody) (now : Nat) :
    Option Store :=
  let new := User.set old values
  if new = old then some s
  else if new.email ≠ old.email ∧
      s.users.any (fun u => u.id_user ≠ old.id_user && u.email = new.email) then none
  else if (new.name ≠ old.name ∧ 100 < new.name.length) ∨
      (new.email ≠ old.email ∧ 100 < new.email.length) ∨
      (new.password ≠ old.password ∧ 255 < new.password.length) then none
  else
    some { s with users := s.users.map fun u =>
      if u.id_user = old.id_user then { User.set u values with updated_at := now } else u }

/-- The check `if (updateData.email) ...` of `updateUser` and `updateProfile`:
the email of the body is truthy, differs from the stored one and is the email
of a user with another identifier. -/
def emailOfAnother (s : Store) (user : User) (id : String) (email : Option String) : Bool :=
  !falsy email && decide (email.getD "" ≠ user.email) &&
    match User.findOne s (email.getD "") with
    | some existingUser => decide (existingUser.id_user ≠ id)
    | none => false

/-- The end of `updateUser` and `updateProfile`: the row is read again and
returned without its password. -/
def updatedUserResponse (s : Store) (id : String) (message errorMessage : String) :
    UserResponse :=
  match User.findByPk s id with
  | none => userReply 500 false errorMessage
  | some updatedUser =>
    { status := 200, success := true, message := some message,
      data := UserData.one (withoutPassword updatedUser.toJSON) }

/-- The handler `updateUser`; `hash` is `bcrypt.hash(_, 10)`. -/
def updateUser (hash : String → String) (s : Store) (now : Nat) (id : String)
    (body : UpdateUserBody) : Store × UserResponse :=
  match User.findByPk s id with
  | none => (s, userReply 404 false "User not found")
  | some user =>
    if emailOfAnother s user id body.email then
      (s, userReply 400 false "Email already registered by another user")
    else
      let updateData :=
        if !falsy body.password then { body with password := body.password.map hash }
        else body
      match User.update s user updateData now with
      | none => (s, userReply 500 false "Error updating user")
      | some s' => (s', updatedUserResponse s' id "User updated successfully" "Error updating user")

/-- The handler `updateProfile` for the identity `req.user` that the guard
attached. -/
def updateProfile (s : Store) (now : Nat) (user : Option ReqUser) (body : UpdateUserBody) :
    Store × UserResponse :=
  match user with
  | none => (s, userReply 401 false "Not authenticated")
  | some reqUser =>
    let updateData := { body with role := none, status := none, password := none }
    match User.findByPk s reqUser.id_user with
    | none => (s, userReply 404 false "User not found")
    | some user =>
      if emailOfAnother s user reqUser.id_user updateData.email then
        (s, userReply 400 false "Email already registered by another user")
      else
        match User.update s user updateData now with
        | none => (s, userReply 500 false "Error updating profile")
        | some s' =>
          (s', updatedUserResponse s' reqUser.id_user "Profile updated successfully"
            "Error updating profile")

/-- The handler `verifyToken`: the token of the body, or else the cookie. -/
def verifyToken (jwt : Jwt) (s : Store) (tokenBody cookieToken : Option String) :
    UserResponse :=
  let tokenToVerify := if !falsy tokenBody then tokenBody else cookieToken
  if falsy tokenToVerify then userReply 401 false "Token not provided"
  else
    match jwt.verify (tokenToVerify.getD "") with
    | none => userReply 401 false "Invalid or expired token"
    | some decoded =>
      match User.findByPk s decoded.id_user with
      | none => userReply 401 false "User not found"
      | some userFound =>
        if userFound.status ≠ Lifecycle.active then userReply 401 false "Inactive user"
        else
          { status := 200, success := true, message := some "Valid token",
            data := UserData.one (withoutPassword userFound.toJSON) }

/-- The handler `getProfile`. -/
def getProfile (s : Store) (user : Option ReqUser) : UserResponse :=
  match user with
  | none => userReply 401 false "Not authenticated"
  | some reqUser =>
    match User.findByPk s reqUser.id_user with
    | none => userReply 404 false "User not found"
    | some user =>
      { status := 200, success := true, message := none,
        data := UserData.one (withoutPassword user.toJSON) }

/-! ### Sample users -/

/-- A second stored user, an administrator. -/
def sampleColleague : User :=
  { id_user := "u-2", name := "Eva", email := "eva@hacienda.co", password := "$2b$10$other",
    role := Role.admin, status := Lifecycle.active, created_at := 2, updated_at := 2 }

/-- A store with two users and one attendance. -/
def sampleStoreTwo : Store :=
  { users := [sampleUser, sampleColleague], attendances := [sampleAttendance] }

/-- The user number `i` of a list of employees registered one after the other,
all with an email at `hacienda.co`. -/
def sampleEmployee (i : Nat) : User :=
  { id_user := "e-" ++ timeText i, name := "Employee " ++ timeText i,
    email := "e" ++ timeText i ++ "@hacienda.co", password := "$2b$10$hash",
    role := Role.employee, status := Lifecycle.active, created_at := i, updated_at := i }

/-- A store with twelve employees. -/
def sampleStoreTwelve : Store :=
  { users := (List.range 12).map sampleEmployee, attendances := [] }

/-! ## Departments and positions (`department.model.js`, `position.model.js`) -/

/-- A row of `hr.departments`. -/
structure Department where
  id_department : String
  name : String
  description : Option String
  status : Lifecycle
  created_at : Nat
  updated_at : Nat
  deriving DecidableEq, Repr

/-- A row of `hr.positions`; `base_salary`, a `DECIMAL(10, 2)`, is counted in
hundredths. -/
structure Position where
  id_position : String
  name : String
  description : Option String
  id_department : String
  base_salary : Nat
  status : Lifecycle
  created_at : Nat
  updated_at : Nat
  deriving DecidableEq, Repr

/-- The rows of the two tables. -/
structure OrgStore where
  departments : List Department
  positions : List Position
  deriving DecidableEq, Repr

/-- The default scope of `Department`: `status: ["active", "inactive"]`. -/
def liveDepartment (d : Department) : Bool :=
  d.status = Lifecycle.active || d.status = Lifecycle.inactive

/-- The default scope of `Position`, and the filter
`status: ["active", "inactive"]`. -/
def livePosition (p : Position) : Bool :=
  p.status = Lifecycle.active || p.status = Lifecycle.inactive

/-- `Department.findByPk(id)`, under the default scope. -/
def Department.findByPk (o : OrgStore) (id : String) : Option Department :=
  o.departments.find? fun d => decide (d.id_department = id) && liveDepartment d

/-- `Department.scope("withDeleted").findByPk(id)`. -/
def Department.findByPkWithDeleted (o : OrgStore) (id : String) : Option Department :=
  o.departments.find? fun d => d.id_department = id

/-- `Department.scope("withDeleted").findOne({ where: { name } })`. -/
def Department.findOneWithDeleted (o : OrgStore) (name : String) : Option Department :=
  o.departments.find? fun d => d.name = name

/-- `Position.findByPk(id)`, under the default scope. -/
def Position.findByPk (o : OrgStore) (id : String) : Option Position :=
  o.positions.find? fun p => decide (p.id_position = id) && livePosition p

/-- `Position.count({ where: { id_department: id, status: ["active",
"inactive"] } })`. -/
def Position.count (o : OrgStore) (id : String) : Nat :=
  (o.positions.filter fun p => decide (p.id_department = id) && livePosition p).length

/-- A request body of `PUT /departments/:id`, and the values of
`department.update(values)`: `none` for an absent key, `some none` for `null`. -/
structure UpdateDepartmentBody where
  name : Option String
  description : Option (Option String)
  status : Option Lifecycle
  deriving DecidableEq, Repr

/-- Whether `updateDepartmentSchema` parses a body: a name of 2 to 100
characters, a description of at most 500, a status among `active`, `inactive`
and `deleted`, each of them optional. -/
def updateDepartmentSchema (body : UpdateDepartmentBody) : Bool :=
  (match body.name with
   | some n => decide (2 ≤ n.length ∧ n.length ≤ 100)
   | none => true) &&
  (match body.description with
   | some (some d) => decide (d.length ≤ 500)
   | _ => true)

/-- The row `d` with the values set, the name through the setter of the model. -/
def Department.set (d : Department) (values : UpdateDepartmentBody) : Department :=
  { d with
    name := (values.name.map jsTrim).getD d.name
    description := values.description.getD d.description
    status := values.status.getD d.status }

/-- The instance method `old.update(values)`.  Nothing is written when no
column changes.  Otherwise the statement sets the columns of the values, and
`updated_at` to the clock reading, on the row that has the primary key of
`old`; it is refused when the changed name is the name of another row
(`unique: true`) or is longer than its `STRING(100)` column. -/
def Department.update (o : OrgStore) (old : Department) (values : UpdateDepartmentBody)
    (now : Nat) : Option OrgStore :=
  let new := Department.set old values
  if new = old then some o
  else if new.name ≠ old.name ∧
      (o.departments.any (fun d => d.id_department ≠ old.id_department && d.name = new.name) ∨
        100 < new.name.length) then none
  else
    some { o with departments := o.departments.map fun d =>
      if d.id_department = old.id_department then
        { Department.set d values with updated_at := now }
      else d }

/-- The `data` of a response of the department handlers. -/
inductive DepartmentData where
  | absent
  | null
  | one (department : Department)
  deriving DecidableEq, Repr

/-- A response of the department and position handlers.  The `error` text of a
500 response is not represented. -/
structure OrgResponse where
  status : Nat
  success : Bool
  message : String
  data : DepartmentData
  deriving DecidableEq, Repr

/-- A response with `success` and `message` only. -/
def orgReply (status : Nat) (success : Bool) (message : String) :
    OrgResponse :=
  { status := status, success := success, message := message, data := DepartmentData.absent }

/-- The handler `updateDepartment`. -/
def updateDepartment (o : OrgStore) (now : Nat) (id : String)
    (updateData : UpdateDepartmentBody) : OrgStore × OrgResponse :=
  match Department.findByPkWithDeleted o id with
  | none => (o, orgReply 404 false "Department not found")
  | some department =>
    if !falsy updateData.name && decide (updateData.name.getD "" ≠ department.name) &&
        (Department.findOneWithDeleted o (updateData.name.getD "")).isSome then
      (o, orgReply 400 false "Department name already exists")
    else
      match Department.update o department updateData now with
      | none => (o, orgReply 500 false "Error updating department")
      | some o' =>
        (o', { status := 200, success := true, message := "Department updated successfully",
               data :=
                 match Department.findByPk o' id with
                 | some updatedDepartment => DepartmentData.one updatedDepartment
                 | none => DepartmentData.null })

/-- The route `PUT /departments/:id` after the guard:
`validateSchema(updateDepartmentSchema)`, then `updateDepartment`. -/
def updateDepartmentRoute (o : OrgStore) (now : Nat) (id : String)
    (body : UpdateDepartmentBody) : OrgStore × OrgResponse :=
  match validateSchema updateDepartmentSchema body with
  | some r => (o, orgReply r.status r.success r.message)
  | none => updateDepartment o now id body

/-- The handler `deleteDepartment`. -/
def deleteDepartment (o : OrgStore) (now : Nat) (id : String) :
    OrgStore × OrgResponse :=
  match Department.findByPk o id with
  | none => (o, orgReply 404 false "Department not found")
  | some department =>
    let positionsCount := Position.count o id
    if positionsCount > 0 then
      (o, orgReply 400 false
        "Cannot delete department because it has positions assigned")
    else
      match Department.update o department
          { name := none, description := none, status := some Lifecycle.deleted } now with
      | none => (o, orgReply 500 false "Error deleting department")
      | some o' => (o', orgReply 200 true "Department deleted successfully")

/-- The instance method `position.update({ status: "deleted" })`: the status
and `updated_at` are set on the row that has the primary key of `old`; nothing
is written when the status does not change. -/
def Position.updateStatus (o : OrgStore) (old : Position) (status : Lifecycle) (now : Nat) :
    OrgStore :=
  if status = old.status then o
  else
    { o with positions := o.positions.map fun p =>
      if p.id_position = old.id_position then { p with status := status, updated_at := now }
      else p }

/-- The handler `deletePosition`.  Its count of the assigned employees filters
the users by `id_position`, a column that `user.model.js` does not declare:
`employeesCount id` is the result of that query, `none` when the database
refuses it. -/
def deletePosition (employeesCount : String → Option Nat) (o : OrgStore) (now : Nat)
    (id : String) : OrgStore × OrgResponse :=
  match Position.findByPk o id with
  | none => (o, orgReply 404 false "Position not found")
  | some position =>
    match employeesCount id with
    | none => (o, orgReply 500 false "Error deleting position")
    | some count =>
      if count > 0 then
        (o, orgReply 400 false
          "Cannot delete position because it has employees assigned")
      else
        (Position.updateStatus o position Lifecycle.deleted now,
          orgReply 200 true "Position deleted successfully")

/-- The order `[["name", "ASC"]]` on users. -/
def userNameAsc (a b : User) : Bool := !strLt b.name a.name

/-- The handler `getEmployeesByPosition`.  Its query filters the users by
`id_position`, a column that `user.model.js` does not declare:
`hasPosition id u` says whether the row `u` has the value `id` in that column,
and the query is taken to be answered. -/
def getEmployeesByPosition (hasPosition : String → User → Bool) (o : OrgStore) (s : Store)
    (id : String) (q : PageQuery) : UserResponse :=
  match Position.findByPk o id with
  | none => userReply 404 false "Position not found"
  | some _ =>
    match User.findAndCountAll s (fun u => hasPosition id u && liveUser u) userNameAsc
        q.limitNumber q.offset with
    | none => userReply 500 false "Error getting employees"
    | some p =>
      { status := 200, success := true, message := some "Employees retrieved successfully",
        data := UserData.many
          (p.rows.map fun user =>
            pickAttributes ["id_user", "name", "email", "role", "status"] user.toJSON)
          { total := p.count, page := q.pageNumber, limit := q.limitNumber,
            totalPages := totalPages p.count q.limitNumber } }

/-! ### Sample departments -/

/-- A department. -/
def sampleDepartment : Department :=
  { id_department := "d-1", name := "Field", description := none,
    status := Lifecycle.active, created_at := 1, updated_at := 1 }

/-- A position of the sample department. -/
def samplePosition : Position :=
  { id_position := "p-1", name := "Foreman", description := none, id_department := "d-1",
    base_salary := 250000, status := Lifecycle.active, created_at := 2, updated_at := 2 }

/-- A store with one department and one position in it. -/
def sampleOrg : OrgStore :=
  { departments := [sampleDepartment], positions := [samplePosition] }

/-! ## Camps (`camp.model.js`, `camp.controller.js`)

The handlers of the camps that return camps; each camp is serialised with its
included employee. -/

/-- The column type `ENUM("active", "inactive")` of `camps.status`. -/
inductive CampStatus where
  | active
  | inactive
  deriving DecidableEq, Repr

/-- A row of `hr.camps`. -/
structure Camp where
  id_camp : String
  name : String
  id_employee : Option String
  description : Option String
  status : CampStatus
  created_at : Nat
  updated_at : Nat
  deriving DecidableEq, Repr

/-- A camp as it is serialised: the row and the included employee. -/
structure CampView where
  camp : Camp
  employee : Option JsonObject
  deriving DecidableEq, Repr

/-- The joined user of a camp: a left join on `id_employee`. -/
def Camp.employee (s : Store) (c : Camp) : Option User :=
  c.id_employee.bind (User.findByPk s)

/-- The `include` of the employee with
`attributes: ["id_user", "name", "email", "role"]`. -/
def campWithEmployee (s : Store) (c : Camp) : CampView :=
  { camp := c
    employee := (c.employee s).map fun u =>
      pickAttributes ["id_user", "name", "email", "role"] u.toJSON }

/-- The included employee of a serialised camp, when there is one, has no key
`password`. -/
def CampView.noPassword (v : CampView) : Prop :=
  ∀ o, v.employee = some o → "password" ∉ JsonObject.keys o

/-- The `data` (and `pagination`) of a response of the camp handlers. -/
inductive CampData where
  | absent
  | null
  | one (v : CampView)
  | many (rows : List CampView) (pagination : Pagination)
  deriving DecidableEq, Repr

/-- A response of the camp handlers.  The `error` text of a 500 response is not
represented. -/
structure CampResponse where
  status : Nat
  success : Bool
  message : String
  data : CampData
  deriving DecidableEq, Repr

/-- A response with `success` and `message` only. -/
def campReply (status : Nat) (success : Bool) (message : String) : CampResponse :=
  { status := status, success := success, message := message, data := CampData.absent }

/-- The employee objects embedded in the body of a response. -/
def CampResponse.employeeObjects (r : CampResponse) : List JsonObject :=
  match r.data with
  | CampData.one v => v.employee.toList
  | CampData.many rows _ => rows.filterMap fun v => v.employee
  | _ => []

/-- `Camp.findByPk(id)`. -/
def Camp.findByPk (camps : List Camp) (id : String) : Option Camp :=
  camps.find? fun c => c.id_camp = id

/-- `Camp.findOne({ where: { name } })`. -/
def Camp.findOne (camps : List Camp) (name : String) : Option Camp :=
  camps.find? fun c => c.name = name

/-- `data: await Camp.findByPk(id, { include })`. -/
def campByPk (s : Store) (camps : List Camp) (id : String) : CampData :=
  match Camp.findByPk camps id with
  | some c => CampData.one (campWithEmployee s c)
  | none => CampData.null

/-- `User.findOne({ where: { id_user, role: "employee", status: "active" } })`. -/
def activeEmployee (s : Store) (id_user : String) : Option User :=
  s.users.find? fun u =>
    decide (u.id_user = id_user) && decide (u.role = Role.employee) &&
      decide (u.status = Lifecycle.active)

/-- The result `{ count, rows }` of `Camp.findAndCountAll`. -/
structure CampPage where
  count : Nat
  rows : List CampView
  deriving DecidableEq, Repr

/-- The order `[["name", "ASC"]]` on camps. -/
def campNameAsc (a b : Camp) : Bool := !strLt b.name a.name

/-- `Camp.findAndCountAll({ where, include, limit, offset, order })` in the
order of the names: `wh` is the filter on a camp and its joined user, the one of
`where` and the one inside `include`. -/
def Camp.findAndCountAll (s : Store) (camps : List Camp) (wh : Camp → Option User → Bool)
    (limit offset : Int) : Option CampPage :=
  if limit < 0 ∨ offset < 0 then none
  else
    let found := camps.filter fun c => wh c (c.employee s)
    some
      { count := found.length
        rows := (((found.insertionSort fun a b => campNameAsc a b = true).drop
          offset.toNat).take limit.toNat).map (campWithEmployee s) }

/-- The 200 response of a list of camps, or the 500 response when the query was
refused. -/
def campListResponse (message errorMessage : String) (page limit : Int)
    (r : Option CampPage) : CampResponse :=
  match r with
  | none => campReply 500 false errorMessage
  | some p =>
    { status := 200, success := true, message := message,
      data := CampData.many p.rows
        { total := p.count, page := page, limit := limit,
          totalPages := totalPages p.count limit } }

/-- Whether a value of `id_employee` references no user. -/
def missingEmployee (s : Store) (id_employee : Option String) : Bool :=
  match id_employee with
  | some e => (User.findByPk s e).isNone
  | none => false

/-- `Camp.create(values)`: the setter trims the name; the insert is refused
when the primary key or the name is taken, when `id_employee` references no
user, or when the name is longer than its column. -/
def Camp.create (s : Store) (camps : List Camp) (values : Camp) : Option (List Camp) :=
  let row := { values with name := jsTrim values.name }
  if camps.any (fun c => c.id_camp = row.id_camp) then none
  else if camps.any (fun c => c.name = row.name) then none
  else if missingEmployee s row.id_employee then none
  else if 100 < row.name.length then none
  else some (camps ++ [row])

/-- A request body of `PUT /camps/:id`, and the values of `camp.update(values)`:
`none` for an absent key, `some none` for `null`. -/
structure UpdateCampBody where
  name : Option String
  id_employee : Option (Option String)
  description : Option (Option String)
  status : Option CampStatus
  deriving DecidableEq, Repr

/-- The row `c` with the values set, the name through the setter of the model. -/
def Camp.set (c : Camp) (values : UpdateCampBody) : Camp :=
  { c with
    name := (values.name.map jsTrim).getD c.name
    id_employee := values.id_employee.getD c.id_employee
    description := values.description.getD c.description
    status := values.status.getD c.status }

/-- The instance method `old.update(values)`.  Nothing is written when no
column changes.  Otherwise the statement sets the columns of the values, and
`updated_at`, on the row that has the primary key of `old`; it is refused when
the changed name is the name of another row or is longer than its column, or
when the changed `id_employee` references no user. -/
def Camp.update (s : Store) (camps : List Camp) (old : Camp) (values : UpdateCampBody)
    (now : Nat) : Option (List Camp) :=
  let new := Camp.set old values
  if new = old then some camps
  else if new.name ≠ old.name ∧
      (camps.any (fun c => c.id_camp ≠ old.id_camp && c.name = new.name) ∨
        100 < new.name.length) then none
  else if new.id_employee ≠ old.id_employee ∧ missingEmployee s new.id_employee then none
  else
    some (camps.map fun c =>
      if c.id_camp = old.id_camp then { Camp.set c values with updated_at := now } else c)

/-- A request body of `POST /camps`. -/
structure CreateCampBody where
  name : String
  id_employee : Option String
  description : Option String
  status : Option CampStatus
  deriving DecidableEq, Repr

/-- The handler `createCamp`. -/
def createCamp (s : Store) (camps : List Camp) (now : Nat) (id_camp : String)
    (body : CreateCampBody) : List Camp × CampResponse :=
  if (Camp.findOne camps body.name).isSome then
    (camps, campReply 400 false "Camp name already exists")
  else if !falsy body.id_employee && (activeEmployee s (body.id_employee.getD "")).isNone then
    (camps, campReply 404 false "Employee not found or not active")
  else
    match Camp.create s camps
        { id_camp := id_camp, name := body.name, id_employee := orNull body.id_employee,
          description := orNull body.description,
          status := body.status.getD CampStatus.active, created_at := now,
          updated_at := now } with
    | none => (camps, campReply 500 false "Error creating camp")
    | some camps' =>
      (camps', { status := 201, success := true, message := "Camp created successfully",
                 data := campByPk s camps' id_camp })

/-- The handler `getAllCamps`. -/
def getAllCamps (s : Store) (camps : List Camp) (q : PageQuery) : CampResponse :=
  campListResponse "Camps retrieved successfully" "Error getting camps"
    q.pageNumber q.limitNumber
    (Camp.findAndCountAll s camps (fun _ _ => true) q.limitNumber q.offset)

/-- The handler `getCampById`. -/
def getCampById (s : Store) (camps : List Camp) (id : String) : CampResponse :=
  match Camp.findByPk camps id with
  | none => campReply 404 false "Camp not found"
  | some camp =>
    { status := 200, success := true, message := "Camp retrieved successfully",
      data := CampData.one (campWithEmployee s camp) }

/-- The handler `getCampsByEmployee`. -/
def getCampsByEmployee (s : Store) (camps : List Camp) (id_employee : String)
    (q : PageQuery) : CampResponse :=
  campListResponse "Camps retrieved successfully" "Error getting camps by employee"
    q.pageNumber q.limitNumber
    (Camp.findAndCountAll s camps (fun c _ => decide (c.id_employee = some id_employee))
      q.limitNumber q.offset)

/-- The handler `getCampsByStatus`, for a path parameter that names a status. -/
def getCampsByStatus (s : Store) (camps : List Camp) (status : CampStatus) (q : PageQuery) :
    CampResponse :=
  campListResponse "Camps retrieved successfully" "Error getting camps by status"
    q.pageNumber q.limitNumber
    (Camp.findAndCountAll s camps (fun c _ => decide (c.status = status))
      q.limitNumber q.offset)

/-- The handler `updateCamp`. -/
def updateCamp (s : Store) (camps : List Camp) (now : Nat) (id : String)
    (updateData : UpdateCampBody) : List Camp × CampResponse :=
  match Camp.findByPk camps id with
  | none => (camps, campReply 404 false "Camp not found")
  | some camp =>
    if !falsy updateData.name && decide (updateData.name.getD "" ≠ camp.name) &&
        (Camp.findOne camps (updateData.name.getD "")).isSome then
      (camps, campReply 400 false "Camp name already exists")
    else if !falsy (updateData.id_employee.getD none) &&
        (activeEmployee s ((updateData.id_employee.getD none).getD "")).isNone then
      (camps, campReply 404 false "Employee not found or not active")
    else
      match Camp.update s camps camp updateData now with
      | none => (camps, campReply 500 false "Error updating camp")
      | some camps' =>
        (camps', { status := 200, success := true, message := "Camp updated successfully",
                   data := campByPk s camps' id })

/-- The rows left by `allRows.filter((camp, index, self) => index ===
self.findIndex((c) => c.id_camp === camp.id_camp))`: the first row of each
camp. -/
def uniqueRows : List CampView → List CampView
  | [] => []
  | v :: vs => v :: (uniqueRows vs).filter fun w => w.camp.id_camp ≠ v.camp.id_camp

/-- The handler `searchCamps`; `like pattern value` is the `LIKE` operator of
the database, false on `null`. -/
def searchCamps (like : String → String → Bool) (s : Store) (camps : List Camp)
    (q : Option String) (pq : PageQuery) : CampResponse :=
  if falsy q then campReply 400 false "Search parameter required"
  else
    let searchTerm := "%" ++ q.getD "" ++ "%"
    match Camp.findAndCountAll s camps
        (fun c _ => like searchTerm c.name ||
          (match c.description with
           | some d => like searchTerm d
           | none => false))
        pq.limitNumber pq.offset with
    | none => campReply 500 false "Error searching camps"
    | some p =>
      match Camp.findAndCountAll s camps
          (fun _ employee =>
            match employee with
            | some u => like searchTerm u.name
            | none => false)
          pq.limitNumber pq.offset with
      | none => campReply 500 false "Error searching camps"
      | some employeeSearch =>
        let unique := uniqueRows (p.rows ++ employeeSearch.rows)
        { status := 200, success := true, message := "Search completed",
          data := CampData.many (unique.take pq.limitNumber.toNat)
            { total := unique.length, page := pq.pageNumber, limit := pq.limitNumber,
              totalPages := totalPages unique.length pq.limitNumber } }

/-- The handler `assignEmployee`. -/
def assignEmployee (s : Store) (camps : List Camp) (now : Nat) (id id_employee : String) :
    List Camp × CampResponse :=
  match Camp.findByPk camps id with
  | none => (camps, campReply 404 false "Camp not found")
  | some camp =>
    match activeEmployee s id_employee with
    | none => (camps, campReply 404 false "Employee not found or not active")
    | some _ =>
      match Camp.update s camps camp
          { name := none, id_employee := some (some id_employee), description := none,
            status := none } now with
      | none => (camps, campReply 500 false "Error assigning employee")
      | some camps' =>
        (camps', { status := 200, success := true, message := "Employee assigned successfully",
                   data := campByPk s camps' id })

/-- The handler `removeEmployee`. -/
def removeEmployee (s : Store) (camps : List Camp) (now : Nat) (id : String) :
    List Camp × CampResponse :=
  match Camp.findByPk camps id with
  | none => (camps, campReply 404 false "Camp not found")
  | some camp =>
    if falsy camp.id_employee then
      (camps, campReply 400 false "Camp has no assigned employee")
    else
      match Camp.update s camps camp
          { name := none, id_employee := some none, description := none, status := none }
          now with
      | none => (camps, campReply 500 false "Error removing employee")
      | some camps' =>
        (camps', { status := 200, success := true, message := "Employee removed successfully",
                   data := campByPk s camps' id })

/-! ### Sample camps -/

/-- A camp of the sample employee. -/
def sampleCamp : Camp :=
  { id_camp := "c-1", name := "North", id_employee := some "u-1", description := none,
    status := CampStatus.active, created_at := 3, updated_at := 3 }

/-! ## Lists of departments and positions (`department.controller.js`,
`position.controller.js`) -/

/-- The result `{ count, rows }` of a `findAndCountAll` on departments or
positions. -/
structure OrgPage (α : Type) where
  count : Nat
  rows : List α
  deriving DecidableEq, Repr

/-- A response of a handler that lists departments or positions; `data` and
`pagination` are `none` when the body has no such key.  The `error` text of a
500 response is not represented. -/
structure OrgListResponse (α : Type) where
  status : Nat
  success : Bool
  message : String
  data : Option (List α)
  pagination : Option Pagination
  deriving DecidableEq, Repr

/-- A list response with `success` and `message` only. -/
def orgListReply {α : Type} (status : Nat) (success : Bool) (message : String) :
    OrgListResponse α :=
  { status := status, success := success, message := message, data := none,
    pagination := none }

/-- The 200 response of a list of departments or positions with the page as
the query returned it, or the 500 response when the query was refused. -/
def orgListResponse {α : Type} (message errorMessage : String) (page limit : Int)
    (r : Option (OrgPage α)) : OrgListResponse α :=
  match r with
  | none => orgListReply 500 false errorMessage
  | some p =>
    { status := 200, success := true, message := message, data := some p.rows,
      pagination :=
        some { total := p.count, page := page, limit := limit,
               totalPages := totalPages p.count limit } }

/-- The order `[["name", "ASC"]]` on departments. -/
def departmentNameAsc (a b : Department) : Bool := !strLt b.name a.name

/-- The order `[["name", "ASC"]]` on positions. -/
def positionNameAsc (a b : Position) : Bool := !strLt b.name a.name

/-- `Department.findAndCountAll({ where, limit, offset, order })` in the order of
the names, under the default scope; as `Attendance.findAndCountAll`. -/
def Department.findAndCountAll (o : OrgStore) (wh : Department → Bool) (limit offset : Int) :
    Option (OrgPage Department) :=
  if limit < 0 ∨ offset < 0 then none
  else
    let found := o.departments.filter fun d => liveDepartment d && wh d
    some
      { count := found.length
        rows := ((found.insertionSort fun a b => departmentNameAsc a b = true).drop
          offset.toNat).take limit.toNat }

/-- `Position.findAndCountAll({ where, limit, offset, order })` in the order of
the names, under the default scope; `wh` is the filter of `where` and, when
there is an `include`, the one of the join. -/
def Position.findAndCountAll (o : OrgStore) (wh : Position → Bool) (limit offset : Int) :
    Option (OrgPage Position) :=
  if limit < 0 ∨ offset < 0 then none
  else
    let found := o.positions.filter fun p => livePosition p && wh p
    some
      { count := found.length
        rows := ((found.insertionSort fun a b => positionNameAsc a b = true).drop
          offset.toNat).take limit.toNat }

/-- The included department of a position, with
`attributes: ["id_department", "name", "description", "status"]`. -/
structure DepartmentInfo where
  id_department : String
  name : String
  description : Option String
  status : Lifecycle
  deriving DecidableEq, Repr

/-- A position as it is serialised with its department. -/
structure PositionView where
  position : Position
  department : Option DepartmentInfo
  deriving DecidableEq, Repr

/-- The `include` of the department: the department of the position under the
default scope of `Department`. -/
def positionWithDepartment (o : OrgStore) (p : Position) : PositionView :=
  { position := p
    department := (Department.findByPk o p.id_department).map fun d =>
      { id_department := d.id_department, name := d.name, description := d.description,
        status := d.status } }

/-- Whether the join of the `include` lets a position through: every position
when the join is a left one, the positions that have their department when
`required` makes it an inner one.  The library derives `required` from the
options and the scope of the included model. -/
def departmentJoined (required : Bool) (o : OrgStore) (p : Position) : Bool :=
  !required || (Department.findByPk o p.id_department).isSome

/-- A page of positions with every row joined to its department. -/
def OrgPage.withDepartment (o : OrgStore) (page : OrgPage Position) : OrgPage PositionView :=
  { count := page.count, rows := page.rows.map (positionWithDepartment o) }

/-- The handler `getAllDepartments`. -/
def getAllDepartments (o : OrgStore) (q : PageQuery) : OrgListResponse Department :=
  orgListResponse "Departments retrieved successfully" "Error getting departments"
    q.pageNumber q.limitNumber
    (Department.findAndCountAll o (fun _ => true) q.limitNumber q.offset)

/-- The handler `getPositionsByDepartment` of `department.controller.js`, on the
route `GET /departments/:id/positions`. -/
def DepartmentController.getPositionsByDepartment (o : OrgStore) (id : String)
    (q : PageQuery) : OrgListResponse Position :=
  match Department.findByPk o id with
  | none => orgListReply 404 false "Department not found"
  | some _ =>
    orgListResponse "Positions retrieved successfully" "Error getting positions"
      q.pageNumber q.limitNumber
      (Position.findAndCountAll o (fun p => p.id_department = id) q.limitNumber q.offset)

/-- The handler `getAllPositions`. -/
def getAllPositions (required : Bool) (o : OrgStore) (q : PageQuery) :
    OrgListResponse PositionView :=
  orgListResponse "Positions retrieved successfully" "Error getting positions"
    q.pageNumber q.limitNumber
    ((Position.findAndCountAll o (departmentJoined required o) q.limitNumber q.offset).map
      (OrgPage.withDepartment o))

/-- The handler `getPositionsByDepartment` of `position.controller.js`, on the
route `GET /positions/department/:id_department`. -/
def PositionController.getPositionsByDepartment (required : Bool) (o : OrgStore)
    (id_department : String) (q : PageQuery) : OrgListResponse PositionView :=
  orgListResponse "Positions retrieved successfully" "Error getting positions by department"
    q.pageNumber q.limitNumber
    ((Position.findAndCountAll o
        (fun p => decide (p.id_department = id_department) && departmentJoined required o p)
        q.limitNumber q.offset).map
      (OrgPage.withDepartment o))

/-! ## The page that the specification describes -/

/-- Spec: `items` and `pagination` are the page `page` of `limit` items of the
ordered matching records `matching`, whose number is `T`: the items are the
records from offset `(page - 1) * limit` on, at most `limit` of them, which is
`min(limit, max(0, T - (page - 1) * limit))` items, and `pagination` is
`{ total: T, page, limit, totalPages: ceil(T / limit) }`. -/
def IsPageOf {α : Type} (matching items : List α) (page limit : Int)
    (pagination : Pagination) : Prop :=
  items = (matching.drop ((page - 1) * limit).toNat).take limit.toNat ∧
  (items.length : Int) = min limit (max 0 ((matching.length : Int) - (page - 1) * limit)) ∧
  pagination =
    { total := matching.length, page := page, limit := limit,
      totalPages := some ⌈(matching.length : ℚ) / (limit : ℚ)⌉ }

/-! ### Sample lists -/

/-- The attendance number `i` of the sample employee, on day `10 + i` of May. -/
def sampleDay (i : Nat) : Attendance :=
  { sampleAttendance with
    id_attendance := "a-" ++ timeText i, date := "2024-05-" ++ timeText (10 + i),
    created_at := i, updated_at := i }

/-- A store with one employee and attendances on twelve days. -/
def sampleLedgerTwelve : Store :=
  { users := [sampleUser], attendances := (List.range 12).map sampleDay }

/-! # Theorems -/

/-! ## Worked hours -/

theorem digitValue_digitChar (d : Nat) (h : d < 10) : digitValue (Nat.digitChar d) = some d := by
  interval_cases d <;> decide

theorem digitChar_ne_colon (d : Nat) (h : d < 10) : Nat.digitChar d ≠ ':' := by
  interval_cases d <;> decide

theorem splitColon_of_not_mem (l : List Char) (h : ':' ∉ l) : splitColon l = [l] := by
  induction l with
  | nil => rfl
  | cons c cs ih =>
    have hc : c ≠ ':' := fun e => h (e ▸ List.mem_cons_self _ _)
    have hcs : ':' ∉ cs := fun e => h (List.mem_cons_of_mem _ e)
    simp [splitColon, hc, ih hcs]

theorem splitColon_append_colon (l r : List Char) (h : ':' ∉ l) :
    splitColon (l ++ ':' :: r) = l :: splitColon r := by
  induction l with
  | nil => simp [splitColon]
  | cons c cs ih =>
    have hc : c ≠ ':' := fun e => h (e ▸ List.mem_cons_self _ _)
    have hcs : ':' ∉ cs := fun e => h (List.mem_cons_of_mem _ e)
    simp [splitColon, hc, ih hcs]

theorem colon_not_mem_twoDigits (n : Nat) (h : n < 100) : ':' ∉ twoDigits n := by
  have h1 := digitChar_ne_colon (n / 10) (by omega)
  have h2 := digitChar_ne_colon (n % 10) (by omega)
  simp [twoDigits, Ne.symm h1, Ne.symm h2]

theorem colon_not_mem_hourDigits (pad : Bool) (n : Nat) (h : n < 100) :
    ':' ∉ hourDigits pad n := by
  unfold hourDigits
  split
  · exact colon_not_mem_twoDigits n h
  · rename_i hp
    have : n < 10 := by simp at hp; omega
    have h1 := digitChar_ne_colon n this
    simp [Ne.symm h1]

theorem jsNumber_twoDigits (n : Nat) (h : n < 100) : jsNumber (twoDigits n) = some (n : Int) := by
  have h1 := digitValue_digitChar (n / 10) (by omega)
  have h2 := digitValue_digitChar (n % 10) (by omega)
  simp only [jsNumber, twoDigits, digitsValue, h1, h2, Option.map_some']
  congr 2
  omega

theorem jsNumber_hourDigits (pad : Bool) (n : Nat) (h : n < 100) :
    jsNumber (hourDigits pad n) = some (n : Int) := by
  unfold hourDigits
  split
  · exact jsNumber_twoDigits n h
  · rename_i hp
    have : n < 10 := by simp at hp; omega
    have h1 := digitValue_digitChar n this
    simp [jsNumber, digitsValue, h1]

/-- The pieces of a well-formed time of day are its hour and its minute,
followed by its seconds when it has them. -/
theorem timeParts_timeString (pad : Bool) (h m : Nat) (sec : Option Nat)
    (hh : h < 24) (hm : m < 60) (hs : ∀ s ∈ sec, s < 60) :
    timeParts (timeString pad h m sec) =
      some (h : Int) :: some (m : Int) :: (match sec with
        | none => []
        | some s => [some (s : Int)]) := by
  have c1 := colon_not_mem_hourDigits pad h (by omega)
  have c2 := colon_not_mem_twoDigits m (by omega)
  have n1 := jsNumber_hourDigits pad h (by omega)
  have n2 := jsNumber_twoDigits m (by omega)
  cases sec with
  | none =>
    simp only [timeParts, timeString, List.append_nil, String.toList]
    rw [splitColon_append_colon _ _ c1, splitColon_of_not_mem _ c2]
    simp [n1, n2]
  | some s =>
    have hs' : s < 60 := hs s rfl
    have c3 := colon_not_mem_twoDigits s (by omega)
    have n3 := jsNumber_twoDigits s (by omega)
    simp only [timeParts, timeString, String.toList]
    rw [splitColon_append_colon _ _ c1, splitColon_append_colon _ _ c2,
      splitColon_of_not_mem _ c3]
    simp [n1, n2, n3]

theorem timeString_ne_empty (pad : Bool) (h m : Nat) (sec : Option Nat) :
    timeString pad h m sec ≠ "" := by
  intro e
  have := congrArg String.data e
  simp [timeString] at this

/-- The difference in minutes computed for two well-formed times. -/
theorem calculateWorkedHours_eq (pe px : Bool) (eh em xh xm : Nat) (es xs : Option Nat)
    (heh : eh < 24) (hem : em < 60) (hxh : xh < 24) (hxm : xm < 60)
    (hes : ∀ s ∈ es, s < 60) (hxs : ∀ s ∈ xs, s < 60) :
    calculateWorkedHours (some (timeString pe eh em es)) (some (timeString px xh xm xs)) =
      some
        { hours := some (Int.fdiv (((xh : Int) * 60 + xm) - ((eh : Int) * 60 + em)) 60)
          minutes := some (Int.tmod (((xh : Int) * 60 + xm) - ((eh : Int) * 60 + em)) 60)
          total_minutes := some (((xh : Int) * 60 + xm) - ((eh : Int) * 60 + em))
          total_hours := toFixed (((xh : Int) * 60 + xm) - ((eh : Int) * 60 + em)) 60 2 } := by
  have pe' := timeParts_timeString pe eh em es heh hem hes
  have px' := timeParts_timeString px xh xm xs hxh hxm hxs
  simp only [calculateWorkedHours, falsy, timeString_ne_empty, decide_False, Bool.or_self,
    Bool.false_eq_true, if_false, Option.getD_some, pe', px']
  simp [partAt, jsAdd, jsMul, jsSub, jsFloorDiv, jsRem, jsDivToFixed2]

theorem splitColon_ne_nil (l : List Char) : splitColon l ≠ [] := by
  cases l with
  | nil => simp [splitColon]
  | cons c cs =>
    simp only [splitColon]
    split
    · simp
    · split <;> simp

theorem joinColon_splitColon (l : List Char) : joinColon (splitColon l) = l := by
  induction l with
  | nil => rfl
  | cons c cs ih =>
    simp only [splitColon]
    split
    · rename_i hc
      cases hs : splitColon cs with
      | nil => exact absurd hs (splitColon_ne_nil cs)
      | cons p ps =>
        rw [hs] at ih
        simp [joinColon, ih, hc]
    · cases hs : splitColon cs with
      | nil => exact absurd hs (splitColon_ne_nil cs)
      | cons p ps =>
        rw [hs] at ih
        cases ps with
        | nil => simpa [joinColon] using ih
        | cons q qs =>
          simp only [joinColon] at ih ⊢
          simp [ih]

theorem digit_of_isDigitIn (k : Nat) (hk : k < 10) (c : Char)
    (h : isDigitIn '0' (Nat.digitChar k) c = true) : ∃ d, d ≤ k ∧ c = Nat.digitChar d := by
  simp only [isDigitIn, decide_eq_true_eq] at h
  obtain ⟨h1, h2⟩ := h
  have e : Char.ofNat c.toNat = c := Char.ofNat_toNat c
  have h1' : 48 ≤ c.toNat := h1
  have h2' : c.toNat ≤ (Nat.digitChar k).toNat := h2
  have hk' : (Nat.digitChar k).toNat = 48 + k := by interval_cases k <;> rfl
  rw [hk'] at h2'
  refine ⟨c.toNat - 48, by omega, ?_⟩
  generalize c.toNat = v at e h1' h2'
  subst e
  have : v ≤ 57 := by omega
  interval_cases v <;> rfl

theorem twoDigits_of_digits (da db : Nat) (hb : db < 10) :
    [Nat.digitChar da, Nat.digitChar db] = twoDigits (10 * da + db) := by
  have h1 : (10 * da + db) / 10 = da := by omega
  have h2 : (10 * da + db) % 10 = db := by omega
  simp [twoDigits, h1, h2]

theorem sixty_of_isSixtyPart (p : List Char) (h : isSixtyPart p = true) :
    ∃ m, m < 60 ∧ p = twoDigits m := by
  match p, h with
  | [a, b], h =>
    simp only [isSixtyPart, Bool.and_eq_true] at h
    obtain ⟨da, hda, rfl⟩ := digit_of_isDigitIn 5 (by omega) a h.1
    obtain ⟨db, hdb, rfl⟩ := digit_of_isDigitIn 9 (by omega) b h.2
    exact ⟨10 * da + db, by omega, twoDigits_of_digits da db (by omega)⟩

theorem hour_of_isHourPart (p : List Char) (h : isHourPart p = true) :
    ∃ pad hr, hr < 24 ∧ p = hourDigits pad hr := by
  match p, h with
  | [a], h =>
    simp only [isHourPart] at h
    obtain ⟨d, hd, rfl⟩ := digit_of_isDigitIn 9 (by omega) a h
    refine ⟨false, d, by omega, ?_⟩
    have : ¬ 10 ≤ d := by omega
    simp [hourDigits, this]
  | [a, b], h =>
    simp only [isHourPart, Bool.or_eq_true, Bool.and_eq_true, decide_eq_true_eq] at h
    rcases h with h | h
    · obtain ⟨da, hda, rfl⟩ := digit_of_isDigitIn 1 (by omega) a h.1
      obtain ⟨db, hdb, rfl⟩ := digit_of_isDigitIn 9 (by omega) b h.2
      exact ⟨true, 10 * da + db, by omega, by
        simpa [hourDigits] using twoDigits_of_digits da db (by omega)⟩
    · obtain ⟨rfl, h2⟩ := h
      obtain ⟨db, hdb, rfl⟩ := digit_of_isDigitIn 3 (by omega) b h2
      exact ⟨true, 10 * 2 + db, by omega, by
        simpa [hourDigits] using twoDigits_of_digits 2 db (by omega)⟩

theorem isHourPart_hourDigits (pad : Bool) (h : Nat) (hh : h < 24) :
    isHourPart (hourDigits pad h) = true := by
  interval_cases h <;> cases pad <;> decide

theorem isSixtyPart_twoDigits (m : Nat) (hm : m < 60) : isSixtyPart (twoDigits m) = true := by
  interval_cases m <;> decide

/-- The strings accepted by the time pattern of the schemas are exactly the
renderings `timeString pad h m sec` of an hour below 24, a minute below 60 and
optional seconds below 60. -/
theorem isTimeFormat_iff (t : String) :
    isTimeFormat t = true ↔
      ∃ pad h m sec, h < 24 ∧ m < 60 ∧ (∀ s ∈ sec, s < 60) ∧ t = timeString pad h m sec := by
  constructor
  · intro ht
    have hj := joinColon_splitColon t.toList
    unfold isTimeFormat at ht
    split at ht
    · rename_i hp mp e
      rw [e] at hj
      simp only [Bool.and_eq_true] at ht
      obtain ⟨pad, hr, hhr, rfl⟩ := hour_of_isHourPart hp ht.1
      obtain ⟨m, hm, rfl⟩ := sixty_of_isSixtyPart mp ht.2
      refine ⟨pad, hr, m, none, hhr, hm, by simp, ?_⟩
      cases t with
      | mk l =>
        simp only [String.toList, joinColon] at hj
        simp [timeString, ← hj]
    · rename_i hp mp sp e
      rw [e] at hj
      simp only [Bool.and_eq_true] at ht
      obtain ⟨pad, hr, hhr, rfl⟩ := hour_of_isHourPart hp ht.1.1
      obtain ⟨m, hm, rfl⟩ := sixty_of_isSixtyPart mp ht.1.2
      obtain ⟨s, hs, rfl⟩ := sixty_of_isSixtyPart sp ht.2
      refine ⟨pad, hr, m, some s, hhr, hm, by simpa using hs, ?_⟩
      cases t with
      | mk l =>
        simp only [String.toList, joinColon] at hj
        simp [timeString, ← hj]
    · exact absurd ht (by simp)
  · rintro ⟨pad, h, m, sec, hh, hm, hs, rfl⟩
    have c1 := colon_not_mem_hourDigits pad h (by omega)
    have c2 := colon_not_mem_twoDigits m (by omega)
    cases sec with
    | none =>
      simp only [isTimeFormat, timeString, List.append_nil, String.toList]
      rw [splitColon_append_colon _ _ c1, splitColon_of_not_mem _ c2]
      simp [isHourPart_hourDigits pad h hh, isSixtyPart_twoDigits m hm]
    | some s =>
      have hs' : s < 60 := hs s rfl
      have c3 := colon_not_mem_twoDigits s (by omega)
      simp only [isTimeFormat, timeString, String.toList]
      rw [splitColon_append_colon _ _ c1, splitColon_append_colon _ _ c2,
        splitColon_of_not_mem _ c3]
      simp [isHourPart_hourDigits pad h hh, isSixtyPart_twoDigits m hm,
        isSixtyPart_twoDigits s hs']

theorem toDigitsCore_acc (fuel n : Nat) (ds : List Char) :
    Nat.toDigitsCore 10 fuel n ds = Nat.toDigitsCore 10 fuel n [] ++ ds := by
  induction fuel generalizing n ds with
  | zero => simp [Nat.toDigitsCore]
  | succ k ih =>
    simp only [Nat.toDigitsCore]
    split
    · simp
    · rw [ih (n / 10) (Nat.digitChar (n % 10) :: ds), ih (n / 10) [Nat.digitChar (n % 10)]]
      simp

theorem toDigitsCore_fuel (f1 f2 n : Nat) (h1 : n < f1) (h2 : n < f2) :
    Nat.toDigitsCore 10 f1 n [] = Nat.toDigitsCore 10 f2 n [] := by
  induction f1 generalizing f2 n with
  | zero => omega
  | succ k ih =>
    cases f2 with
    | zero => omega
    | succ j =>
      simp only [Nat.toDigitsCore]
      split
      · rfl
      · rename_i hn
        rw [toDigitsCore_acc k, toDigitsCore_acc j, ih j (n / 10) (by omega) (by omega)]

theorem toDigitsCore_succ (fuel n : Nat) (ds : List Char) :
    Nat.toDigitsCore 10 (fuel + 1) n ds =
      if n / 10 = 0 then Nat.digitChar (n % 10) :: ds
      else Nat.toDigitsCore 10 fuel (n / 10) (Nat.digitChar (n % 10) :: ds) := by
  simp only [Nat.toDigitsCore]

theorem digitChar_zero : Nat.digitChar 0 = '0' := rfl

theorem toDigits_lt_ten (n : Nat) (h : n < 10) : Nat.toDigits 10 n = [Nat.digitChar n] := by
  have h1 : n / 10 = 0 := by omega
  have h2 : n % 10 = n := by omega
  simp [Nat.toDigits, Nat.toDigitsCore, h1, h2]

theorem toDigits_step (n : Nat) (h : 10 ≤ n) :
    Nat.toDigits 10 n = Nat.toDigits 10 (n / 10) ++ [Nat.digitChar (n % 10)] := by
  have h1 : n / 10 ≠ 0 := by omega
  unfold Nat.toDigits
  rw [toDigitsCore_succ, if_neg h1, toDigitsCore_acc,
    toDigitsCore_fuel n (n / 10 + 1) (n / 10) (by omega) (by omega)]

/-- With two fraction digits the padded digits of `n` are the digits of
`n / 100` followed by the two digits of `n % 100`. -/
theorem paddedDigits_two (n : Nat) :
    paddedDigits n 2 = Nat.toDigits 10 (n / 100) ++ twoDigits (n % 100) := by
  simp only [paddedDigits]
  by_cases h10 : n < 10
  · have e1 : n / 100 = 0 := by omega
    have e2 : n % 100 / 10 = 0 := by omega
    have e3 : n % 100 % 10 = n := by omega
    rw [toDigits_lt_ten n h10, e1]
    simp [twoDigits, e2, e3, toDigits_lt_ten, digitChar_zero]
  · by_cases h100 : n < 100
    · have e1 : n / 100 = 0 := by omega
      have e2 : n % 100 / 10 = n / 10 := by omega
      have e3 : n % 100 % 10 = n % 10 := by omega
      rw [toDigits_step n (by omega), toDigits_lt_ten (n / 10) (by omega), e1]
      simp [twoDigits, e2, e3, toDigits_lt_ten, digitChar_zero]
    · have e1 : n / 10 / 10 = n / 100 := by omega
      have e2 : n % 100 / 10 = n / 10 % 10 := by omega
      have e3 : n % 100 % 10 = n % 10 := by omega
      rw [toDigits_step n (by omega), toDigits_step (n / 10) (by omega), e1]
      have hl : 1 ≤ (Nat.toDigits 10 (n / 100)).length := by
        by_cases hs : n / 100 < 10
        · simp [toDigits_lt_ten _ hs]
        · rw [toDigits_step _ (by omega)]; simp
      have hz : 2 + 1 - (Nat.toDigits 10 (n / 100) ++ [Nat.digitChar (n / 10 % 10)] ++
          [Nat.digitChar (n % 10)]).length = 0 := by
        simp; omega
      simp only [hz]
      simp [twoDigits, e2, e3]

/-- The shape of `toFixed(2)`: an optional minus sign, the integer part, a
point and exactly two digits. -/
theorem toFixed_two (num : Int) (den : Nat) :
    toFixed num den 2 =
      (if num < 0 then "-" else "") ++
        Nat.repr ((2 * num.natAbs * 10 ^ 2 + den) / (2 * den) / 100) ++ "." ++
        String.mk (twoDigits ((2 * num.natAbs * 10 ^ 2 + den) / (2 * den) % 100)) := by
  have hlen : ∀ l : List Char, (l ++ twoDigits
      ((2 * num.natAbs * 10 ^ 2 + den) / (2 * den) % 100)).length - 2 = l.length := by
    intro l; simp [twoDigits]
  simp only [toFixed, paddedDigits_two, hlen, List.take_left', List.drop_left',
    Nat.repr, List.asString]
  simp

/-- C1: for every entry and exit time in the `HH:MM` or `HH:MM:SS` format,
`calculateWorkedHours` returns an object whose `total_minutes` is the signed
integer `(exitHour*60 + exitMinute) - (entryHour*60 + entryMinute)`: it is never
`null`, never `NaN`, and neither clamped nor wrapped. -/
theorem calculateWorkedHours_total_minutes (pe px : Bool) (eh em xh xm : Nat)
    (es xs : Option Nat) (heh : eh < 24) (hem : em < 60) (hxh : xh < 24) (hxm : xm < 60)
    (hes : ∀ s ∈ es, s < 60) (hxs : ∀ s ∈ xs, s < 60) :
    ∃ w, calculateWorkedHours (some (timeString pe eh em es))
        (some (timeString px xh xm xs)) = some w ∧
      w.total_minutes = some (((xh : Int) * 60 + xm) - ((eh : Int) * 60 + em)) :=
  ⟨_, calculateWorkedHours_eq pe px eh em xh xm es xs heh hem hxh hxm hes hxs, rfl⟩

/-- The examples of C1: entry `08:30`, exit `17:00` gives 510 minutes and entry
`17:00`, exit `08:00` gives -540 minutes. -/
theorem calculateWorkedHours_total_minutes_witness :
    (∃ w, calculateWorkedHours (some "08:30") (some "17:00") = some w ∧
      w.total_minutes = some 510) ∧
    (∃ w, calculateWorkedHours (some "17:00") (some "08:00") = some w ∧
      w.total_minutes = some (-540)) :=
  ⟨calculateWorkedHours_total_minutes true true 8 30 17 0 none none (by decide) (by decide)
      (by decide) (by decide) (by simp) (by simp),
   calculateWorkedHours_total_minutes true true 17 0 8 0 none none (by decide) (by decide)
      (by decide) (by decide) (by simp) (by simp)⟩

/-- C2: with entry `17:00` and exit `08:10` the helper returns `hours = -9` (the
floor quotient of -530 by 60) together with `minutes = -50` (the truncated
remainder of JavaScript `%`), so `hours*60 + minutes` is -590 and not the
`total_minutes` -530, and `minutes` is negative. -/
theorem calculateWorkedHours_remainder_mismatch :
    calculateWorkedHours (some "17:00") (some "08:10") =
        some { hours := some (-9), minutes := some (-50), total_minutes := some (-530),
               total_hours := "-8.83" } ∧
      (-9 : Int) * 60 + (-50) ≠ -530 ∧ (-50 : Int) < 0 := by
  decide

/-- When the exit is not before the entry, the hours and minutes returned by
`calculateWorkedHours` are the quotient and remainder of `total_minutes` by 60. -/
theorem calculateWorkedHours_decomposition (pe px : Bool) (eh em xh xm : Nat)
    (es xs : Option Nat) (heh : eh < 24) (hem : em < 60) (hxh : xh < 24) (hxm : xm < 60)
    (hes : ∀ s ∈ es, s < 60) (hxs : ∀ s ∈ xs, s < 60)
    (hle : eh * 60 + em ≤ xh * 60 + xm) :
    ∃ h m d : Int, calculateWorkedHours (some (timeString pe eh em es))
        (some (timeString px xh xm xs)) =
          some { hours := some h, minutes := some m, total_minutes := some d,
                 total_hours := toFixed d 60 2 } ∧
      h * 60 + m = d ∧ 0 ≤ m ∧ m < 60 := by
  refine ⟨_, _, _, calculateWorkedHours_eq pe px eh em xh xm es xs heh hem hxh hxm hes hxs,
    ?_, ?_, ?_⟩
  all_goals
    obtain ⟨k, hk⟩ : ∃ k : Nat, ((xh : Int) * 60 + xm) - ((eh : Int) * 60 + em) = (k : Int) :=
      ⟨xh * 60 + xm - (eh * 60 + em), by omega⟩
    rw [hk]
    have h1 : Int.fdiv (k : Int) 60 = ((k / 60 : Nat) : Int) := by
      rw [Int.fdiv_eq_ediv _ (by decide)]; rfl
    have h2 : Int.tmod (k : Int) 60 = ((k % 60 : Nat) : Int) := by
      rw [Int.tmod_eq_emod (by omega) (by decide)]; rfl
    simp only [h1, h2]
    omega

/-- The integer `n` chosen by `toFixed(2)` for `d / 60`. -/
theorem roundHundredth_bounds (a : Nat) :
    120 * ((2 * a * 10 ^ 2 + 60) / (2 * 60)) + 20 ≤ 200 * a + 60 ∧
      200 * a + 60 ≤ 120 * ((2 * a * 10 ^ 2 + 60) / (2 * 60)) + 100 := by
  omega

theorem natAbs_cast_div (N : Int) (D : Nat) : ((N.natAbs : ℚ) / D) = |(N : ℚ) / D| := by
  rw [abs_div, Nat.abs_cast, Nat.cast_natAbs, Int.cast_abs]

/-- Rounding `d / 60` to a double first does not change the result of
`toFixed(2)`: every number `N / D` within relative error `2^-52` of `d / 60`
has the same rendering, for `|d| < 1440`. -/
theorem toFixed_stable (d : Int) (hd : d.natAbs < 1440) (N : Int) (D : Nat) (hD : 0 < D)
    (h : |(N : ℚ) / D - (d : ℚ) / 60| ≤ |(d : ℚ) / 60| / 2 ^ 52) :
    toFixed N D 2 = toFixed d 60 2 := by
  have hDq : (0 : ℚ) < D := by exact_mod_cast hD
  obtain ⟨b1, b2⟩ := roundHundredth_bounds d.natAbs
  set n := (2 * d.natAbs * 10 ^ 2 + 60) / (2 * 60) with hn
  have hq : |(d : ℚ) / 60| = (d.natAbs : ℚ) / 60 := by
    have := natAbs_cast_div d 60
    simpa using this.symm
  have hy : |(N : ℚ) / D| = (N.natAbs : ℚ) / D := (natAbs_cast_div N D).symm
  have hqle : (d.natAbs : ℚ) / 60 < 24 := by
    have : (d.natAbs : ℚ) < 1440 := by exact_mod_cast hd
    linarith
  have hq0 : (0 : ℚ) ≤ (d.natAbs : ℚ) / 60 := by positivity
  have hpow : (0 : ℚ) < 2 ^ 52 := by positivity
  have heps : |(d : ℚ) / 60| / 2 ^ 52 ≤ 1 / 1000 := by
    rw [hq, div_le_iff₀ hpow]
    norm_num
    linarith
  have habs := abs_abs_sub_abs_le_abs_sub ((N : ℚ) / D) ((d : ℚ) / 60)
  rw [hy, hq] at habs
  have hclose := abs_le.mp (habs.trans (h.trans heps))
  have b1q : (120 : ℚ) * n + 20 ≤ 200 * d.natAbs + 60 := by exact_mod_cast b1
  have b2q : (200 : ℚ) * d.natAbs + 60 ≤ 120 * n + 100 := by exact_mod_cast b2
  -- the same integer is chosen
  have hA : (N.natAbs : ℚ) = (N.natAbs : ℚ) / D * D := by field_simp
  have hlo : (n : ℚ) * (2 * D) ≤ 2 * N.natAbs * 10 ^ 2 + D := by
    have : 0 ≤ (D : ℚ) * (200 * ((N.natAbs : ℚ) / D) + 1 - 2 * n) :=
      mul_nonneg hDq.le (by linarith [hclose.1])
    nlinarith
  have hhi : (2 : ℚ) * N.natAbs * 10 ^ 2 + D < (n + 1) * (2 * D) := by
    have : 0 < (D : ℚ) * (2 * (n + 1) - (200 * ((N.natAbs : ℚ) / D) + 1)) :=
      mul_pos hDq (by linarith [hclose.2])
    nlinarith
  have hn' : (2 * N.natAbs * 10 ^ 2 + D) / (2 * D) = n := by
    apply Nat.div_eq_of_lt_le
    · exact_mod_cast hlo
    · have : (2 * N.natAbs * 10 ^ 2 + D : ℚ) < ((n + 1 : ℕ) : ℚ) * ((2 * D : ℕ) : ℚ) := by
        push_cast; exact hhi
      exact_mod_cast this
  -- the same sign is chosen
  have hsign : (N < 0) ↔ (d < 0) := by
    have hlt : |(N : ℚ) / D - (d : ℚ) / 60| ≤ |(d : ℚ) / 60| / 2 := by
      refine h.trans ?_
      apply div_le_div_of_nonneg_left (abs_nonneg _) (by norm_num) (by norm_num)
    have hN : (N : ℚ) / D < 0 ↔ N < 0 := by
      rw [div_neg_iff]
      constructor
      · rintro (⟨_, h2⟩ | ⟨h1, _⟩)
        · exact absurd h2 (not_lt.mpr hDq.le)
        · exact_mod_cast h1
      · intro h1
        exact Or.inr ⟨by exact_mod_cast h1, hDq⟩
    have hdq : (d : ℚ) / 60 < 0 ↔ d < 0 := by
      constructor
      · intro h1
        have : (d : ℚ) < 0 := by linarith
        exact_mod_cast this
      · intro h1
        have : (d : ℚ) < 0 := by exact_mod_cast h1
        linarith
    rw [← hN, ← hdq]
    have hb := abs_le.mp hlt
    constructor
    · intro h1
      by_contra h2
      rw [abs_of_nonneg (not_lt.mp h2)] at hb
      linarith [hb.1]
    · intro h1
      rw [abs_of_neg h1] at hb
      linarith [hb.2]
  rw [toFixed_two, toFixed_two, hn']
  by_cases hneg : d < 0
  · simp [hneg, hsign.mpr hneg, hn]
  · simp [hneg, mt hsign.mp hneg, hn]

/-- C3: for every pair of times in the `HH:MM` or `HH:MM:SS` format, the
`total_hours` string of `calculateWorkedHours` is an optional minus sign, an
integer part, a point and exactly two digits; the hundredths `n` it denotes are
strictly the nearest to `|total_minutes| / 60` (no tie occurs); and the string
is the same for every number within relative error `2^-52` of
`total_minutes / 60`, so for the double that JavaScript divides to. -/
theorem calculateWorkedHours_total_hours (pe px : Bool) (eh em xh xm : Nat)
    (es xs : Option Nat) (heh : eh < 24) (hem : em < 60) (hxh : xh < 24) (hxm : xm < 60)
    (hes : ∀ s ∈ es, s < 60) (hxs : ∀ s ∈ xs, s < 60) :
    ∃ w d, calculateWorkedHours (some (timeString pe eh em es))
        (some (timeString px xh xm xs)) = some w ∧
      w.total_minutes = some d ∧
      ∃ n : Nat,
        w.total_hours = (if d < 0 then "-" else "") ++ Nat.repr (n / 100) ++ "." ++
          String.mk (twoDigits (n % 100)) ∧
        |(n : ℚ) / 100 - (|(d : ℚ) / 60|)| < 1 / 200 ∧
        ∀ (N : Int) (D : Nat), 0 < D →
          |(N : ℚ) / D - (d : ℚ) / 60| ≤ |(d : ℚ) / 60| / 2 ^ 52 →
          toFixed N D 2 = w.total_hours := by
  refine ⟨_, _, calculateWorkedHours_eq pe px eh em xh xm es xs heh hem hxh hxm hes hxs,
    rfl, _, toFixed_two _ 60, ?_, ?_⟩
  · obtain ⟨b1, b2⟩ := roundHundredth_bounds
      (((xh : Int) * 60 + xm) - ((eh : Int) * 60 + em)).natAbs
    generalize (((xh : Int) * 60 + xm) - ((eh : Int) * 60 + em)) = d at b1 b2 ⊢
    have hq : |(d : ℚ) / 60| = (d.natAbs : ℚ) / 60 := by
      have := natAbs_cast_div d 60
      simpa using this.symm
    rw [hq]
    generalize (2 * d.natAbs * 10 ^ 2 + 60) / (2 * 60) = n at b1 b2 ⊢
    have b1q : (120 : ℚ) * n + 20 ≤ 200 * d.natAbs + 60 := by exact_mod_cast b1
    have b2q : (200 : ℚ) * d.natAbs + 60 ≤ 120 * n + 100 := by exact_mod_cast b2
    rw [abs_lt]
    constructor <;> linarith
  · intro N D hD h
    exact toFixed_stable _ (by omega) N D hD h

/-- The example of C3: 510 minutes are rendered as `8.50`. -/
theorem calculateWorkedHours_total_hours_witness :
    ∃ w, calculateWorkedHours (some "08:30") (some "17:00") = some w ∧
      w.total_minutes = some 510 ∧ w.total_hours = "8.50" := by
  obtain ⟨w, d, h1, -, -⟩ := calculateWorkedHours_total_hours true true 8 30 17 0 none none
    (by decide) (by decide) (by decide) (by decide) (by simp) (by simp)
  exact ⟨w, h1, by
    have h2 : calculateWorkedHours (some "08:30") (some "17:00") =
        some ⟨some 8, some 30, some 510, "8.50"⟩ := by decide
    have h3 : timeString true 8 30 none = "08:30" := by decide
    have h4 : timeString true 17 0 none = "17:00" := by decide
    rw [h3, h4, h2] at h1
    cases h1
    exact ⟨rfl, rfl⟩⟩

/-! ## The attendance ledger -/

theorem findByPk_user_eq_none (s : Store) (id : String) :
    User.findByPk s id = none ↔ ∀ u ∈ s.users, u.id_user ≠ id := by
  simp [User.findByPk, List.find?_eq_none]

theorem findByPk_user_ne_none (s : Store) (id : String) :
    User.findByPk s id ≠ none ↔ ∃ u ∈ s.users, u.id_user = id := by
  rw [Ne, findByPk_user_eq_none]
  push_neg
  rfl

theorem sameEmployeeDate_iff (e d : String) (a : Attendance) :
    sameEmployeeDate e d a = true ↔
      a.id_employee = e ∧ a.date = d ∧ activeOrInactive a = true := by
  simp [sameEmployeeDate, and_assoc]

theorem findOne_sameEmployeeDate_eq_none (s : Store) (e d : String) :
    Attendance.findOne s (sameEmployeeDate e d) = none ↔
      ∀ a ∈ s.attendances, ¬ (a.id_employee = e ∧ a.date = d ∧ activeOrInactive a = true) := by
  simp only [Attendance.findOne, List.find?_eq_none, sameEmployeeDate_iff]

theorem findOne_sameEmployeeDate_ne_none (s : Store) (e d : String) :
    Attendance.findOne s (sameEmployeeDate e d) ≠ none ↔
      ∃ a ∈ s.attendances, a.id_employee = e ∧ a.date = d ∧ activeOrInactive a = true := by
  rw [Ne, findOne_sameEmployeeDate_eq_none]
  push_neg
  rfl

/-- An insert of an active row goes through when its key is fresh, its
employee is stored and no active or inactive row has its employee and date. -/
theorem create_eq_some (s : Store) (row : Attendance)
    (hid : ∀ a ∈ s.attendances, a.id_attendance ≠ row.id_attendance)
    (hu : User.findByPk s row.id_employee ≠ none)
    (hfree : ∀ a ∈ s.attendances,
      ¬ (a.id_employee = row.id_employee ∧ a.date = row.date ∧ activeOrInactive a = true)) :
    Attendance.create s row = some { s with attendances := s.attendances ++ [row] } := by
  have h1 : s.attendances.any (fun a => a.id_attendance = row.id_attendance) = false := by
    simpa [List.any_eq_false] using hid
  have h2 : (User.findByPk s row.id_employee).isNone = false := by
    cases h : User.findByPk s row.id_employee with
    | none => exact absurd h hu
    | some u => rfl
  have h3 : s.attendances.any (indexConflict row) = false := by
    rw [List.any_eq_false]
    intro a ha hc
    simp only [indexConflict, Bool.and_eq_true, decide_eq_true_eq] at hc
    exact hfree a ha ⟨hc.1.2.symm, hc.2.symm, hc.1.1.2⟩
  simp [Attendance.create, h1, h2, h3]

theorem createAttendance_no_employee (s : Store) (now : Nat) (id : String)
    (body : CreateAttendanceBody) (h : ∀ u ∈ s.users, u.id_user ≠ body.id_employee) :
    createAttendance s now id body = (s, reply 404 false "Employee not found") := by
  simp [createAttendance, (findByPk_user_eq_none s _).mpr h]

theorem createAttendance_existing (s : Store) (now : Nat) (id : String)
    (body : CreateAttendanceBody) (hfk : foreignKeyHolds s)
    (h : ∃ a ∈ s.attendances, a.id_employee = body.id_employee ∧ a.date = body.date ∧
      activeOrInactive a = true) :
    createAttendance s now id body =
      (s, reply 400 false "Attendance record already exists for this employee on this date") := by
  have hu : User.findByPk s body.id_employee ≠ none := by
    obtain ⟨a, ha, he, -, -⟩ := h
    obtain ⟨u, hu, hua⟩ := hfk a ha
    exact (findByPk_user_ne_none s _).mpr ⟨u, hu, hua.trans he⟩
  have hf := (findOne_sameEmployeeDate_ne_none s body.id_employee body.date).mpr h
  unfold createAttendance
  cases h1 : User.findByPk s body.id_employee with
  | none => exact absurd h1 hu
  | some u =>
    cases h2 : Attendance.findOne s (sameEmployeeDate body.id_employee body.date) with
    | none => exact absurd h2 hf
    | some a => rfl

theorem createAttendance_free (s : Store) (now : Nat) (id : String)
    (body : CreateAttendanceBody) (hu : ∃ u ∈ s.users, u.id_user = body.id_employee)
    (hfree : ∀ a ∈ s.attendances,
      ¬ (a.id_employee = body.id_employee ∧ a.date = body.date ∧ activeOrInactive a = true))
    (hid : ∀ a ∈ s.attendances, a.id_attendance ≠ id) :
    ∃ row, createAttendance s now id body =
        ({ s with attendances := s.attendances ++ [row] },
          { status := 201, success := true, message := "Attendance created successfully",
            data := dataByPk { s with attendances := s.attendances ++ [row] } id }) ∧
      row.id_attendance = id ∧ row.id_employee = body.id_employee ∧ row.date = body.date ∧
      row.record_status = Lifecycle.active ∧
      row.status = body.status.getD AttendanceStatus.present := by
  have hu' := (findByPk_user_ne_none s _).mpr hu
  have hf := (findOne_sameEmployeeDate_eq_none s body.id_employee body.date).mpr hfree
  refine ⟨{ id_attendance := id, id_employee := body.id_employee, date := body.date,
            entry_time := orNull body.entry_time, exit_time := orNull body.exit_time,
            status := body.status.getD AttendanceStatus.present,
            observations := orNull body.observations, record_status := Lifecycle.active,
            created_at := now, updated_at := now }, ?_, rfl, rfl, rfl, rfl, rfl⟩
  unfold createAttendance
  cases h1 : User.findByPk s body.id_employee with
  | none => exact absurd h1 hu'
  | some u =>
    simp only [hf]
    rw [create_eq_some s _ hid hu' hfree]

theorem registerEntry_no_employee (s : Store) (now : Nat) (id : String)
    (body : RegisterEntryBody) (h : ∀ u ∈ s.users, u.id_user ≠ body.id_employee) :
    registerEntry s now id body = (s, reply 404 false "Employee not found") := by
  simp [registerEntry, (findByPk_user_eq_none s _).mpr h]

theorem registerEntry_existing (s : Store) (now : Nat) (id : String)
    (body : RegisterEntryBody) (hfk : foreignKeyHolds s)
    (h : ∃ a ∈ s.attendances, a.id_employee = body.id_employee ∧ a.date = body.date ∧
      activeOrInactive a = true) :
    registerEntry s now id body =
      (s, reply 400 false "Entry already registered for this employee on this date") := by
  have hu : User.findByPk s body.id_employee ≠ none := by
    obtain ⟨a, ha, he, -, -⟩ := h
    obtain ⟨u, hu, hua⟩ := hfk a ha
    exact (findByPk_user_ne_none s _).mpr ⟨u, hu, hua.trans he⟩
  have hf := (findOne_sameEmployeeDate_ne_none s body.id_employee body.date).mpr h
  unfold registerEntry
  cases h1 : User.findByPk s body.id_employee with
  | none => exact absurd h1 hu
  | some u =>
    cases h2 : Attendance.findOne s (sameEmployeeDate body.id_employee body.date) with
    | none => exact absurd h2 hf
    | some a => rfl

theorem registerEntry_free (s : Store) (now : Nat) (id : String)
    (body : RegisterEntryBody) (hu : ∃ u ∈ s.users, u.id_user = body.id_employee)
    (hfree : ∀ a ∈ s.attendances,
      ¬ (a.id_employee = body.id_employee ∧ a.date = body.date ∧ activeOrInactive a = true))
    (hid : ∀ a ∈ s.attendances, a.id_attendance ≠ id) :
    ∃ row, registerEntry s now id body =
        ({ s with attendances := s.attendances ++ [row] },
          { status := 201, success := true, message := "Entry registered successfully",
            data := dataByPk { s with attendances := s.attendances ++ [row] } id }) ∧
      row.id_attendance = id ∧ row.id_employee = body.id_employee ∧ row.date = body.date ∧
      row.record_status = Lifecycle.active ∧ row.status = AttendanceStatus.present ∧
      row.entry_time = some body.entry_time ∧ row.exit_time = none := by
  have hu' := (findByPk_user_ne_none s _).mpr hu
  have hf := (findOne_sameEmployeeDate_eq_none s body.id_employee body.date).mpr hfree
  refine ⟨{ id_attendance := id, id_employee := body.id_employee, date := body.date,
            entry_time := some body.entry_time, exit_time := none,
            status := AttendanceStatus.present, observations := none,
            record_status := Lifecycle.active, created_at := now, updated_at := now },
          ?_, rfl, rfl, rfl, rfl, rfl, rfl, rfl⟩
  unfold registerEntry
  cases h1 : User.findByPk s body.id_employee with
  | none => exact absurd h1 hu'
  | some u =>
    simp only [hf]
    rw [create_eq_some s _ hid hu' hfree]

/-- C4: in a store that respects the foreign key of `id_employee`, for
`createAttendance` and for `registerEntry` alike: when an active or inactive
record exists for the employee and date of the request the response is 400 and
the store is unchanged; when no user has the requested `id_employee` the
response is 404 and the store is unchanged; otherwise (the employee exists, no
such record exists, and the generated identifier is new) the response is 201 and
exactly one record is added, with `record_status = active`, the employee and
date of the request, and `status = present` unless `createAttendance` was given
one. -/
theorem createAttendance_registerEntry_outcomes (s : Store) (now : Nat) (id : String)
    (body : CreateAttendanceBody) (entry : RegisterEntryBody) (hfk : foreignKeyHolds s) :
    ((∃ a ∈ s.attendances, a.id_employee = body.id_employee ∧ a.date = body.date ∧
          activeOrInactive a = true) →
        (createAttendance s now id body).1 = s ∧
          (createAttendance s now id body).2.status = 400) ∧
    ((∀ u ∈ s.users, u.id_user ≠ body.id_employee) →
        (createAttendance s now id body).1 = s ∧
          (createAttendance s now id body).2.status = 404) ∧
    ((∃ u ∈ s.users, u.id_user = body.id_employee) →
      (∀ a ∈ s.attendances, ¬ (a.id_employee = body.id_employee ∧ a.date = body.date ∧
          activeOrInactive a = true)) →
      (∀ a ∈ s.attendances, a.id_attendance ≠ id) →
        (createAttendance s now id body).2.status = 201 ∧
          ∃ row, (createAttendance s now id body).1 =
              { s with attendances := s.attendances ++ [row] } ∧
            row.id_employee = body.id_employee ∧ row.date = body.date ∧
            row.record_status = Lifecycle.active ∧
            row.status = body.status.getD AttendanceStatus.present) ∧
    ((∃ a ∈ s.attendances, a.id_employee = entry.id_employee ∧ a.date = entry.date ∧
          activeOrInactive a = true) →
        (registerEntry s now id entry).1 = s ∧
          (registerEntry s now id entry).2.status = 400) ∧
    ((∀ u ∈ s.users, u.id_user ≠ entry.id_employee) →
        (registerEntry s now id entry).1 = s ∧
          (registerEntry s now id entry).2.status = 404) ∧
    ((∃ u ∈ s.users, u.id_user = entry.id_employee) →
      (∀ a ∈ s.attendances, ¬ (a.id_employee = entry.id_employee ∧ a.date = entry.date ∧
          activeOrInactive a = true)) →
      (∀ a ∈ s.attendances, a.id_attendance ≠ id) →
        (registerEntry s now id entry).2.status = 201 ∧
          ∃ row, (registerEntry s now id entry).1 =
              { s with attendances := s.attendances ++ [row] } ∧
            row.id_employee = entry.id_employee ∧ row.date = entry.date ∧
            row.record_status = Lifecycle.active ∧
            row.status = AttendanceStatus.present) := by
  refine ⟨?_, ?_, ?_, ?_, ?_, ?_⟩
  · intro h
    rw [createAttendance_existing s now id body hfk h]
    exact ⟨rfl, rfl⟩
  · intro h
    rw [createAttendance_no_employee s now id body h]
    exact ⟨rfl, rfl⟩
  · intro hu hfree hid
    obtain ⟨row, h, -, h2, h3, h4, h5⟩ := createAttendance_free s now id body hu hfree hid
    rw [h]
    exact ⟨rfl, row, rfl, h2, h3, h4, h5⟩
  · intro h
    rw [registerEntry_existing s now id entry hfk h]
    exact ⟨rfl, rfl⟩
  · intro h
    rw [registerEntry_no_employee s now id entry h]
    exact ⟨rfl, rfl⟩
  · intro hu hfree hid
    obtain ⟨row, h, -, h2, h3, h4, h5, -, -⟩ := registerEntry_free s now id entry hu hfree hid
    rw [h]
    exact ⟨rfl, row, rfl, h2, h3, h4, h5⟩

/-- C4 on the sample store: a second record for the same employee and day is
refused with 400 by both handlers and the store is unchanged, and a record for
another day is added with status 201. -/
theorem createAttendance_registerEntry_outcomes_witness :
    ((createAttendance sampleStore 9 "a-2" (sampleCreate "2024-05-06")).1 = sampleStore ∧
      (createAttendance sampleStore 9 "a-2" (sampleCreate "2024-05-06")).2.status = 400) ∧
    ((registerEntry sampleStore 9 "a-2" (sampleEntry "2024-05-06")).1 = sampleStore ∧
      (registerEntry sampleStore 9 "a-2" (sampleEntry "2024-05-06")).2.status = 400) ∧
    (createAttendance sampleStore 9 "a-2" (sampleCreate "2024-05-07")).2.status = 201 ∧
    (registerEntry sampleStore 9 "a-2" (sampleEntry "2024-05-07")).2.status = 201 :=
  ⟨(createAttendance_registerEntry_outcomes sampleStore 9 "a-2" (sampleCreate "2024-05-06")
      (sampleEntry "2024-05-06") (by decide)).1 ⟨sampleAttendance, by decide⟩,
   (createAttendance_registerEntry_outcomes sampleStore 9 "a-2" (sampleCreate "2024-05-06")
      (sampleEntry "2024-05-06") (by decide)).2.2.2.1 ⟨sampleAttendance, by decide⟩,
   ((createAttendance_registerEntry_outcomes sampleStore 9 "a-2" (sampleCreate "2024-05-07")
      (sampleEntry "2024-05-07") (by decide)).2.2.1 ⟨sampleUser, by decide⟩ (by decide)
      (by decide)).1,
   ((createAttendance_registerEntry_outcomes sampleStore 9 "a-2" (sampleCreate "2024-05-07")
      (sampleEntry "2024-05-07") (by decide)).2.2.2.2.2 ⟨sampleUser, by decide⟩ (by decide)
      (by decide)).1⟩

theorem byIdNotDeleted_iff (id : String) (a : Attendance) :
    byIdNotDeleted id a = true ↔ a.id_attendance = id ∧ activeOrInactive a = true := by
  simp [byIdNotDeleted]

theorem activeOrInactive_iff (a : Attendance) :
    activeOrInactive a = true ↔ a.record_status ≠ Lifecycle.deleted := by
  cases h : a.record_status <;> simp [activeOrInactive, h]

theorem findOne_byId_eq_none (s : Store) (id : String) :
    Attendance.findOne s (byIdNotDeleted id) = none ↔
      ∀ a ∈ s.attendances, a.id_attendance = id → a.record_status = Lifecycle.deleted := by
  simp only [Attendance.findOne, List.find?_eq_none, byIdNotDeleted_iff, activeOrInactive_iff]
  constructor
  · intro h a ha hid
    by_contra hd
    exact h a ha ⟨hid, hd⟩
  · intro h a ha hc
    exact hc.2 (h a ha hc.1)

theorem findOne_byId_some (s : Store) (id : String) (a : Attendance)
    (h : Attendance.findOne s (byIdNotDeleted id) = some a) :
    a ∈ s.attendances ∧ a.id_attendance = id ∧ activeOrInactive a = true := by
  have h1 := List.mem_of_find?_eq_some h
  have h2 := List.find?_some h
  exact ⟨h1, (byIdNotDeleted_iff id a).mp h2⟩

/-- Under the primary key, a stored row is the one that a search by its
identifier finds. -/
theorem eq_of_primaryKey (s : Store) (hpk : primaryKeyHolds s) (a b : Attendance)
    (ha : a ∈ s.attendances) (hb : b ∈ s.attendances)
    (hid : a.id_attendance = b.id_attendance) : a = b := by
  by_contra hne
  have := List.Pairwise.forall_of_forall (R := fun a b : Attendance =>
      a.id_attendance ≠ b.id_attendance ∨ a = b)
    (fun x y hxy => by
      rcases hxy with h | h
      · exact Or.inl (Ne.symm h)
      · exact Or.inr h.symm)
    (fun x _ => Or.inr rfl)
    (hpk.imp fun h => Or.inl h) ha hb
  rcases this with h | h
  · exact h hid
  · exact hne h

theorem findOne_byId_of_mem (s : Store) (hpk : primaryKeyHolds s) (a : Attendance)
    (ha : a ∈ s.attendances) (hlive : activeOrInactive a = true) :
    Attendance.findOne s (byIdNotDeleted a.id_attendance) = some a := by
  cases h : Attendance.findOne s (byIdNotDeleted a.id_attendance) with
  | none =>
    have := (findOne_byId_eq_none s a.id_attendance).mp h a ha rfl
    exact absurd this ((activeOrInactive_iff a).mp hlive)
  | some b =>
    obtain ⟨hb, hid, -⟩ := findOne_byId_some s _ b h
    rw [eq_of_primaryKey s hpk b a hb ha hid]

/-- The rewriting of the row `old` by `row`. -/
theorem map_replace_eq (s : Store) (hpk : primaryKeyHolds s) (old : Attendance)
    (hold : old ∈ s.attendances) (g : Attendance → Attendance) :
    (s.attendances.map fun a => if a.id_attendance = old.id_attendance then g old else a) =
      s.attendances.map fun a => if a.id_attendance = old.id_attendance then g a else a := by
  apply List.map_congr_left
  intro a ha
  by_cases h : a.id_attendance = old.id_attendance
  · rw [eq_of_primaryKey s hpk a old ha hold h]
  · simp [h]

/-- A write that changes neither the employee, the date nor `record_status`
towards the index is never refused. -/
theorem update_eq_some_of_same_key (s : Store) (old new : Attendance) (now : Nat)
    (hne : new ≠ old) (he : new.id_employee = old.id_employee) (hd : new.date = old.date)
    (hl : activeOrInactive new = activeOrInactive old) :
    Attendance.update s old new now =
      some { s with attendances := s.attendances.map fun a =>
        if a.id_attendance = old.id_attendance then { new with updated_at := now } else a } := by
  simp [Attendance.update, hne, he, hd, hl]

/-- A write that takes the row out of the index is never refused. -/
theorem update_eq_some_of_deleted (s : Store) (old new : Attendance) (now : Nat)
    (hne : new ≠ old) (he : new.id_employee = old.id_employee)
    (hl : activeOrInactive new = false) :
    Attendance.update s old new now =
      some { s with attendances := s.attendances.map fun a =>
        if a.id_attendance = old.id_attendance then { new with updated_at := now } else a } := by
  have h3 : s.attendances.any (fun a => a.id_attendance ≠ old.id_attendance &&
      indexConflict { new with updated_at := now } a) = false := by
    rw [List.any_eq_false]
    intro a _
    have : activeOrInactive { new with updated_at := now } = false := hl
    simp [indexConflict, this]
  unfold Attendance.update
  rw [if_neg hne]
  dsimp only
  rw [if_neg (fun h => h.1 he), if_neg (fun h => by rw [h3] at h; exact Bool.false_ne_true h.2)]

theorem deleteAttendance_not_found (s : Store) (now : Nat) (id : String)
    (h : ∀ a ∈ s.attendances, a.id_attendance = id → a.record_status = Lifecycle.deleted) :
    deleteAttendance s now id = (s, reply 404 false "Attendance not found") := by
  simp [deleteAttendance, (findOne_byId_eq_none s id).mpr h]

theorem deleteAttendance_found (s : Store) (now : Nat) (id : String) (a : Attendance)
    (h : Attendance.findOne s (byIdNotDeleted id) = some a) :
    deleteAttendance s now id =
      ({ s with attendances := s.attendances.map fun x =>
          if x.id_attendance = id then
            { a with record_status := Lifecycle.deleted, updated_at := now }
          else x },
        reply 200 true "Attendance deleted successfully") := by
  obtain ⟨-, hid, hlive⟩ := findOne_byId_some s id a h
  have hne : ({ a with record_status := Lifecycle.deleted } : Attendance) ≠ a := by
    intro e
    have := congrArg Attendance.record_status e
    exact (activeOrInactive_iff a).mp hlive this.symm
  simp only [deleteAttendance, h]
  rw [update_eq_some_of_deleted s a _ now hne rfl rfl, hid]

/-- C8 as stated fails: deleting the sample attendance at clock reading 9
succeeds, and the stored row is not the old row with only `record_status`
changed, because `updated_at` went from 2 to 9. -/
theorem deleteAttendance_touches_updated_at :
    (deleteAttendance sampleStore 9 "a-1").2.status = 200 ∧
      (deleteAttendance sampleStore 9 "a-1").1.attendances ≠
        sampleStore.attendances.map (fun x =>
          if x.id_attendance = "a-1" then { x with record_status := Lifecycle.deleted }
          else x) ∧
      (deleteAttendance sampleStore 9 "a-1").1.attendances =
        [{ sampleAttendance with record_status := Lifecycle.deleted, updated_at := 9 }] := by
  decide

/-- C8, amended: `deleteAttendance` never removes a row.  When a record with
the identifier exists and is not deleted the response is 200 and the store is
rewritten row by row: the target gets `record_status = deleted` and
`updated_at` set to the time of the call, its other fields and every other
record are unchanged, so the number of records is unchanged.  When the
identifier is missing or already deleted the response is 404 and the store is
unchanged. -/
theorem deleteAttendance_soft (s : Store) (now : Nat) (id : String)
    (hpk : primaryKeyHolds s) :
    ((∃ a ∈ s.attendances, a.id_attendance = id ∧ a.record_status ≠ Lifecycle.deleted) →
        (deleteAttendance s now id).2.status = 200 ∧
        (deleteAttendance s now id).1 =
          { s with attendances := s.attendances.map fun x =>
              if x.id_attendance = id then
                { x with record_status := Lifecycle.deleted, updated_at := now }
              else x } ∧
        (deleteAttendance s now id).1.attendances.length = s.attendances.length) ∧
    ((∀ a ∈ s.attendances, a.id_attendance = id → a.record_status = Lifecycle.deleted) →
        deleteAttendance s now id = (s, reply 404 false "Attendance not found")) := by
  refine ⟨?_, deleteAttendance_not_found s now id⟩
  rintro ⟨a, ha, hid, hlive⟩
  subst hid
  have hf := findOne_byId_of_mem s hpk a ha ((activeOrInactive_iff a).mpr hlive)
  have hmap := map_replace_eq s hpk a ha
    (fun x => { x with record_status := Lifecycle.deleted, updated_at := now })
  rw [deleteAttendance_found s now _ a hf]
  refine ⟨rfl, ?_, by simp⟩
  simp only [hmap]

/-- C8 on the sample store: the one record is kept, marked deleted, and a second
deletion answers 404 without changing anything. -/
theorem deleteAttendance_soft_witness :
    ((deleteAttendance sampleStore 9 "a-1").2.status = 200 ∧
      (deleteAttendance sampleStore 9 "a-1").1 =
        { sampleStore with attendances := sampleStore.attendances.map fun x =>
            if x.id_attendance = "a-1" then
              { x with record_status := Lifecycle.deleted, updated_at := 9 }
            else x } ∧
      (deleteAttendance sampleStore 9 "a-1").1.attendances.length =
        sampleStore.attendances.length) ∧
    deleteAttendance (deleteAttendance sampleStore 9 "a-1").1 10 "a-1" =
      ((deleteAttendance sampleStore 9 "a-1").1, reply 404 false "Attendance not found") :=
  ⟨(deleteAttendance_soft sampleStore 9 "a-1" (by decide)).1 ⟨sampleAttendance, by decide⟩,
   (deleteAttendance_soft (deleteAttendance sampleStore 9 "a-1").1 10 "a-1" (by decide)).2
     (by decide)⟩

theorem find?_map_of_comp {α : Type} (p : α → Bool) (f : α → α) (l : List α)
    (h : ∀ x, p (f x) = p x) : (l.map f).find? p = (l.find? p).map f := by
  have : p ∘ f = p := funext h
  rw [List.find?_map, this]

theorem falsy_eq_true_iff (t : Option String) : falsy t = true ↔ t = none ∨ t = some "" := by
  cases t with
  | none => simp [falsy]
  | some x => simp [falsy]

theorem registerExit_not_found (s : Store) (now : Nat) (id exit_time : String)
    (h : ∀ a ∈ s.attendances, a.id_attendance = id → a.record_status = Lifecycle.deleted) :
    registerExit s now id exit_time = (s, reply 404 false "Attendance not found") := by
  simp [registerExit, (findOne_byId_eq_none s id).mpr h]

theorem registerExit_conflict (s : Store) (now : Nat) (id exit_time : String) (a : Attendance)
    (h : Attendance.findOne s (byIdNotDeleted id) = some a) (hx : falsy a.exit_time = false) :
    registerExit s now id exit_time = (s, reply 400 false "Exit time already registered") := by
  simp [registerExit, h, hx]

theorem registerExit_found (s : Store) (now : Nat) (exit_time : String) (a : Attendance)
    (hpk : primaryKeyHolds s) (ha : a ∈ s.attendances) (hlive : activeOrInactive a = true)
    (hx : falsy a.exit_time = true) (ht : exit_time ≠ "") :
    registerExit s now a.id_attendance exit_time =
      (afterExit s now a.id_attendance exit_time,
        { status := 200, success := true, message := "Exit registered successfully",
          data := Data.one
            { withEmployee (afterExit s now a.id_attendance exit_time)
                { a with exit_time := some exit_time, updated_at := now } with
              worked_hours := some (calculateWorkedHours a.entry_time (some exit_time)) } }) := by
  have hf := findOne_byId_of_mem s hpk a ha hlive
  have hne : ({ a with exit_time := some exit_time } : Attendance) ≠ a := by
    intro e
    have h1 := congrArg Attendance.exit_time e
    rcases (falsy_eq_true_iff _).mp hx with h2 | h2
    · rw [h2] at h1; exact absurd h1 (by simp)
    · rw [h2] at h1
      exact ht (Option.some.inj h1)
  have hmap := map_replace_eq s hpk a ha
    (fun x => { x with exit_time := some exit_time, updated_at := now })
  have hs : ({ s with attendances := s.attendances.map fun x =>
      if x.id_attendance = a.id_attendance then
        { a with exit_time := some exit_time, updated_at := now } else x } : Store) =
      afterExit s now a.id_attendance exit_time := by
    simp only [afterExit, hmap]
  have hfind : Attendance.findByPk (afterExit s now a.id_attendance exit_time) a.id_attendance =
      some { a with exit_time := some exit_time, updated_at := now } := by
    have h0 : s.attendances.find? (fun x => decide (x.id_attendance = a.id_attendance)) =
        some a := by
      cases h : s.attendances.find? (fun x => decide (x.id_attendance = a.id_attendance)) with
      | none =>
        have := List.find?_eq_none.mp h a ha
        simp at this
      | some b =>
        have hb := List.mem_of_find?_eq_some h
        have hb2 := List.find?_some h
        simp only [decide_eq_true_eq] at hb2
        rw [eq_of_primaryKey s hpk b a hb ha hb2]
    simp only [Attendance.findByPk, afterExit]
    rw [find?_map_of_comp _ _ _ (by
      intro x
      by_cases hxid : x.id_attendance = a.id_attendance <;> simp [hxid]), h0]
    simp
  simp only [registerExit, hf, hx]
  rw [update_eq_some_of_same_key s a _ now hne rfl rfl rfl, hs]
  simp only [hfind]
  rfl

/-- C7: with the primary key in force, no empty string stored in the `TIME`
column `exit_time`, and a non-empty `exit_time` in the request, `registerExit`
answers 200 exactly when a record with the identifier exists, is active or
inactive and has a null `exit_time`; then the store becomes `afterExit` (that
record's `exit_time` written) and every later `registerExit` on the identifier
answers 400 and changes nothing.  A missing or deleted identifier gets 404 and
an `exit_time` already set gets 400, the store being unchanged in both cases. -/
theorem registerExit_once (s : Store) (now : Nat) (id exit_time : String)
    (hpk : primaryKeyHolds s) (hcol : ∀ a ∈ s.attendances, a.exit_time ≠ some "")
    (ht : exit_time ≠ "") :
    ((registerExit s now id exit_time).2.status = 200 ↔
        ∃ a ∈ s.attendances, a.id_attendance = id ∧ a.record_status ≠ Lifecycle.deleted ∧
          a.exit_time = none) ∧
    ((∃ a ∈ s.attendances, a.id_attendance = id ∧ a.record_status ≠ Lifecycle.deleted ∧
          a.exit_time = none) →
        (registerExit s now id exit_time).1 = afterExit s now id exit_time ∧
        ∀ (later : Nat) (other : String),
          registerExit (registerExit s now id exit_time).1 later id other =
            (afterExit s now id exit_time, reply 400 false "Exit time already registered")) ∧
    ((∀ a ∈ s.attendances, a.id_attendance = id → a.record_status = Lifecycle.deleted) →
        registerExit s now id exit_time = (s, reply 404 false "Attendance not found")) ∧
    ((∃ a ∈ s.attendances, a.id_attendance = id ∧ a.record_status ≠ Lifecycle.deleted ∧
          a.exit_time ≠ none) →
        registerExit s now id exit_time =
          (s, reply 400 false "Exit time already registered")) := by
  have hfound : ∀ a ∈ s.attendances, a.id_attendance = id →
      a.record_status ≠ Lifecycle.deleted → a.exit_time = none →
      (registerExit s now id exit_time).2.status = 200 ∧
        (registerExit s now id exit_time).1 = afterExit s now id exit_time := by
    intro a ha hid hlive hnone
    subst hid
    rw [registerExit_found s now exit_time a hpk ha ((activeOrInactive_iff a).mpr hlive)
      (by simp [falsy, hnone]) ht]
    exact ⟨rfl, rfl⟩
  have hset : ∀ a ∈ s.attendances, a.id_attendance = id →
      a.record_status ≠ Lifecycle.deleted → a.exit_time ≠ none →
      registerExit s now id exit_time =
        (s, reply 400 false "Exit time already registered") := by
    intro a ha hid hlive hsome
    subst hid
    have hf := findOne_byId_of_mem s hpk a ha ((activeOrInactive_iff a).mpr hlive)
    refine registerExit_conflict s now _ exit_time a hf ?_
    cases hfa : falsy a.exit_time with
    | false => rfl
    | true =>
      rcases (falsy_eq_true_iff _).mp hfa with h | h
      · exact absurd h hsome
      · exact absurd h (hcol a ha)
  refine ⟨⟨?_, ?_⟩, ?_, registerExit_not_found s now id exit_time, ?_⟩
  · intro hst
    by_contra hno
    by_cases hex : ∃ a ∈ s.attendances, a.id_attendance = id ∧
        a.record_status ≠ Lifecycle.deleted
    · obtain ⟨a, ha, hid, hlive⟩ := hex
      have hsome : a.exit_time ≠ none := fun h => hno ⟨a, ha, hid, hlive, h⟩
      rw [hset a ha hid hlive hsome] at hst
      simp [reply] at hst
    · have : ∀ a ∈ s.attendances, a.id_attendance = id →
          a.record_status = Lifecycle.deleted := by
        intro a ha hid
        by_contra hd
        exact hex ⟨a, ha, hid, hd⟩
      rw [registerExit_not_found s now id exit_time this] at hst
      simp [reply] at hst
  · rintro ⟨a, ha, hid, hlive, hnone⟩
    exact (hfound a ha hid hlive hnone).1
  · rintro ⟨a, ha, hid, hlive, hnone⟩
    have h1 := (hfound a ha hid hlive hnone).2
    refine ⟨h1, ?_⟩
    intro later other
    rw [h1]
    subst hid
    have hmem : ({ a with exit_time := some exit_time, updated_at := now } : Attendance) ∈
        (afterExit s now a.id_attendance exit_time).attendances := by
      simp only [afterExit, List.mem_map]
      exact ⟨a, ha, by simp⟩
    have hrow : activeOrInactive
        ({ a with exit_time := some exit_time, updated_at := now } : Attendance) = true :=
      (activeOrInactive_iff a).mpr hlive
    obtain ⟨b, hb⟩ : ∃ b, Attendance.findOne (afterExit s now a.id_attendance exit_time)
        (byIdNotDeleted a.id_attendance) = some b := by
      cases h : Attendance.findOne (afterExit s now a.id_attendance exit_time)
          (byIdNotDeleted a.id_attendance) with
      | none =>
        have := (findOne_byId_eq_none _ _).mp h _ hmem rfl
        exact absurd this ((activeOrInactive_iff a).mp hrow)
      | some b => exact ⟨b, rfl⟩
    obtain ⟨hbmem, hbid, -⟩ := findOne_byId_some _ _ b hb
    have hbx : b.exit_time = some exit_time := by
      simp only [afterExit, List.mem_map] at hbmem
      obtain ⟨x, -, hx⟩ := hbmem
      by_cases hxid : x.id_attendance = a.id_attendance
      · rw [if_pos hxid] at hx
        rw [← hx]
      · rw [if_neg hxid] at hx
        rw [hx] at hxid
        exact absurd hbid hxid
    exact registerExit_conflict _ later _ other b hb (by simp [falsy, hbx, ht])
  · rintro ⟨a, ha, hid, hlive, hsome⟩
    exact hset a ha hid hlive hsome

/-- C7 on the sample store: the exit of the sample attendance is written once,
the second registration is refused and leaves `17:00` in place. -/
theorem registerExit_once_witness :
    (registerExit sampleStore 9 "a-1" "17:00").2.status = 200 ∧
      (registerExit sampleStore 9 "a-1" "17:00").1 = afterExit sampleStore 9 "a-1" "17:00" ∧
      registerExit (registerExit sampleStore 9 "a-1" "17:00").1 10 "a-1" "18:00" =
        (afterExit sampleStore 9 "a-1" "17:00",
          reply 400 false "Exit time already registered") :=
  ⟨(registerExit_once sampleStore 9 "a-1" "17:00" (by decide) (by decide) (by decide)).1.2
      ⟨sampleAttendance, by decide⟩,
   ((registerExit_once sampleStore 9 "a-1" "17:00" (by decide) (by decide) (by decide)).2.1
      ⟨sampleAttendance, by decide⟩).1,
   ((registerExit_once sampleStore 9 "a-1" "17:00" (by decide) (by decide) (by decide)).2.1
      ⟨sampleAttendance, by decide⟩).2 10 "18:00"⟩

theorem create_inv (s s' : Store) (row : Attendance) (h : Attendance.create s row = some s') :
    (∀ a ∈ s.attendances, a.id_attendance ≠ row.id_attendance) ∧
      (∀ a ∈ s.attendances, indexConflict row a = false) ∧
      s' = { s with attendances := s.attendances ++ [row] } := by
  unfold Attendance.create at h
  split at h
  · exact absurd h (by simp)
  · rename_i h1
    split at h
    · exact absurd h (by simp)
    · split at h
      · exact absurd h (by simp)
      · rename_i h3
        refine ⟨?_, ?_, (Option.some.inj h).symm⟩
        · intro a ha
          have h1' := Bool.eq_false_iff.mpr h1
          have := List.any_eq_false.mp h1' a ha
          simpa using this
        · intro a ha
          have h3' := Bool.eq_false_iff.mpr h3
          have := List.any_eq_false.mp h3' a ha
          simpa using this

/-- What a 201 response of `createAttendance` says about the store before and
after it. -/
theorem createAttendance_created_inv (s : Store) (now : Nat) (id : String)
    (body : CreateAttendanceBody) (h : (createAttendance s now id body).2.status = 201) :
    (∃ u ∈ s.users, u.id_user = body.id_employee) ∧
    (∀ a ∈ s.attendances, ¬ (a.id_employee = body.id_employee ∧ a.date = body.date ∧
        activeOrInactive a = true)) ∧
    (∀ a ∈ s.attendances, a.id_attendance ≠ id) ∧
    ∃ row, (createAttendance s now id body).1 =
        { s with attendances := s.attendances ++ [row] } ∧
      row.id_attendance = id ∧ row.id_employee = body.id_employee ∧ row.date = body.date ∧
      row.record_status = Lifecycle.active := by
  unfold createAttendance at h ⊢
  cases h1 : User.findByPk s body.id_employee with
  | none => simp [h1, reply] at h
  | some u =>
    cases h2 : Attendance.findOne s (sameEmployeeDate body.id_employee body.date) with
    | some a => simp [h1, h2, reply] at h
    | none =>
      simp only [h1, h2] at h ⊢
      split at h
      · simp [reply] at h
      · rename_i s' hc
        obtain ⟨hid, -, hs'⟩ := create_inv s s' _ hc
        refine ⟨(findByPk_user_ne_none s _).mp (by simp [h1]),
          (findOne_sameEmployeeDate_eq_none s _ _).mp h2, hid, ?_⟩
        exact ⟨_, hs', rfl, rfl, rfl, rfl⟩

theorem countActiveOrInactive_eq_zero (s : Store) (e d : String)
    (h : ∀ a ∈ s.attendances, ¬ (a.id_employee = e ∧ a.date = d ∧ activeOrInactive a = true)) :
    countActiveOrInactive s e d = 0 := by
  simp only [countActiveOrInactive, List.length_eq_zero, List.filter_eq_nil_iff,
    sameEmployeeDate_iff]
  exact h

/-- C5: when `createAttendance` for an employee and date answers 201, deleting
the created record answers 200, and a further `createAttendance` for the same
employee and date (with a new identifier) answers 201; the store then holds
exactly one active or inactive record for that employee and date, next to the
first record, which is still stored with `record_status = deleted`. -/
theorem create_delete_create (s : Store) (t1 t2 t3 : Nat) (id1 id2 : String)
    (b1 b2 : CreateAttendanceBody)
    (he : b2.id_employee = b1.id_employee) (hd : b2.date = b1.date)
    (h1 : (createAttendance s t1 id1 b1).2.status = 201)
    (hnew : ∀ a ∈ (createAttendance s t1 id1 b1).1.attendances, a.id_attendance ≠ id2) :
    (deleteAttendance (createAttendance s t1 id1 b1).1 t2 id1).2.status = 200 ∧
    (createAttendance (deleteAttendance (createAttendance s t1 id1 b1).1 t2 id1).1
        t3 id2 b2).2.status = 201 ∧
    countActiveOrInactive
        (createAttendance (deleteAttendance (createAttendance s t1 id1 b1).1 t2 id1).1
          t3 id2 b2).1 b1.id_employee b1.date = 1 ∧
    ∃ a ∈ (createAttendance (deleteAttendance (createAttendance s t1 id1 b1).1 t2 id1).1
        t3 id2 b2).1.attendances,
      a.id_attendance = id1 ∧ a.id_employee = b1.id_employee ∧ a.date = b1.date ∧
        a.record_status = Lifecycle.deleted := by
  obtain ⟨hu, hfree, hid, row, hs1, r1, r2, r3, r4⟩ := createAttendance_created_inv s t1 id1 b1 h1
  rw [hs1] at hnew ⊢
  -- the deletion finds the new row
  have hlive : activeOrInactive row = true := by simp [activeOrInactive, r4]
  have hfind : Attendance.findOne ({ s with attendances := s.attendances ++ [row] } : Store)
      (byIdNotDeleted id1) = some row := by
    have hnone : s.attendances.find? (byIdNotDeleted id1) = none := by
      rw [List.find?_eq_none]
      intro a ha hc
      exact hid a ha ((byIdNotDeleted_iff id1 a).mp hc).1
    have hrow : byIdNotDeleted id1 row = true := (byIdNotDeleted_iff id1 row).mpr ⟨r1, hlive⟩
    simp [Attendance.findOne, List.find?_append, hnone, hrow]
  have hdel := deleteAttendance_found _ t2 id1 row hfind
  have hmap : (s.attendances ++ [row]).map (fun x =>
      if x.id_attendance = id1 then
        { row with record_status := Lifecycle.deleted, updated_at := t2 } else x) =
      s.attendances ++ [{ row with record_status := Lifecycle.deleted, updated_at := t2 }] := by
    rw [List.map_append]
    congr 1
    · conv_rhs => rw [← List.map_id s.attendances]
      apply List.map_congr_left
      intro a ha
      simp [hid a ha]
    · simp [r1]
  simp only [hmap] at hdel
  rw [hdel]
  -- the second creation
  have hu2 : ∃ u ∈ s.users, u.id_user = b2.id_employee := by rw [he]; exact hu
  have hfree2 : ∀ a ∈ s.attendances ++
      [{ row with record_status := Lifecycle.deleted, updated_at := t2 }],
      ¬ (a.id_employee = b2.id_employee ∧ a.date = b2.date ∧ activeOrInactive a = true) := by
    intro a ha
    rw [List.mem_append, List.mem_singleton] at ha
    rcases ha with ha | ha
    · rw [he, hd]; exact hfree a ha
    · subst ha
      simp [activeOrInactive]
  have hid2 : ∀ a ∈ s.attendances ++
      [{ row with record_status := Lifecycle.deleted, updated_at := t2 }],
      a.id_attendance ≠ id2 := by
    intro a ha
    rw [List.mem_append, List.mem_singleton] at ha
    rcases ha with ha | ha
    · exact hnew a (List.mem_append_left _ ha)
    · subst ha
      exact hnew row (by simp)
  obtain ⟨row2, hs3, -, q2, q3, q4, -⟩ := createAttendance_free
    ({ s with attendances := s.attendances ++
      [{ row with record_status := Lifecycle.deleted, updated_at := t2 }] } : Store)
    t3 id2 b2 hu2 hfree2 hid2
  rw [hs3]
  refine ⟨rfl, rfl, ?_, ?_⟩
  · have hz := countActiveOrInactive_eq_zero
      ({ s with attendances := s.attendances ++
        [{ row with record_status := Lifecycle.deleted, updated_at := t2 }] } : Store)
      b1.id_employee b1.date (by rw [← he, ← hd]; exact hfree2)
    have hrow2 : sameEmployeeDate b1.id_employee b1.date row2 = true := by
      rw [sameEmployeeDate_iff]
      exact ⟨q2.trans he, q3.trans hd, by simp [activeOrInactive, q4]⟩
    simp only [countActiveOrInactive] at hz ⊢
    rw [List.filter_append, List.length_append, hz]
    simp [hrow2]
  · exact ⟨{ row with record_status := Lifecycle.deleted, updated_at := t2 }, by simp,
      r1, r2, r3, rfl⟩

/-- C5 on the sample store: a record for a new day is created, deleted and
created again. -/
theorem create_delete_create_witness :
    (deleteAttendance (createAttendance sampleStore 3 "a-2" (sampleCreate "2024-05-07")).1
        4 "a-2").2.status = 200 ∧
    (createAttendance (deleteAttendance
        (createAttendance sampleStore 3 "a-2" (sampleCreate "2024-05-07")).1 4 "a-2").1
        5 "a-3" (sampleCreate "2024-05-07")).2.status = 201 ∧
    countActiveOrInactive (createAttendance (deleteAttendance
        (createAttendance sampleStore 3 "a-2" (sampleCreate "2024-05-07")).1 4 "a-2").1
        5 "a-3" (sampleCreate "2024-05-07")).1 "u-1" "2024-05-07" = 1 :=
  have h := create_delete_create sampleStore 3 4 5 "a-2" "a-3" (sampleCreate "2024-05-07")
    (sampleCreate "2024-05-07") rfl rfl (by decide) (by decide)
  ⟨h.1, h.2.1, h.2.2.1⟩

theorem indexConflict_comm (a b : Attendance) : indexConflict a b = indexConflict b a := by
  simp only [indexConflict]
  by_cases h1 : a.id_employee = b.id_employee <;> by_cases h2 : a.date = b.date <;>
    cases activeOrInactive a <;> cases activeOrInactive b <;>
    simp [h1, h2, eq_comm]

theorem indexConflict_congr (x y b : Attendance)
    (hl : activeOrInactive x = activeOrInactive y) (he : x.id_employee = y.id_employee)
    (hd : x.date = y.date) : indexConflict x b = indexConflict y b := by
  simp [indexConflict, hl, he, hd]

theorem indexConflict_iff (a b : Attendance) :
    indexConflict a b = true ↔
      sameEmployeeDate a.id_employee a.date a = true ∧
        sameEmployeeDate a.id_employee a.date b = true := by
  rw [sameEmployeeDate_iff, sameEmployeeDate_iff]
  simp only [indexConflict, Bool.and_eq_true, decide_eq_true_eq]
  constructor
  · rintro ⟨⟨⟨h1, h2⟩, h3⟩, h4⟩
    exact ⟨⟨trivial, trivial, h1⟩, h3.symm, h4.symm, h2⟩
  · rintro ⟨⟨-, -, h1⟩, h3, h4, h2⟩
    exact ⟨⟨⟨h1, h2⟩, h3.symm⟩, h4.symm⟩

theorem filter_length_le_one_iff (l : List Attendance) :
    (∀ e d, (l.filter (sameEmployeeDate e d)).length ≤ 1) ↔
      l.Pairwise fun a b => indexConflict a b = false := by
  induction l with
  | nil => simp
  | cons a t ih =>
    rw [List.pairwise_cons, ← ih]
    constructor
    · intro h
      refine ⟨?_, ?_⟩
      · intro b hb
        by_contra hc
        obtain ⟨h1, h2⟩ := (indexConflict_iff a b).mp (by simpa using hc)
        have hlen := h a.id_employee a.date
        rw [List.filter_cons_of_pos h1, List.length_cons] at hlen
        have hmem : b ∈ t.filter (sameEmployeeDate a.id_employee a.date) :=
          List.mem_filter.mpr ⟨hb, h2⟩
        have := List.length_pos_of_mem hmem
        omega
      · intro e d
        refine le_trans ?_ (h e d)
        by_cases hp : sameEmployeeDate e d a = true
        · rw [List.filter_cons_of_pos hp, List.length_cons]; omega
        · rw [List.filter_cons_of_neg hp]
    · rintro ⟨h1, h2⟩ e d
      by_cases hp : sameEmployeeDate e d a = true
      · rw [List.filter_cons_of_pos hp, List.length_cons]
        have : t.filter (sameEmployeeDate e d) = [] := by
          rw [List.filter_eq_nil_iff]
          intro b hb hq
          have hc : indexConflict a b = true := by
            obtain ⟨p1, p2, p3⟩ := (sameEmployeeDate_iff e d a).mp hp
            obtain ⟨q1, q2, q3⟩ := (sameEmployeeDate_iff e d b).mp hq
            simp [indexConflict, p1, p2, p3, q1, q2, q3]
          rw [h1 b hb] at hc
          exact absurd hc (by simp)
        simp [this]
      · rw [List.filter_cons_of_neg hp]
        exact h2 e d

/-- The ledger invariant says that no two stored rows conflict on the unique
index. -/
theorem atMostOne_iff_pairwise (s : Store) :
    atMostOnePerEmployeeDate s ↔
      s.attendances.Pairwise fun a b => indexConflict a b = false :=
  filter_length_le_one_iff s.attendances

/-- An accepted insert keeps the primary key and the ledger invariant. -/
theorem create_preserves (s s' : Store) (row : Attendance)
    (h : Attendance.create s row = some s') (hpk : primaryKeyHolds s)
    (hinv : atMostOnePerEmployeeDate s) :
    primaryKeyHolds s' ∧ atMostOnePerEmployeeDate s' := by
  obtain ⟨hid, hc, rfl⟩ := create_inv s s' row h
  rw [atMostOne_iff_pairwise] at hinv ⊢
  constructor
  · simp only [primaryKeyHolds]
    rw [List.pairwise_append]
    exact ⟨hpk, List.pairwise_singleton _ _, fun a ha b hb => by
      rw [List.mem_singleton] at hb
      subst hb
      exact hid a ha⟩
  · show List.Pairwise _ (s.attendances ++ [row])
    rw [List.pairwise_append]
    exact ⟨hinv, List.pairwise_singleton _ _, fun a ha b hb => by
      rw [List.mem_singleton] at hb
      subst hb
      rw [indexConflict_comm]
      exact hc a ha⟩

/-- An accepted rewrite of a stored row keeps the primary key and the ledger
invariant. -/
theorem update_preserves (s s' : Store) (old new : Attendance) (now : Nat)
    (h : Attendance.update s old new now = some s') (hold : old ∈ s.attendances)
    (hid : new.id_attendance = old.id_attendance) (hpk : primaryKeyHolds s)
    (hinv : atMostOnePerEmployeeDate s) :
    primaryKeyHolds s' ∧ atMostOnePerEmployeeDate s' := by
  unfold Attendance.update at h
  split at h
  · cases h
    exact ⟨hpk, hinv⟩
  · dsimp only at h
    split at h
    · exact absurd h (by simp)
    · split at h
      · exact absurd h (by simp)
      · rename_i hne hfk hux
        cases h
        have hfid : ∀ x : Attendance,
            (if x.id_attendance = old.id_attendance then
              ({ new with updated_at := now } : Attendance) else x).id_attendance =
            x.id_attendance := by
          intro x
          by_cases hx : x.id_attendance = old.id_attendance
          · rw [if_pos hx, hx]; exact hid
          · rw [if_neg hx]
        rw [atMostOne_iff_pairwise] at hinv ⊢
        constructor
        · simp only [primaryKeyHolds]
          rw [List.pairwise_map]
          exact hpk.imp fun {a b} hab => by rw [hfid a, hfid b]; exact hab
        · show List.Pairwise _ (List.map _ s.attendances)
          rw [List.pairwise_map]
          have hrow : ∀ b ∈ s.attendances, b.id_attendance ≠ old.id_attendance →
              indexConflict old b = false →
              indexConflict ({ new with updated_at := now } : Attendance) b = false := by
            intro b hb hbid hob
            by_cases hk : new.id_employee ≠ old.id_employee ∨ new.date ≠ old.date ∨
                activeOrInactive new ≠ activeOrInactive old
            · have hany : s.attendances.any (fun a =>
                  a.id_attendance ≠ old.id_attendance &&
                    indexConflict ({ new with updated_at := now } : Attendance) a) = false := by
                by_contra hc
                exact hux ⟨hk, by simpa using hc⟩
              have := List.any_eq_false.mp hany b hb
              simpa [hbid] using this
            · push_neg at hk
              rw [indexConflict_congr ({ new with updated_at := now } : Attendance) old b
                hk.2.2 hk.1 hk.2.1]
              exact hob
          refine (hpk.and hinv).imp_of_mem ?_
          intro a b ha hb hab
          obtain ⟨hne', hc⟩ := hab
          by_cases h1 : a.id_attendance = old.id_attendance
          · have hb1 : b.id_attendance ≠ old.id_attendance := fun e => hne' (h1.trans e.symm)
            rw [if_pos h1, if_neg hb1]
            have hao : a = old := eq_of_primaryKey s hpk a old ha hold h1
            rw [hao] at hc
            exact hrow b hb hb1 hc
          · rw [if_neg h1]
            by_cases h2 : b.id_attendance = old.id_attendance
            · rw [if_pos h2, indexConflict_comm]
              have hbo : b = old := eq_of_primaryKey s hpk b old hb hold h2
              rw [hbo, indexConflict_comm] at hc
              exact hrow a ha h1 hc
            · rw [if_neg h2]
              exact hc

theorem createAttendance_store (s : Store) (now : Nat) (id : String)
    (body : CreateAttendanceBody) :
    (createAttendance s now id body).1 = s ∨
      ∃ row, Attendance.create s row = some (createAttendance s now id body).1 := by
  unfold createAttendance
  split
  · exact Or.inl rfl
  · split
    · exact Or.inl rfl
    · split
      · exact Or.inl rfl
      · rename_i s' hc
        exact Or.inr ⟨_, hc⟩

theorem registerEntry_store (s : Store) (now : Nat) (id : String) (body : RegisterEntryBody) :
    (registerEntry s now id body).1 = s ∨
      ∃ row, Attendance.create s row = some (registerEntry s now id body).1 := by
  unfold registerEntry
  split
  · exact Or.inl rfl
  · split
    · exact Or.inl rfl
    · split
      · exact Or.inl rfl
      · rename_i s' hc
        exact Or.inr ⟨_, hc⟩

theorem registerExit_store (s : Store) (now : Nat) (id exit_time : String) :
    (registerExit s now id exit_time).1 = s ∨
      ∃ old new, old ∈ s.attendances ∧ new.id_attendance = old.id_attendance ∧
        Attendance.update s old new now = some (registerExit s now id exit_time).1 := by
  unfold registerExit
  split
  · exact Or.inl rfl
  · rename_i a hf
    split
    · exact Or.inl rfl
    · split
      · exact Or.inl rfl
      · rename_i s' hu
        have hmem := (findOne_byId_some s id a hf).1
        split
        · exact Or.inr ⟨a, { a with exit_time := some exit_time }, hmem, rfl, hu⟩
        · exact Or.inr ⟨a, { a with exit_time := some exit_time }, hmem, rfl, hu⟩

theorem updateAttendance_store (s : Store) (now : Nat) (id : String)
    (updateData : UpdateAttendanceBody) :
    (updateAttendance s now id updateData).1 = s ∨
      ∃ old new, old ∈ s.attendances ∧ new.id_attendance = old.id_attendance ∧
        Attendance.update s old new now = some (updateAttendance s now id updateData).1 := by
  unfold updateAttendance
  split
  · exact Or.inl rfl
  · rename_i a hf
    split
    · exact Or.inl rfl
    · rename_i s' hu
      exact Or.inr ⟨a, applyUpdate a updateData, (findOne_byId_some s id a hf).1, rfl, hu⟩

theorem deleteAttendance_store (s : Store) (now : Nat) (id : String) :
    (deleteAttendance s now id).1 = s ∨
      ∃ old new, old ∈ s.attendances ∧ new.id_attendance = old.id_attendance ∧
        Attendance.update s old new now = some (deleteAttendance s now id).1 := by
  unfold deleteAttendance
  split
  · exact Or.inl rfl
  · rename_i a hf
    split
    · exact Or.inl rfl
    · rename_i s' hu
      exact Or.inr ⟨a, { a with record_status := Lifecycle.deleted },
        (findOne_byId_some s id a hf).1, rfl, hu⟩

/-- C6: in a store where the primary key and the ledger invariant (at most one
active or inactive record per employee and date) hold, both hold again in the
store left by `createAttendance`, `registerEntry`, `registerExit`,
`updateAttendance` (for every accepted body, also one that changes the date,
the employee or `record_status`) and `deleteAttendance`, whatever the response,
so in particular after every success response. -/
theorem ledger_invariant_preserved (s : Store) (now : Nat) (hpk : primaryKeyHolds s)
    (hinv : atMostOnePerEmployeeDate s) :
    (∀ id body, primaryKeyHolds (createAttendance s now id body).1 ∧
      atMostOnePerEmployeeDate (createAttendance s now id body).1) ∧
    (∀ id body, primaryKeyHolds (registerEntry s now id body).1 ∧
      atMostOnePerEmployeeDate (registerEntry s now id body).1) ∧
    (∀ id exit_time, primaryKeyHolds (registerExit s now id exit_time).1 ∧
      atMostOnePerEmployeeDate (registerExit s now id exit_time).1) ∧
    (∀ id updateData, primaryKeyHolds (updateAttendance s now id updateData).1 ∧
      atMostOnePerEmployeeDate (updateAttendance s now id updateData).1) ∧
    (∀ id, primaryKeyHolds (deleteAttendance s now id).1 ∧
      atMostOnePerEmployeeDate (deleteAttendance s now id).1) := by
  refine ⟨?_, ?_, ?_, ?_, ?_⟩
  · intro id body
    rcases createAttendance_store s now id body with h | ⟨row, h⟩
    · rw [h]; exact ⟨hpk, hinv⟩
    · exact create_preserves s _ row h hpk hinv
  · intro id body
    rcases registerEntry_store s now id body with h | ⟨row, h⟩
    · rw [h]; exact ⟨hpk, hinv⟩
    · exact create_preserves s _ row h hpk hinv
  · intro id exit_time
    rcases registerExit_store s now id exit_time with h | ⟨old, new, h1, h2, h⟩
    · rw [h]; exact ⟨hpk, hinv⟩
    · exact update_preserves s _ old new now h h1 h2 hpk hinv
  · intro id updateData
    rcases updateAttendance_store s now id updateData with h | ⟨old, new, h1, h2, h⟩
    · rw [h]; exact ⟨hpk, hinv⟩
    · exact update_preserves s _ old new now h h1 h2 hpk hinv
  · intro id
    rcases deleteAttendance_store s now id with h | ⟨old, new, h1, h2, h⟩
    · rw [h]; exact ⟨hpk, hinv⟩
    · exact update_preserves s _ old new now h h1 h2 hpk hinv

/-- C6 on a store with records on two days: moving the second record to the day
of the first is refused by the unique index (status 500, nothing written),
moving it to a free day succeeds, and the invariant holds after both. -/
theorem ledger_invariant_preserved_witness :
    ((updateAttendance sampleStore2 9 "a-2" (sampleMove "2024-05-06")).2.status = 500 ∧
      atMostOnePerEmployeeDate
        (updateAttendance sampleStore2 9 "a-2" (sampleMove "2024-05-06")).1) ∧
    ((updateAttendance sampleStore2 9 "a-2" (sampleMove "2024-05-08")).2.status = 200 ∧
      atMostOnePerEmployeeDate
        (updateAttendance sampleStore2 9 "a-2" (sampleMove "2024-05-08")).1) :=
  have h := ledger_invariant_preserved sampleStore2 9 (by decide)
    ((atMostOne_iff_pairwise sampleStore2).mpr (by decide))
  ⟨⟨by decide, (h.2.2.2.1 "a-2" (sampleMove "2024-05-06")).2⟩,
   ⟨by decide, (h.2.2.2.1 "a-2" (sampleMove "2024-05-08")).2⟩⟩

theorem create_foreignKey (s s' : Store) (row : Attendance)
    (h : Attendance.create s row = some s') (hfk : foreignKeyHolds s) :
    foreignKeyHolds s' := by
  have hu : User.findByPk s row.id_employee ≠ none := by
    unfold Attendance.create at h
    split at h
    · exact absurd h (by simp)
    · split at h
      · exact absurd h (by simp)
      · rename_i hn
        intro e
        exact hn (by simp [e])
  obtain ⟨-, -, rfl⟩ := create_inv s s' row h
  intro a ha
  simp only [List.mem_append, List.mem_singleton] at ha
  rcases ha with ha | rfl
  · exact hfk a ha
  · exact (findByPk_user_ne_none s _).mp hu

theorem update_foreignKey (s s' : Store) (old new : Attendance) (now : Nat)
    (h : Attendance.update s old new now = some s') (hold : old ∈ s.attendances)
    (hfk : foreignKeyHolds s) : foreignKeyHolds s' := by
  unfold Attendance.update at h
  split at h
  · cases h
    exact hfk
  · dsimp only at h
    split at h
    · exact absurd h (by simp)
    · split at h
      · exact absurd h (by simp)
      · rename_i hne hf hux
        cases h
        intro a ha
        simp only [List.mem_map] at ha
        obtain ⟨x, hx, rfl⟩ := ha
        by_cases hid : x.id_attendance = old.id_attendance
        · rw [if_pos hid]
          by_cases he : new.id_employee = old.id_employee
          · obtain ⟨u, hu, hue⟩ := hfk old hold
            exact ⟨u, hu, hue.trans he.symm⟩
          · have : User.findByPk s new.id_employee ≠ none := by
              intro e
              exact hf ⟨he, by simp [e]⟩
            exact (findByPk_user_ne_none s _).mp this
        · rw [if_neg hid]
          exact hfk x hx

/-- The foreign key of `id_employee` holds again in the store left by each of
the writing handlers. -/
theorem foreignKey_preserved (s : Store) (now : Nat) (hfk : foreignKeyHolds s) :
    (∀ id body, foreignKeyHolds (createAttendance s now id body).1) ∧
    (∀ id body, foreignKeyHolds (registerEntry s now id body).1) ∧
    (∀ id exit_time, foreignKeyHolds (registerExit s now id exit_time).1) ∧
    (∀ id updateData, foreignKeyHolds (updateAttendance s now id updateData).1) ∧
    (∀ id, foreignKeyHolds (deleteAttendance s now id).1) := by
  refine ⟨?_, ?_, ?_, ?_, ?_⟩
  · intro id body
    rcases createAttendance_store s now id body with h | ⟨row, h⟩
    · rw [h]; exact hfk
    · exact create_foreignKey s _ row h hfk
  · intro id body
    rcases registerEntry_store s now id body with h | ⟨row, h⟩
    · rw [h]; exact hfk
    · exact create_foreignKey s _ row h hfk
  · intro id exit_time
    rcases registerExit_store s now id exit_time with h | ⟨old, new, h1, -, h⟩
    · rw [h]; exact hfk
    · exact update_foreignKey s _ old new now h h1 hfk
  · intro id updateData
    rcases updateAttendance_store s now id updateData with h | ⟨old, new, h1, -, h⟩
    · rw [h]; exact hfk
    · exact update_foreignKey s _ old new now h h1 hfk
  · intro id
    rcases deleteAttendance_store s now id with h | ⟨old, new, h1, -, h⟩
    · rw [h]; exact hfk
    · exact update_foreignKey s _ old new now h h1 hfk

/-- The rows of a page are stored rows that pass the filter. -/
theorem findAndCountAll_rows (s : Store) (wh : AttendanceView → Bool)
    (order : AttendanceView → AttendanceView → Bool) (limit offset : Int) (p : Page)
    (h : Attendance.findAndCountAll s wh order limit offset = some p) :
    ∀ v ∈ p.rows, v.attendance ∈ s.attendances ∧ wh v = true := by
  unfold Attendance.findAndCountAll at h
  split at h
  · exact absurd h (by simp)
  · cases h
    intro v hv
    have h1 := List.mem_of_mem_drop (List.mem_of_mem_take hv)
    have h2 := (List.perm_insertionSort (fun a b => order a b = true) _).mem_iff.mp h1
    obtain ⟨h3, h4⟩ := List.mem_filter.mp h2
    obtain ⟨a, ha, rfl⟩ := List.mem_map.mp h3
    exact ⟨ha, h4⟩

/-- The records of a list response are stored rows that pass the filter of the
query. -/
theorem listResponse_records (s : Store) (wh : AttendanceView → Bool)
    (order : AttendanceView → AttendanceView → Bool) (message errorMessage : String)
    (page limit offset : Int)
    (hwh : ∀ v, wh v = true → activeOrInactive v.attendance = true) :
    ∀ a ∈ (listResponse message errorMessage page limit
        (Attendance.findAndCountAll s wh order limit offset)).records,
      a ∈ s.attendances ∧ a.record_status ≠ Lifecycle.deleted := by
  intro a ha
  cases h : Attendance.findAndCountAll s wh order limit offset with
  | none => simp [h, listResponse, reply, Response.records] at ha
  | some p =>
    simp only [h, listResponse, Response.records, List.mem_map] at ha
    obtain ⟨v, hv, rfl⟩ := ha
    obtain ⟨h1, h2⟩ := findAndCountAll_rows s wh order limit offset p h v hv
    exact ⟨h1, (activeOrInactive_iff _).mp (hwh v h2)⟩

theorem getAttendanceById_records (s : Store) (id : String) :
    ∀ a ∈ (getAttendanceById s id).records,
      a ∈ s.attendances ∧ a.record_status ≠ Lifecycle.deleted := by
  intro a ha
  unfold getAttendanceById at ha
  cases h : Attendance.findOne s (byIdNotDeleted id) with
  | none => simp [h, reply, Response.records] at ha
  | some b =>
    obtain ⟨hb, -, hlive⟩ := findOne_byId_some s id b h
    simp only [h, Response.records] at ha
    have hab : a = b := by
      split at ha <;> simpa [withEmployee] using ha
    rw [hab]
    exact ⟨hb, (activeOrInactive_iff b).mp hlive⟩

theorem getAttendanceById_not_found (s : Store) (id : String)
    (h : ∀ a ∈ s.attendances, a.id_attendance = id → a.record_status = Lifecycle.deleted) :
    getAttendanceById s id = reply 404 false "Attendance not found" := by
  simp [getAttendanceById, (findOne_byId_eq_none s id).mpr h]

/-- C9: every record returned by `getAllAttendances`, `getAttendanceById`,
`getAttendancesByEmployee`, `getAttendancesByDate`, `getAttendancesByDateRange`,
`getAttendancesByStatus` and `searchAttendances` is a stored record whose
`record_status` is not deleted, whatever the store, the parameters and the
`LIKE` of the database; and `getAttendanceById` answers 404 for an identifier
that is missing or soft-deleted. -/
theorem reads_exclude_deleted (like : String → String → Bool) (s : Store) (q : PageQuery) :
    (∀ a ∈ (getAllAttendances s q).records,
      a ∈ s.attendances ∧ a.record_status ≠ Lifecycle.deleted) ∧
    (∀ id, ∀ a ∈ (getAttendanceById s id).records,
      a ∈ s.attendances ∧ a.record_status ≠ Lifecycle.deleted) ∧
    (∀ id_employee, ∀ a ∈ (getAttendancesByEmployee s id_employee q).records,
      a ∈ s.attendances ∧ a.record_status ≠ Lifecycle.deleted) ∧
    (∀ date, ∀ a ∈ (getAttendancesByDate s date q).records,
      a ∈ s.attendances ∧ a.record_status ≠ Lifecycle.deleted) ∧
    (∀ start_date end_date, ∀ a ∈ (getAttendancesByDateRange s start_date end_date q).records,
      a ∈ s.attendances ∧ a.record_status ≠ Lifecycle.deleted) ∧
    (∀ status, ∀ a ∈ (getAttendancesByStatus s status q).records,
      a ∈ s.attendances ∧ a.record_status ≠ Lifecycle.deleted) ∧
    (∀ term, ∀ a ∈ (searchAttendances like s term q).records,
      a ∈ s.attendances ∧ a.record_status ≠ Lifecycle.deleted) ∧
    (∀ id, (∀ a ∈ s.attendances, a.id_attendance = id → a.record_status = Lifecycle.deleted) →
      (getAttendanceById s id).status = 404 ∧ (getAttendanceById s id).records = []) := by
  refine ⟨?_, getAttendanceById_records s, ?_, ?_, ?_, ?_, ?_, ?_⟩
  · exact listResponse_records s _ _ _ _ _ _ _ (fun v hv => hv)
  · intro id_employee
    exact listResponse_records s _ _ _ _ _ _ _ (fun v hv => by
      simp only [Bool.and_eq_true] at hv; exact hv.2)
  · intro date
    exact listResponse_records s _ _ _ _ _ _ _ (fun v hv => by
      simp only [Bool.and_eq_true] at hv; exact hv.2)
  · intro start_date end_date
    exact listResponse_records s _ _ _ _ _ _ _ (fun v hv => by
      simp only [Bool.and_eq_true] at hv; exact hv.2)
  · intro status
    exact listResponse_records s _ _ _ _ _ _ _ (fun v hv => by
      simp only [Bool.and_eq_true] at hv; exact hv.2)
  · intro term a ha
    unfold searchAttendances at ha
    split at ha
    · simp [reply, Response.records] at ha
    · exact listResponse_records s _ _ _ _ _ _ _ (fun v hv => by
        simp only [Bool.and_eq_true] at hv; exact hv.1) a ha
  · intro id h
    rw [getAttendanceById_not_found s id h]
    exact ⟨rfl, rfl⟩

/-- C9 on a store that holds a deleted and an active record: the list and the
search return the active record only, which is not deleted, and the deleted
identifier is not found. -/
theorem reads_exclude_deleted_witness :
    (getAllAttendances sampleStoreDeleted { page := none, limit := none }).records =
        [sampleAttendance2] ∧
      (searchAttendances sampleLike sampleStoreDeleted (some "An")
        { page := none, limit := none }).records = [sampleAttendance2] ∧
      (sampleAttendance2 ∈ sampleStoreDeleted.attendances ∧
        sampleAttendance2.record_status ≠ Lifecycle.deleted) ∧
      ((getAttendanceById sampleStoreDeleted "a-1").status = 404 ∧
        (getAttendanceById sampleStoreDeleted "a-1").records = []) :=
  have h := reads_exclude_deleted sampleLike sampleStoreDeleted { page := none, limit := none }
  ⟨by decide, by decide, h.1 sampleAttendance2 (by decide), h.2.2.2.2.2.2.2 "a-1" (by decide)⟩

/-- A non-null result of `calculateWorkedHours` needs both times. -/
theorem calculateWorkedHours_some (e x : Option String) (w : WorkedHours)
    (h : calculateWorkedHours e x = some w) : e ≠ none ∧ x ≠ none := by
  unfold calculateWorkedHours at h
  split at h
  · exact absurd h (by simp)
  · rename_i hf
    simp only [Bool.or_eq_true, not_or] at hf
    constructor
    · rintro rfl
      exact hf.1 rfl
    · rintro rfl
      exact hf.2 rfl

/-- C10: in a response of `getAttendanceById` and in a 200 response of
`registerExit`, a `worked_hours` that is present and not null comes with a
returned record whose `entry_time` and `exit_time` are both set; and
`calculateWorkedHours` returns `null` when either time is missing. -/
theorem worked_hours_needs_both_times (s : Store) (now : Nat) (id exit_time : String) :
    (∀ v w, (getAttendanceById s id).data = Data.one v → v.worked_hours = some (some w) →
      v.attendance.entry_time ≠ none ∧ v.attendance.exit_time ≠ none) ∧
    (∀ v w, (registerExit s now id exit_time).2.status = 200 →
      (registerExit s now id exit_time).2.data = Data.one v →
      v.worked_hours = some (some w) →
      v.attendance.entry_time ≠ none ∧ v.attendance.exit_time ≠ none) ∧
    (∀ t, calculateWorkedHours none t = none ∧ calculateWorkedHours t none = none) := by
  refine ⟨?_, ?_, ?_⟩
  · intro v w hd hw
    unfold getAttendanceById at hd
    split at hd
    · simp [reply] at hd
    · rename_i a hf
      simp only [Data.one.injEq] at hd
      split at hd
      · subst hd
        simp only [Option.some.injEq] at hw
        exact calculateWorkedHours_some _ _ w hw
      · subst hd
        simp [withEmployee] at hw
  · intro v w _ hd hw
    unfold registerExit at hd
    split at hd
    · simp [reply] at hd
    · split at hd
      · simp [reply] at hd
      · split at hd
        · simp [reply] at hd
        · split at hd
          · simp [reply] at hd
          · simp only [Data.one.injEq] at hd
            subst hd
            simp only [Option.some.injEq] at hw
            exact calculateWorkedHours_some _ _ w hw
  · intro t
    constructor
    · simp [calculateWorkedHours, falsy]
    · simp [calculateWorkedHours, falsy]

/-- C10 on the sample store: the record without exit is returned without
`worked_hours`, and once the exit is registered the response carries the
worked hours of a record with both times. -/
theorem worked_hours_needs_both_times_witness :
    (∃ v, (getAttendanceById sampleStore "a-1").data = Data.one v ∧
      v.worked_hours = none) ∧
    (∃ v w, (registerExit sampleStore 9 "a-1" "17:00").2.data = Data.one v ∧
      v.worked_hours = some (some w) ∧
      v.attendance.entry_time ≠ none ∧ v.attendance.exit_time ≠ none) :=
  ⟨⟨_, rfl, rfl⟩,
   ⟨_, _, rfl, rfl,
    (worked_hours_needs_both_times sampleStore 9 "a-1" "17:00").2.1 _ _ (by decide) rfl rfl⟩⟩

/-! ## The auth guard -/

theorem splitChar_of_not_mem (sep : Char) (l : List Char) (h : sep ∉ l) :
    splitChar sep l = [l] := by
  induction l with
  | nil => rfl
  | cons c cs ih =>
    have hc : c ≠ sep := fun e => h (e ▸ List.mem_cons_self _ _)
    have hcs : sep ∉ cs := fun e => h (List.mem_cons_of_mem _ e)
    simp [splitChar, hc, ih hcs]

theorem splitChar_append_sep (sep : Char) (l r : List Char) (h : sep ∉ l) :
    splitChar sep (l ++ sep :: r) = l :: splitChar sep r := by
  induction l with
  | nil => simp [splitChar]
  | cons c cs ih =>
    have hc : c ≠ sep := fun e => h (e ▸ List.mem_cons_self _ _)
    have hcs : sep ∉ cs := fun e => h (List.mem_cons_of_mem _ e)
    simp [splitChar, hc, ih hcs]

theorem falsy_some (t : String) : falsy (some t) = decide (t = "") := rfl

/-- A truthy cookie is the token, whatever the header. -/
theorem requestToken_cookie (req : Request) (t : String) (hc : req.cookieToken = some t)
    (ht : t ≠ "") : requestToken req = some t := by
  simp [requestToken, hc, falsy, ht]

/-- Without a truthy cookie, the token of a header `Bearer <token>` is the
token. -/
theorem requestToken_bearer (req : Request) (t : String) (hc : falsy req.cookieToken = true)
    (hh : req.authorization = some ("Bearer " ++ t)) (hb : ' ' ∉ t.toList) :
    requestToken req = some t := by
  have hsplit : splitChar ' ' ("Bearer " ++ t).toList = ["Bearer".toList, t.toList] := by
    have e : ("Bearer " ++ t).toList = "Bearer".toList ++ ' ' :: t.toList := by
      simp [String.toList]
    rw [e, splitChar_append_sep ' ' _ _ (by decide), splitChar_of_not_mem ' ' _ hb]
  have hpre : "Bearer ".toList.isPrefixOf ("Bearer " ++ t).toList = true := by
    rw [List.isPrefixOf_iff_prefix]
    exact ⟨t.toList, by simp [String.toList]⟩
  have hne : ("Bearer " ++ t) ≠ "" := by
    intro e
    have := congrArg String.length e
    simp at this
    exact absurd this.1 (by decide)
  unfold requestToken
  simp only [hc, hh, falsy_some, hne, decide_False, Bool.not_true, Bool.false_eq_true, if_false,
    Bool.not_false, if_true, Option.getD_some, hpre, hsplit]
  simp

/-- Without a truthy cookie, a header that does not start with `Bearer ` gives
no token. -/
theorem requestToken_other_header (req : Request) (hc : falsy req.cookieToken = true)
    (hh : ∀ h, req.authorization = some h → "Bearer ".toList.isPrefixOf h.toList = false) :
    requestToken req = none := by
  unfold requestToken
  simp only [hc, Bool.not_true, Bool.false_eq_true, if_false]
  cases ha : req.authorization with
  | none => simp [falsy]
  | some h =>
    have := hh h ha
    simp only [Option.getD_some, this, Bool.false_eq_true, if_false, ite_self]

theorem authRequired_no_token (jwt : Jwt) (req : Request) (h : requestToken req = none) :
    authRequired jwt req =
      Outcome.respond (reply 401 false "No token, authorization denied") := by
  simp [authRequired, h, falsy]

theorem authRequired_invalid (jwt : Jwt) (req : Request) (t : String)
    (h : requestToken req = some t) (ht : t ≠ "") (hv : jwt.verify t = none) :
    authRequired jwt req = Outcome.respond (reply 403 false "Invalid token") := by
  simp [authRequired, h, falsy, ht, hv]

theorem authRequired_valid (jwt : Jwt) (req : Request) (t : String) (p : TokenPayload)
    (h : requestToken req = some t) (ht : t ≠ "") (hv : jwt.verify t = some p) :
    authRequired jwt req =
      Outcome.next { req with
        user := some { id_user := p.id_user, email := p.email, role := p.role } } := by
  simp [authRequired, h, falsy, ht, hv]

/-- C11: `authRequired` answers 401 to a request with neither a `token` cookie
nor an `authorization` header, and 403 to a request whose token (a non-empty
cookie, or without it the token of a header `Bearer <token>`) fails
`jwt.verify`; the two responses differ in status and message, and in both cases
the outcome is a response, not a call of `next`. -/
theorem authRequired_rejections (jwt : Jwt) (req : Request) :
    (req.cookieToken = none → req.authorization = none →
      authRequired jwt req =
        Outcome.respond (reply 401 false "No token, authorization denied")) ∧
    (∀ t, req.cookieToken = some t → t ≠ "" → jwt.verify t = none →
      authRequired jwt req = Outcome.respond (reply 403 false "Invalid token")) ∧
    (∀ t, falsy req.cookieToken = true → req.authorization = some ("Bearer " ++ t) →
      t ≠ "" → ' ' ∉ t.toList → jwt.verify t = none →
      authRequired jwt req = Outcome.respond (reply 403 false "Invalid token")) ∧
    (reply 401 false "No token, authorization denied").status ≠
      (reply 403 false "Invalid token").status := by
  refine ⟨?_, ?_, ?_, by decide⟩
  · intro hc hh
    apply authRequired_no_token
    simp [requestToken, hc, hh, falsy]
  · intro t hc ht hv
    exact authRequired_invalid jwt req t (requestToken_cookie req t hc ht) ht hv
  · intro t hc hh ht hb hv
    exact authRequired_invalid jwt req t (requestToken_bearer req t hc hh hb) ht hv

/-- C11 with the sample token library: no credentials give 401, a bad cookie and
a bad bearer token give 403. -/
theorem authRequired_rejections_witness :
    authRequired sampleJwt (sampleRequest none none) =
        Outcome.respond (reply 401 false "No token, authorization denied") ∧
      authRequired sampleJwt (sampleRequest (some "garbage") none) =
        Outcome.respond (reply 403 false "Invalid token") ∧
      authRequired sampleJwt (sampleRequest none (some "Bearer garbage")) =
        Outcome.respond (reply 403 false "Invalid token") :=
  ⟨(authRequired_rejections sampleJwt (sampleRequest none none)).1 rfl rfl,
   (authRequired_rejections sampleJwt (sampleRequest (some "garbage") none)).2.1
      "garbage" rfl (by decide) (by decide),
   (authRequired_rejections sampleJwt (sampleRequest none (some "Bearer garbage"))).2.2.1
      "garbage" (by decide) (by decide) (by decide) (by decide) (by decide)⟩

/-- C12: the token that `authRequired` verifies is the cookie `token` when that
cookie is non-empty, whatever the header; without such a cookie it is the token
of a header `Bearer <token>`.  So a cookie that fails verification is answered
403 even next to a bearer token that would pass, and without a cookie a header
that does not start with `Bearer ` is answered 401. -/
theorem authRequired_token_source (jwt : Jwt) (req : Request) :
    (∀ c, req.cookieToken = some c → c ≠ "" → requestToken req = some c) ∧
    (∀ t, falsy req.cookieToken = true → req.authorization = some ("Bearer " ++ t) →
      ' ' ∉ t.toList → requestToken req = some t) ∧
    (∀ c t p, req.cookieToken = some c → c ≠ "" → jwt.verify c = none →
      req.authorization = some ("Bearer " ++ t) → jwt.verify t = some p →
      authRequired jwt req = Outcome.respond (reply 403 false "Invalid token")) ∧
    (∀ c p, req.cookieToken = some c → c ≠ "" → jwt.verify c = some p →
      authRequired jwt req =
        Outcome.next { req with
          user := some { id_user := p.id_user, email := p.email, role := p.role } }) ∧
    (∀ t p, falsy req.cookieToken = true → req.authorization = some ("Bearer " ++ t) →
      t ≠ "" → ' ' ∉ t.toList → jwt.verify t = some p →
      authRequired jwt req =
        Outcome.next { req with
          user := some { id_user := p.id_user, email := p.email, role := p.role } }) ∧
    (falsy req.cookieToken = true →
      (∀ h, req.authorization = some h → "Bearer ".toList.isPrefixOf h.toList = false) →
      authRequired jwt req =
        Outcome.respond (reply 401 false "No token, authorization denied")) := by
  refine ⟨requestToken_cookie req, requestToken_bearer req, ?_, ?_, ?_, ?_⟩
  · intro c t p hc hne hv _ _
    exact authRequired_invalid jwt req c (requestToken_cookie req c hc hne) hne hv
  · intro c p hc hne hv
    exact authRequired_valid jwt req c p (requestToken_cookie req c hc hne) hne hv
  · intro t p hc hh hne hb hv
    exact authRequired_valid jwt req t p (requestToken_bearer req t hc hh hb) hne hv
  · intro hc hh
    exact authRequired_no_token jwt req (requestToken_other_header req hc hh)

/-- C12 with the sample token library: a bad cookie next to the good bearer
token is answered 403, the good bearer token alone passes, and a `Basic` header
is answered 401. -/
theorem authRequired_token_source_witness :
    authRequired sampleJwt
        (sampleRequest (some "garbage") (some "Bearer jwt:u-1:ana@hacienda.co:employee")) =
      Outcome.respond (reply 403 false "Invalid token") ∧
    authRequired sampleJwt
        (sampleRequest none (some "Bearer jwt:u-1:ana@hacienda.co:employee")) =
      Outcome.next
        { sampleRequest none (some "Bearer jwt:u-1:ana@hacienda.co:employee") with
          user := some { id_user := "u-1", email := "ana@hacienda.co", role := "employee" } } ∧
    authRequired sampleJwt (sampleRequest none (some "Basic YW5hOnNlY3JldA==")) =
      Outcome.respond (reply 401 false "No token, authorization denied") :=
  ⟨(authRequired_token_source sampleJwt
      (sampleRequest (some "garbage") (some "Bearer jwt:u-1:ana@hacienda.co:employee"))).2.2.1
      "garbage" "jwt:u-1:ana@hacienda.co:employee"
      { id_user := "u-1", email := "ana@hacienda.co", role := "employee" }
      rfl (by decide) (by decide) (by decide) (by decide),
   (authRequired_token_source sampleJwt
      (sampleRequest none (some "Bearer jwt:u-1:ana@hacienda.co:employee"))).2.2.2.2.1
      "jwt:u-1:ana@hacienda.co:employee"
      { id_user := "u-1", email := "ana@hacienda.co", role := "employee" }
      (by decide) (by decide) (by decide) (by decide) (by decide),
   (authRequired_token_source sampleJwt
      (sampleRequest none (some "Basic YW5hOnNlY3JldA=="))).2.2.2.2.2
      (by decide) (by
        intro h hh
        cases hh
        decide)⟩

/-- C13: `requireRole(...roles)` answers 401 when `req.user` is absent, answers
403 when `req.user.role` is not among the roles, and calls `next` (with the
request unchanged) exactly when `req.user` is present and its role is among the
roles. -/
theorem requireRole_outcomes (roles : List String) (req : Request) :
    (req.user = none →
      requireRole roles req = Outcome.respond (reply 401 false "Not authenticated")) ∧
    (∀ u, req.user = some u → u.role ∉ roles →
      requireRole roles req =
        Outcome.respond (reply 403 false "You don't have permission to access this resource")) ∧
    (∀ r, requireRole roles req = Outcome.next r ↔
      r = req ∧ ∃ u, req.user = some u ∧ u.role ∈ roles) := by
  refine ⟨?_, ?_, ?_⟩
  · intro h
    simp [requireRole, h]
  · intro u h hr
    simp [requireRole, h, hr]
  · intro r
    unfold requireRole
    cases hu : req.user with
    | none => simp
    | some u =>
      by_cases hr : u.role ∈ roles
      · simp [hr, eq_comm]
      · simp [hr]

/-- C13 on sample requests for the roles `admin` and `employee`: no identity
gives 401, a client gives 403 and an employee passes. -/
theorem requireRole_outcomes_witness :
    requireRole ["admin", "employee"] (sampleRequest none none) =
        Outcome.respond (reply 401 false "Not authenticated") ∧
      requireRole ["admin", "employee"]
          { sampleRequest none none with
            user := some { id_user := "u-9", email := "eva@hacienda.co", role := "client" } } =
        Outcome.respond
          (reply 403 false "You don't have permission to access this resource") ∧
      requireRole ["admin", "employee"]
          { sampleRequest none none with
            user := some { id_user := "u-1", email := "ana@hacienda.co", role := "employee" } } =
        Outcome.next
          { sampleRequest none none with
            user := some { id_user := "u-1", email := "ana@hacienda.co",
                           role := "employee" } } :=
  ⟨(requireRole_outcomes ["admin", "employee"] (sampleRequest none none)).1 rfl,
   (requireRole_outcomes ["admin", "employee"]
      { sampleRequest none none with
        user := some { id_user := "u-9", email := "eva@hacienda.co", role := "client" } }).2.1
      { id_user := "u-9", email := "eva@hacienda.co", role := "client" } rfl (by decide),
   ((requireRole_outcomes ["admin", "employee"]
      { sampleRequest none none with
        user := some { id_user := "u-1", email := "ana@hacienda.co",
                       role := "employee" } }).2.2 _).mpr
      ⟨rfl, { id_user := "u-1", email := "ana@hacienda.co", role := "employee" }, rfl,
        by decide⟩⟩

/-! ## Routing -/

theorem requestToken_congr (r req : Request) (h : r = { req with user := r.user }) :
    requestToken r = requestToken req := by
  rw [h]
  rfl

/-- What a call of `next` by `authRequired` says. -/
theorem authRequired_next_inv (jwt : Jwt) (req r : Request)
    (h : authRequired jwt req = Outcome.next r) :
    ∃ t p, requestToken req = some t ∧ t ≠ "" ∧ jwt.verify t = some p ∧
      r = { req with user := some { id_user := p.id_user, email := p.email, role := p.role } } := by
  unfold authRequired at h
  cases ht : requestToken req with
  | none => simp [ht, falsy] at h
  | some t =>
    by_cases hne : t = ""
    · simp [ht, falsy, hne] at h
    · cases hv : jwt.verify t with
      | none => simp [ht, falsy, hne, hv] at h
      | some p =>
        simp only [ht, falsy, hne, decide_False, Bool.false_eq_true, if_false,
          Option.getD_some, hv, Outcome.next.injEq] at h
        exact ⟨t, p, rfl, hne, hv, h.symm⟩

/-- `authRequired` on a request that differs from `req` in `req.user` only
decides as on `req` and leaves the same request. -/
theorem authRequired_variant (jwt : Jwt) (req r r' : Request)
    (hvar : r = { req with user := r.user }) (h : authRequired jwt r = Outcome.next r') :
    authRequired jwt req = Outcome.next r' := by
  obtain ⟨t, p, h1, h2, h3, h4⟩ := authRequired_next_inv jwt r r' h
  rw [requestToken_congr r req hvar] at h1
  rw [authRequired_valid jwt req t p h1 h2 h3, h4]
  congr 1
  rw [hvar]

theorem variant_of_authRequired (jwt : Jwt) (req r' : Request)
    (h : authRequired jwt req = Outcome.next r') : r' = { req with user := r'.user } := by
  obtain ⟨t, p, -, -, -, h4⟩ := authRequired_next_inv jwt req r' h
  rw [h4]

/-- A guarded stack invokes a controller function that is not public only on a
request that `authRequired` has passed, and hands on such a request when it was
given one. -/
theorem runStack_guarded (jwt : Jwt) (accepts : String → String → Bool) (req : Request) :
    ∀ (stack : List Middleware) (authed : Bool) (r : Request),
      r = { req with user := r.user } →
      (authed = true → authRequired jwt req = Outcome.next r) →
      stackGuarded authed stack = true →
      (∀ module name r', runStack jwt accepts stack r =
          StackResult.done (Dispatched.handled module name r') →
        isPublicHandler module name = true ∨ authRequired jwt req = Outcome.next r') ∧
      (∀ r', runStack jwt accepts stack r = StackResult.next r' →
        r' = { req with user := r'.user } ∧
          (authed = true → authRequired jwt req = Outcome.next r')) := by
  intro stack
  induction stack with
  | nil =>
    intro authed r hvar ha _
    refine ⟨fun module name r' h => by simp [runStack] at h, fun r' h => ?_⟩
    simp only [runStack, StackResult.next.injEq] at h
    subst h
    exact ⟨hvar, ha⟩
  | cons m ms ih =>
    intro authed r hvar ha hg
    cases m with
    | authRequired =>
      simp only [stackGuarded] at hg
      cases hr : authRequired jwt r with
      | respond resp =>
        simp only [runStack, hr]
        exact ⟨fun module name r' h => by simp at h, fun r' h => by simp at h⟩
      | next r1 =>
        have h1 := authRequired_variant jwt req r r1 hvar hr
        have h2 := variant_of_authRequired jwt req r1 h1
        obtain ⟨ih1, ih2⟩ := ih true r1 h2 (fun _ => h1) hg
        simp only [runStack, hr]
        exact ⟨ih1, fun r' h => ⟨(ih2 r' h).1, fun _ => (ih2 r' h).2 rfl⟩⟩
    | validateSchema schema =>
      simp only [stackGuarded] at hg
      obtain ⟨ih1, ih2⟩ := ih authed r hvar ha hg
      cases hv : validateSchema (accepts schema) r.body with
      | some resp =>
        simp only [runStack, hv]
        exact ⟨fun module name r' h => by simp at h, fun r' h => by simp at h⟩
      | none =>
        simp only [runStack, hv]
        exact ⟨ih1, ih2⟩
    | controller module name =>
      simp only [stackGuarded, Bool.and_eq_true, Bool.or_eq_true] at hg
      simp only [runStack]
      refine ⟨fun module' name' r' h => ?_, fun r' h => by simp at h⟩
      simp only [StackResult.done.injEq, Dispatched.handled.injEq] at h
      obtain ⟨rfl, rfl, rfl⟩ := h
      rcases hg.1 with h | h
      · exact Or.inr (ha h)
      · exact Or.inl h

/-- Over guarded layers, a controller function that is not public is invoked
only on a request that `authRequired` has passed. -/
theorem dispatch_guarded (jwt : Jwt) (matchesRoute : String → String → String → String → Bool)
    (accepts : String → String → Bool) (req : Request) :
    ∀ (ls : List Layer) (authed : Bool) (r : Request),
      r = { req with user := r.user } →
      (authed = true → authRequired jwt req = Outcome.next r) →
      layersGuarded authed ls = true →
      ∀ module name r', dispatch jwt matchesRoute accepts ls r =
          Dispatched.handled module name r' →
        isPublicHandler module name = true ∨ authRequired jwt req = Outcome.next r' := by
  intro ls
  induction ls with
  | nil =>
    intro authed r _ _ _ module name r' h
    simp [dispatch] at h
  | cons l ls ih =>
    intro authed r hvar ha hg module name r' h
    cases l with
    | use m =>
      have hstack : stackGuarded authed [m] = true ∧
          ∃ authed', layersGuarded authed' ls = true ∧
            (authed' = true → authed = true ∨ m = Middleware.authRequired) := by
        cases m with
        | authRequired =>
          simp only [layersGuarded] at hg
          exact ⟨by simp [stackGuarded], true, hg, fun _ => Or.inr rfl⟩
        | validateSchema schema =>
          simp only [layersGuarded, Bool.and_eq_true] at hg
          exact ⟨hg.1, authed, hg.2, fun h => Or.inl h⟩
        | controller mo na =>
          simp only [layersGuarded, Bool.and_eq_true] at hg
          exact ⟨hg.1, authed, hg.2, fun h => Or.inl h⟩
      obtain ⟨hs, authed', hls, hauth⟩ := hstack
      obtain ⟨s1, s2⟩ := runStack_guarded jwt accepts req [m] authed r hvar ha hs
      simp only [dispatch] at h
      cases hr : runStack jwt accepts [m] r with
      | done d =>
        rw [hr] at h
        subst h
        exact s1 module name r' hr
      | next r1 =>
        rw [hr] at h
        obtain ⟨v1, a1⟩ := s2 r1 hr
        refine ih authed' r1 v1 ?_ hls module name r' h
        intro ht
        rcases hauth ht with h' | h'
        · exact a1 h'
        · subst h'
          simp only [runStack] at hr
          cases ho : authRequired jwt r with
          | respond resp => simp [ho] at hr
          | next r2 =>
            simp only [ho, StackResult.next.injEq] at hr
            subst hr
            exact authRequired_variant jwt req r r2 hvar ho
    | route method path stack =>
      simp only [layersGuarded, Bool.and_eq_true] at hg
      obtain ⟨s1, s2⟩ := runStack_guarded jwt accepts req stack authed r hvar ha hg.1
      simp only [dispatch] at h
      split at h
      · cases hr : runStack jwt accepts stack r with
        | done d =>
          rw [hr] at h
          subst h
          exact s1 module name r' hr
        | next r1 =>
          rw [hr] at h
          obtain ⟨v1, a1⟩ := s2 r1 hr
          exact ih authed r1 v1 a1 hg.2 module name r' h
      · exact ih authed r hvar ha hg.2 module name r' h

theorem runStack_next_variant (jwt : Jwt) (accepts : String → String → Bool) :
    ∀ (stack : List Middleware) (r r' : Request),
      runStack jwt accepts stack r = StackResult.next r' →
      r'.method = r.method ∧ r'.path = r.path := by
  intro stack
  induction stack with
  | nil =>
    intro r r' h
    simp only [runStack, StackResult.next.injEq] at h
    subst h
    exact ⟨rfl, rfl⟩
  | cons m ms ih =>
    intro r r' h
    cases m with
    | authRequired =>
      simp only [runStack] at h
      cases ho : authRequired jwt r with
      | respond resp => simp [ho] at h
      | next r1 =>
        rw [ho] at h
        obtain ⟨_, _, -, -, -, h4⟩ := authRequired_next_inv jwt r r1 ho
        obtain ⟨e1, e2⟩ := ih r1 r' h
        rw [e1, e2, h4]
        exact ⟨rfl, rfl⟩
    | validateSchema schema =>
      simp only [runStack] at h
      cases hv : validateSchema (accepts schema) r.body with
      | some resp => simp [hv] at h
      | none =>
        rw [hv] at h
        exact ih r r' h
    | controller module name => simp [runStack] at h

theorem runStack_handled_mem (jwt : Jwt) (accepts : String → String → Bool) :
    ∀ (stack : List Middleware) (r r' : Request) (module name : String),
      runStack jwt accepts stack r = StackResult.done (Dispatched.handled module name r') →
      Middleware.controller module name ∈ stack := by
  intro stack
  induction stack with
  | nil =>
    intro r r' module name h
    simp [runStack] at h
  | cons m ms ih =>
    intro r r' module name h
    cases m with
    | authRequired =>
      simp only [runStack] at h
      cases ho : authRequired jwt r with
      | respond resp => simp [ho] at h
      | next r1 =>
        rw [ho] at h
        exact List.mem_cons_of_mem _ (ih r1 r' module name h)
    | validateSchema schema =>
      simp only [runStack] at h
      cases hv : validateSchema (accepts schema) r.body with
      | some resp => simp [hv] at h
      | none =>
        rw [hv] at h
        exact List.mem_cons_of_mem _ (ih r r' module name h)
    | controller mo na =>
      simp only [runStack, StackResult.done.injEq, Dispatched.handled.injEq] at h
      obtain ⟨rfl, rfl, -⟩ := h
      exact List.mem_cons_self _ _

/-- A controller function is invoked only through a route that matches the
request and holds it. -/
theorem dispatch_handled_route (jwt : Jwt)
    (matchesRoute : String → String → String → String → Bool)
    (accepts : String → String → Bool) :
    ∀ (ls : List Layer) (r r' : Request) (module name : String),
      usesController ls = false →
      dispatch jwt matchesRoute accepts ls r = Dispatched.handled module name r' →
      ∃ mp ∈ routesOf module name ls, matchesRoute mp.1 mp.2 r.method r.path = true := by
  intro ls
  induction ls with
  | nil =>
    intro r r' module name _ h
    simp [dispatch] at h
  | cons l ls ih =>
    intro r r' module name hu h
    cases l with
    | use m =>
      have hu' : usesController ls = false := by
        cases m <;> simp_all [usesController]
      simp only [dispatch] at h
      cases hr : runStack jwt accepts [m] r with
      | done d =>
        rw [hr] at h
        subst h
        have hm := runStack_handled_mem jwt accepts [m] r r' module name hr
        simp only [List.mem_singleton] at hm
        subst hm
        simp [usesController] at hu
      | next r1 =>
        rw [hr] at h
        obtain ⟨e1, e2⟩ := runStack_next_variant jwt accepts [m] r r1 hr
        obtain ⟨mp, hmp, hmatch⟩ := ih r1 r' module name hu' h
        rw [e1, e2] at hmatch
        exact ⟨mp, by simpa [routesOf] using hmp, hmatch⟩
    | route method path stack =>
      have hu' : usesController ls = false := by simpa [usesController] using hu
      simp only [dispatch] at h
      split at h
      · rename_i hmatch
        cases hr : runStack jwt accepts stack r with
        | done d =>
          rw [hr] at h
          subst h
          have hm := runStack_handled_mem jwt accepts stack r r' module name hr
          refine ⟨(method, path), ?_, hmatch⟩
          simp [routesOf, hm]
        | next r1 =>
          rw [hr] at h
          obtain ⟨e1, e2⟩ := runStack_next_variant jwt accepts stack r r1 hr
          obtain ⟨mp, hmp, hmatch'⟩ := ih r1 r' module name hu' h
          rw [e1, e2] at hmatch'
          refine ⟨mp, ?_, hmatch'⟩
          simp only [routesOf]
          split
          · exact List.mem_cons_of_mem _ hmp
          · exact hmp
      · obtain ⟨mp, hmp, hmatch'⟩ := ih r r' module name hu' h
        refine ⟨mp, ?_, hmatch'⟩
        simp only [routesOf]
        split
        · exact List.mem_cons_of_mem _ hmp
        · exact hmp

/-- C14: whatever the token library, the route matching and the schemas, when
the dispatch of a request over the layers mounted at `/api` invokes a controller
function, either `authRequired` has passed the request (it calls `next` on it,
and the function receives the request with `req.user` populated), or the
function is `login`, `register` or `verifyToken` and the request matches
`POST /auth/login`, `POST /auth/register` or `POST /auth/verify`.  So for a
request that matches none of these three routes no controller function runs
without a verified token. -/
theorem api_handlers_behind_authRequired (jwt : Jwt)
    (matchesRoute : String → String → String → String → Bool)
    (accepts : String → String → Bool) (req req' : Request) (module name : String)
    (h : dispatch jwt matchesRoute accepts apiLayers req =
      Dispatched.handled module name req') :
    (authRequired jwt req = Outcome.next req' ∧ ∃ u, req'.user = some u) ∨
    (module = "auth" ∧ name = "login" ∧
      matchesRoute "POST" "/auth/login" req.method req.path = true) ∨
    (module = "auth" ∧ name = "register" ∧
      matchesRoute "POST" "/auth/register" req.method req.path = true) ∨
    (module = "auth" ∧ name = "verifyToken" ∧
      matchesRoute "POST" "/auth/verify" req.method req.path = true) := by
  have hg : layersGuarded false apiLayers = true := by decide
  rcases dispatch_guarded jwt matchesRoute accepts req apiLayers false req rfl
      (fun e => absurd e (by decide)) hg module name req' h with hp | ha
  · obtain ⟨mp, hmp, hmatch⟩ := dispatch_handled_route jwt matchesRoute accepts apiLayers
      req req' module name (by decide) h
    simp only [isPublicHandler, Bool.and_eq_true, Bool.or_eq_true, decide_eq_true_eq] at hp
    obtain ⟨rfl, hn⟩ := hp
    rcases hn with (rfl | rfl) | rfl
    · have e : routesOf "auth" "login" apiLayers = [("POST", "/auth/login")] := by decide
      rw [e, List.mem_singleton] at hmp
      subst hmp
      exact Or.inr (Or.inl ⟨rfl, rfl, hmatch⟩)
    · have e : routesOf "auth" "register" apiLayers = [("POST", "/auth/register")] := by
        decide
      rw [e, List.mem_singleton] at hmp
      subst hmp
      exact Or.inr (Or.inr (Or.inl ⟨rfl, rfl, hmatch⟩))
    · have e : routesOf "auth" "verifyToken" apiLayers = [("POST", "/auth/verify")] := by
        decide
      rw [e, List.mem_singleton] at hmp
      subst hmp
      exact Or.inr (Or.inr (Or.inr ⟨rfl, rfl, hmatch⟩))
  · obtain ⟨t, p, -, -, -, h4⟩ := authRequired_next_inv jwt req req' ha
    exact Or.inl ⟨ha, _, by rw [h4]⟩

/-- C14 on sample requests for `GET /users`: with the cookie of the sample
employee `getAllUsers` is invoked on the request that `authRequired` has
passed; without credentials the request is answered 401 and no function is
invoked. -/
theorem api_handlers_behind_authRequired_witness :
    (authRequired sampleJwt (sampleRequest (some "jwt:u-1:ana@hacienda.co:employee") none) =
        Outcome.next
          { sampleRequest (some "jwt:u-1:ana@hacienda.co:employee") none with
            user := some { id_user := "u-1", email := "ana@hacienda.co",
                           role := "employee" } } ∧
      ∃ u, ({ sampleRequest (some "jwt:u-1:ana@hacienda.co:employee") none with
            user := some { id_user := "u-1", email := "ana@hacienda.co",
                           role := "employee" } } : Request).user = some u) ∧
    dispatch sampleJwt sampleMatches (fun _ _ => true) apiLayers (sampleRequest none none) =
      Dispatched.responded (reply 401 false "No token, authorization denied") := by
  refine ⟨?_, by decide⟩
  have h := api_handlers_behind_authRequired sampleJwt sampleMatches (fun _ _ => true)
    (sampleRequest (some "jwt:u-1:ana@hacienda.co:employee") none)
    { sampleRequest (some "jwt:u-1:ana@hacienda.co:employee") none with
      user := some { id_user := "u-1", email := "ana@hacienda.co", role := "employee" } }
    "user" "getAllUsers" (by decide)
  rcases h with h | h | h | h
  · exact h
  · exact absurd h.1 (by decide)
  · exact absurd h.1 (by decide)
  · exact absurd h.1 (by decide)

/-! ## Credentials -/

theorem findOne_user_eq_none (s : Store) (email : String) :
    User.findOne s email = none ↔ ∀ u ∈ s.users, u.email ≠ email := by
  simp [User.findOne, List.find?_eq_none]

/-- Under the unique constraint of the email, the search by email finds the
stored user that has it. -/
theorem findOne_user_of_mem (s : Store) (hu : emailUniqueHolds s) (u : User)
    (hmem : u ∈ s.users) : User.findOne s u.email = some u := by
  cases h : User.findOne s u.email with
  | none => exact absurd rfl ((findOne_user_eq_none s u.email).mp h u hmem)
  | some v =>
    have hv := List.mem_of_find?_eq_some h
    have he : v.email = u.email := by simpa using List.find?_some h
    have := List.Pairwise.forall_of_forall (R := fun a b : User => a.email ≠ b.email ∨ a = b)
      (fun x y hxy => by
        rcases hxy with h | h
        · exact Or.inl (Ne.symm h)
        · exact Or.inr h.symm)
      (fun x _ => Or.inr rfl)
      (hu.imp fun h => Or.inl h) hv hmem
    rcases this with h' | h'
    · exact absurd he h'
    · rw [h']

/-- C15: in every store (with the unique constraint of the email in force) and
for every token library and password comparison, a login with an email that no
user has and a login with the email of an active user and a password that does
not match get the same response: status 401, `success: false`, the message
`Invalid credentials`, no data (so no token) and no cookie. -/
theorem login_unknown_email_as_wrong_password (compare : String → String → Bool) (jwt : Jwt)
    (s : Store) (unknown known : LoginBody) (u : User) (huniq : emailUniqueHolds s)
    (hunknown : ∀ v ∈ s.users, v.email ≠ unknown.email)
    (hu : u ∈ s.users) (hemail : u.email = known.email)
    (hactive : u.status = Lifecycle.active)
    (hwrong : compare known.password u.password = false) :
    login compare jwt s unknown = login compare jwt s known ∧
      login compare jwt s known =
        some { status := 401, success := false, message := "Invalid credentials",
               data := AuthData.absent, cookie := none } := by
  have h1 : login compare jwt s unknown = some (authReply 401 false "Invalid credentials") := by
    simp [login, (findOne_user_eq_none s _).mpr hunknown]
  have h2 : login compare jwt s known = some (authReply 401 false "Invalid credentials") := by
    have hf := findOne_user_of_mem s huniq u hu
    rw [hemail] at hf
    simp [login, hf, hactive, hwrong]
  rw [h1, h2]
  exact ⟨rfl, rfl⟩

/-- C15 on the sample store: an unknown email and a wrong password for the
sample employee get the same 401 response. -/
theorem login_unknown_email_as_wrong_password_witness :
    login sampleCompare sampleJwt sampleStore
        { email := "nobody@hacienda.co", password := "secret1" } =
      login sampleCompare sampleJwt sampleStore
        { email := "ana@hacienda.co", password := "wrong-password" } ∧
    login sampleCompare sampleJwt sampleStore
        { email := "ana@hacienda.co", password := "wrong-password" } =
      some { status := 401, success := false, message := "Invalid credentials",
             data := AuthData.absent, cookie := none } :=
  login_unknown_email_as_wrong_password sampleCompare sampleJwt sampleStore
    { email := "nobody@hacienda.co", password := "secret1" }
    { email := "ana@hacienda.co", password := "wrong-password" } sampleUser
    (by decide) (by decide) (by decide) rfl rfl (by decide)

/-- C16 as stated fails: the deactivated sample employee who logs in with the
right password and the active one who logs in with a wrong password get the same
status but not the same response, the messages differ. -/
theorem login_inactive_message_differs :
    login sampleCompare sampleJwt sampleStoreInactive
        { email := "ana@hacienda.co", password := "secret1" } =
      some (authReply 401 false "Inactive user. Contact administrator") ∧
    login sampleCompare sampleJwt sampleStore
        { email := "ana@hacienda.co", password := "wrong-password" } =
      some (authReply 401 false "Invalid credentials") ∧
    login sampleCompare sampleJwt sampleStoreInactive
        { email := "ana@hacienda.co", password := "secret1" } ≠
      login sampleCompare sampleJwt sampleStore
        { email := "ana@hacienda.co", password := "wrong-password" } := by
  decide

/-- C16, amended: for every stored user whose status is inactive or deleted, a
login with the email of that user is answered with status 401 (the status of a
wrong password) and the message `Inactive user. Contact administrator`,
whatever the password and whether it matches or not; no data, so no token, is
returned and no cookie is set. -/
theorem login_inactive_rejected (compare : String → String → Bool) (jwt : Jwt) (s : Store)
    (body : LoginBody) (u : User) (huniq : emailUniqueHolds s) (hu : u ∈ s.users)
    (hemail : u.email = body.email) (hstatus : u.status ≠ Lifecycle.active) :
    login compare jwt s body =
      some { status := 401, success := false,
             message := "Inactive user. Contact administrator",
             data := AuthData.absent, cookie := none } := by
  have hf := findOne_user_of_mem s huniq u hu
  rw [hemail] at hf
  simp [login, hf, hstatus, authReply]

/-- C16 amended, on the deactivated sample employee with the right password. -/
theorem login_inactive_rejected_witness :
    login sampleCompare sampleJwt sampleStoreInactive
        { email := "ana@hacienda.co", password := "secret1" } =
      some { status := 401, success := false,
             message := "Inactive user. Contact administrator",
             data := AuthData.absent, cookie := none } :=
  login_inactive_rejected sampleCompare sampleJwt sampleStoreInactive
    { email := "ana@hacienda.co", password := "secret1" }
    { sampleUser with status := Lifecycle.inactive } (by decide) (by decide) rfl (by decide)

/-- C17: for an active stored user and a matching password, when `jwt.sign`
yields a token for the payload of the user and `jwt.verify` inverts `jwt.sign`,
`login` answers 200 with that token in its data and in the cookie `token`, and
`authRequired` on a request that carries the token, as the cookie or as bearer
token, calls `next` with `req.user` equal to the stored `id_user`, `email` and
`role` of the user. -/
theorem login_token_roundtrip (compare : String → String → Bool) (jwt : Jwt) (s : Store)
    (body : LoginBody) (u : User) (token : String) (huniq : emailUniqueHolds s)
    (hu : u ∈ s.users) (hemail : u.email = body.email)
    (hactive : u.status = Lifecycle.active)
    (hmatch : compare body.password u.password = true)
    (hsign : jwt.sign { id_user := u.id_user, email := u.email, role := roleName u.role } =
      some token)
    (htoken : token ≠ "")
    (hinv : ∀ p t, jwt.sign p = some t → jwt.verify t = some p) :
    login compare jwt s body =
        some { status := 200, success := true, message := "Login successful",
               data := AuthData.session u.view token, cookie := some token } ∧
    (∀ req : Request, req.cookieToken = some token →
      authRequired jwt req =
        Outcome.next { req with
          user := some { id_user := u.id_user, email := u.email,
                         role := roleName u.role } }) ∧
    (∀ req : Request, falsy req.cookieToken = true →
      req.authorization = some ("Bearer " ++ token) → ' ' ∉ token.toList →
      authRequired jwt req =
        Outcome.next { req with
          user := some { id_user := u.id_user, email := u.email,
                         role := roleName u.role } }) := by
  have hf := findOne_user_of_mem s huniq u hu
  rw [hemail] at hf
  have hv := hinv _ _ hsign
  refine ⟨?_, ?_, ?_⟩
  · simp [login, hf, hactive, hmatch, createAccessToken, hsign, htoken]
  · intro req hc
    exact authRequired_valid jwt req token _ (requestToken_cookie req token hc htoken) htoken hv
  · intro req hc hh hb
    exact authRequired_valid jwt req token _ (requestToken_bearer req token hc hh hb) htoken hv

/-- C17 on the sample store, with a token library that signs the payload of the
sample employee: the employee logs in and the token of the response identifies
the employee to the guard. -/
theorem login_token_roundtrip_witness :
    login sampleCompare sampleSigner sampleStore
        { email := "ana@hacienda.co", password := "secret1" } =
      some { status := 200, success := true, message := "Login successful",
             data := AuthData.session sampleUser.view "jwt:u-1:ana@hacienda.co:employee",
             cookie := some "jwt:u-1:ana@hacienda.co:employee" } ∧
    authRequired sampleSigner
        (sampleRequest (some "jwt:u-1:ana@hacienda.co:employee") none) =
      Outcome.next
        { sampleRequest (some "jwt:u-1:ana@hacienda.co:employee") none with
          user := some { id_user := "u-1", email := "ana@hacienda.co",
                         role := "employee" } } :=
  have h := login_token_roundtrip sampleCompare sampleSigner
    sampleStore { email := "ana@hacienda.co", password := "secret1" } sampleUser
    "jwt:u-1:ana@hacienda.co:employee" (by decide) (by decide) rfl rfl (by decide) (by decide)
    (by decide) (by
      intro p t hs
      by_cases hp : p = { id_user := "u-1", email := "ana@hacienda.co", role := "employee" }
      · simp only [sampleSigner, hp, if_true, Option.some.injEq] at hs
        subst hs
        rw [hp]
        decide
      · simp [sampleSigner, hp] at hs)
  ⟨h.1, h.2.1 (sampleRequest (some "jwt:u-1:ana@hacienda.co:employee") none) rfl⟩

/-- Through `POST /auth/login`, a body that passes the schema and whose email,
as it was sent, is the email of no stored user is answered as an unknown email:
the lowercased email that the schema computes is not what `login` searches. -/
theorem loginRoute_email_as_sent (isEmail : String → Bool) (compare : String → String → Bool)
    (jwt : Jwt) (s : Store) (body : LoginBody) (hvalid : loginSchema isEmail body = true)
    (hnone : ∀ u ∈ s.users, u.email ≠ body.email) :
    loginRoute isEmail compare jwt s body = some (authReply 401 false "Invalid credentials") := by
  simp [loginRoute, validateSchema, hvalid, login, (findOne_user_eq_none s _).mpr hnone]

/-- In a store whose emails are lowercase, as the setter of the model leaves
them, every login through the route with an email that holds an uppercase
letter is answered 401, whoever the email belongs to once lowercased. -/
theorem loginRoute_rejects_uppercase (isEmail : String → Bool)
    (compare : String → String → Bool) (jwt : Jwt) (s : Store) (body : LoginBody)
    (hvalid : loginSchema isEmail body = true)
    (hstored : ∀ u ∈ s.users, jsToLowerCase u.email = u.email)
    (hupper : jsToLowerCase body.email ≠ body.email) :
    loginRoute isEmail compare jwt s body = some (authReply 401 false "Invalid credentials") := by
  apply loginRoute_email_as_sent isEmail compare jwt s body hvalid
  intro u hu he
  apply hupper
  rw [← he]
  exact hstored u hu

/-- C18: the sample employee is stored with the email `ana@hacienda.co` and has
the password `secret1`.  The body with the email `Ana@hacienda.co` and that
password passes `loginSchema`, and its email lowercased is the stored one; the
route answers it 401 `Invalid credentials`, while the same request with the
email in lower case logs in.  The lookup of `login` is on the email as sent. -/
theorem loginRoute_case_sensitive :
    loginSchema sampleIsEmail { email := "Ana@hacienda.co", password := "secret1" } = true ∧
    jsToLowerCase (jsTrim "Ana@hacienda.co") = sampleUser.email ∧
    loginRoute sampleIsEmail sampleCompare sampleJwt sampleStore
        { email := "Ana@hacienda.co", password := "secret1" } =
      some (authReply 401 false "Invalid credentials") ∧
    (loginRoute sampleIsEmail sampleCompare sampleJwt sampleStore
        { email := "ana@hacienda.co", password := "secret1" }).map (fun r => r.status) =
      some 200 := by
  decide

/-- A registration with the email, as sent, of a stored user of any status is
answered 409 and leaves the store unchanged. -/
theorem register_existing (hash : String → String) (s : Store) (now : Nat) (id_user : String)
    (body : RegisterBody) (h : ∃ u ∈ s.users, u.email = body.email) :
    register hash s now id_user body = (s, authReply 409 false "Email already registered") := by
  cases hf : User.findOne s body.email with
  | none =>
    obtain ⟨u, hu, he⟩ := h
    exact absurd he ((findOne_user_eq_none s _).mp hf u hu)
  | some v => simp [register, hf]

/-- A registration whose email, trimmed and lowercased, is the email of no
stored user creates exactly one user, active, with the role of the body or
`client`, when the identifier is new and the values fit their columns. -/
theorem register_free (hash : String → String) (s : Store) (now : Nat) (id_user : String)
    (body : RegisterBody) (hsent : ∀ u ∈ s.users, u.email ≠ body.email)
    (hstored : ∀ u ∈ s.users, u.email ≠ jsToLowerCase (jsTrim body.email))
    (hid : ∀ u ∈ s.users, u.id_user ≠ id_user)
    (hlen : (jsTrim body.name).length ≤ 100 ∧
      (jsToLowerCase (jsTrim body.email)).length ≤ 100 ∧ (hash body.password).length ≤ 255) :
    ∃ row, register hash s now id_user body =
        ({ s with users := s.users ++ [row] },
          { status := 201, success := true, message := "User registered successfully",
            data := AuthData.user row.view, cookie := none }) ∧
      row.id_user = id_user ∧ row.email = jsToLowerCase (jsTrim body.email) ∧
      row.status = Lifecycle.active ∧ row.role = body.role.getD Role.client := by
  refine ⟨{ id_user := id_user, name := jsTrim body.name,
            email := jsToLowerCase (jsTrim body.email), password := hash body.password,
            role := body.role.getD Role.client, status := Lifecycle.active,
            created_at := now, updated_at := now }, ?_, rfl, rfl, rfl, rfl⟩
  have h1 : s.users.any (fun u => decide (u.id_user = id_user)) = false := by
    rw [List.any_eq_false]
    intro u hu
    simpa using hid u hu
  have h2 : s.users.any (fun u => decide (u.email = jsToLowerCase (jsTrim body.email))) =
      false := by
    rw [List.any_eq_false]
    intro u hu
    simpa using hstored u hu
  have h3 : ¬ (100 < (jsTrim body.name).length ∨
      100 < (jsToLowerCase (jsTrim body.email)).length ∨
      255 < (hash body.password).length) := by
    omega
  simp only [register, (findOne_user_eq_none s _).mpr hsent, User.create, h1, h2, h3,
    Bool.false_eq_true, if_false]

/-- C19: no user of the sample store has the email `Ana@hacienda.co` as sent,
the stored email being `ana@hacienda.co`; the registration with that email is
answered 500 `Error creating user` and nothing is stored: the search for an
existing user is on the email as sent, the insert is on the email lowercased by
the setter of the model and is refused by the unique constraint. -/
theorem register_case_variant_fails :
    (∀ u ∈ sampleStore.users, u.email ≠ "Ana@hacienda.co") ∧
    register sampleHash sampleStore 5 "u-2"
        { name := "Ana Maria", email := "Ana@hacienda.co", password := "secret1",
          role := none } =
      (sampleStore, authReply 500 false "Error creating user") := by
  decide

/-- C20: on the sample store, the registration with the email of the stored
employee is answered with status 409, while `createUser` answers the same
duplicate with status 400. -/
theorem register_duplicate_is_409 :
    (register sampleHash sampleStore 5 "u-2"
        { name := "Ana Maria", email := "ana@hacienda.co", password := "secret1",
          role := none }).2 =
      authReply 409 false "Email already registered" ∧
    (createUser sampleHash sampleStore 5 "u-2"
        { name := "Ana Maria", email := "ana@hacienda.co", password := "secret1",
          role := Role.client, status := none }).2 =
      authReply 400 false "Email already registered" := by
  decide

/-- The responses of the attendance handlers that report a conflict carry the
status 400. -/
theorem attendance_conflicts_are_400 :
    (createAttendance sampleStore 9 "a-2" (sampleCreate "2024-05-06")).2.status = 400 ∧
    (registerEntry sampleStore 9 "a-2" (sampleEntry "2024-05-06")).2.status = 400 ∧
    (registerExit (registerExit sampleStore 9 "a-1" "17:00").1 10 "a-1" "18:00").2.status =
      400 := by
  decide

/-! ## The schema middleware -/

/-- The middleware on a predicate and on the full parse result lets the same
bodies through. -/
theorem validateSchema_iff_run {β : Type} (parseAsync : β → Parsed β) (body : β) :
    validateSchema
        (fun b => match parseAsync b with
          | Parsed.value _ => true
          | _ => false) body = none ↔
      validateSchema.run parseAsync body = Validated.next body := by
  unfold validateSchema validateSchema.run
  cases h : parseAsync body <;> simp [h]

/-- In a handler stack, a schema middleware that accepts the body hands the
request on as it received it. -/
theorem runStack_validateSchema_keeps_request (jwt : Jwt) (accepts : String → String → Bool)
    (schema module name : String) (req : Request) (h : accepts schema req.body = true) :
    runStack jwt accepts
        [Middleware.validateSchema schema, Middleware.controller module name] req =
      StackResult.done (Dispatched.handled module name req) := by
  simp [runStack, validateSchema, h]

/-- C25: for every schema, given by its `parseAsync`, and every body, the
middleware calls `next()`, so that the handler is invoked, exactly when the
body parses; and when the parse fails with a `ZodError` the middleware responds
with status 400, `success: false` and an `errors` list that has one entry per
issue, in order, whose `message` is the message of the issue and whose `path`
is the segments of the issue joined by `.`, a key being written as it is and an
index in decimal digits; the handler is not invoked.  So an issue at the key
`k` has the path `k`, an issue at the key `k2` below the key `k1` has the path
`k1.k2`, an issue at the index `i` below the key `k` has the path `k.i`, and an
issue of the body as a whole has the empty path. -/
theorem validateSchema_outcomes {β : Type} (parseAsync : β → Parsed β) (body : β) :
    ((∃ b, validateSchema.run parseAsync body = Validated.next b) ↔
      ∃ output, parseAsync body = Parsed.value output) ∧
    (∀ issues : List ZodIssue, parseAsync body = Parsed.zodError issues →
      validateSchema.run parseAsync body =
        Validated.respond
          { status := 400, success := false, message := "Error de validación",
            errors := some (issues.map fun err : ZodIssue =>
              ({ path := ".".intercalate (err.path.map fun seg =>
                   match seg with
                   | PathSegment.key k => k
                   | PathSegment.index i => Nat.repr i),
                 message := err.message } : ValidationError)) } ∧
      ∀ b, validateSchema.run parseAsync body ≠ Validated.next b) ∧
    (∀ (k message : String),
      parseAsync body = Parsed.zodError [{ path := [PathSegment.key k], message := message }] →
      validateSchema.run parseAsync body =
        Validated.respond
          { status := 400, success := false, message := "Error de validación",
            errors := some [{ path := k, message := message }] }) ∧
    (∀ (k1 k2 message : String),
      parseAsync body =
        Parsed.zodError
          [{ path := [PathSegment.key k1, PathSegment.key k2], message := message }] →
      validateSchema.run parseAsync body =
        Validated.respond
          { status := 400, success := false, message := "Error de validación",
            errors := some [{ path := k1 ++ "." ++ k2, message := message }] }) ∧
    (∀ (k : String) (i : Nat) (message : String),
      parseAsync body =
        Parsed.zodError
          [{ path := [PathSegment.key k, PathSegment.index i], message := message }] →
      validateSchema.run parseAsync body =
        Validated.respond
          { status := 400, success := false, message := "Error de validación",
            errors := some [{ path := k ++ "." ++ Nat.repr i, message := message }] }) ∧
    (∀ message : String,
      parseAsync body = Parsed.zodError [{ path := [], message := message }] →
      validateSchema.run parseAsync body =
        Validated.respond
          { status := 400, success := false, message := "Error de validación",
            errors := some [{ path := "", message := message }] }) := by
  have htext : ∀ seg : PathSegment, seg.text =
      match seg with
      | PathSegment.key k => k
      | PathSegment.index i => Nat.repr i := by
    intro seg
    cases seg <;> rfl
  refine ⟨?_, ?_, ?_, ?_, ?_, ?_⟩
  · unfold validateSchema.run
    cases parseAsync body <;> simp
  · intro issues h
    constructor
    · have hfun : PathSegment.text = fun seg : PathSegment =>
          match seg with
          | PathSegment.key k => k
          | PathSegment.index i => Nat.repr i := funext htext
      simp only [validateSchema.run, h, joinPath, hfun]
    · intro b
      simp [validateSchema.run, h]
  · intro k message h
    simp [validateSchema.run, h, joinPath, PathSegment.text, String.intercalate,
      String.intercalate.go]
  · intro k1 k2 message h
    simp [validateSchema.run, h, joinPath, PathSegment.text, String.intercalate,
      String.intercalate.go]
  · intro k i message h
    simp [validateSchema.run, h, joinPath, PathSegment.text, String.intercalate,
      String.intercalate.go, Nat.repr, List.asString]
  · intro message h
    simp [validateSchema.run, h, joinPath, String.intercalate]

/-- C25 on a registration whose name, email and password are all refused by
`registerSchema`: the middleware answers 400 with three `errors`, whose paths
are `name`, `email` and `password`, and does not call `next()`. -/
theorem validateSchema_outcomes_witness :
    validateSchema.run (registerSchema.parse sampleIsEmail)
        { name := "A", email := "ana.hacienda.co", password := "12345", role := none } =
      Validated.respond
        { status := 400, success := false, message := "Error de validación",
          errors := some
            [{ path := "name", message := "Name must be at least 2 characters" },
              { path := "email", message := "Must be a valid email" },
              { path := "password", message := "Password must be at least 6 characters" }] } ∧
    ∀ b, validateSchema.run (registerSchema.parse sampleIsEmail)
        { name := "A", email := "ana.hacienda.co", password := "12345", role := none } ≠
      Validated.next b :=
  (validateSchema_outcomes (registerSchema.parse sampleIsEmail)
    { name := "A", email := "ana.hacienda.co", password := "12345", role := none }).2.1
    [{ path := [PathSegment.key "name"], message := "Name must be at least 2 characters" },
      { path := [PathSegment.key "email"], message := "Must be a valid email" },
      { path := [PathSegment.key "password"],
        message := "Password must be at least 6 characters" }]
    (by decide)

/-- The path of an issue inside an array is written with the index between the
keys. -/
theorem joinPath_nested :
    joinPath [PathSegment.key "items", PathSegment.index 12, PathSegment.key "name"] =
      "items.12.name" := by
  decide

/-- C28: for every schema, given by its `parseAsync`, and every body that it
parses, whatever the parsed output is, the middleware calls `next()` on the
body as it was sent: the output of the schema is dropped. -/
theorem validateSchema_keeps_body {β : Type} (parseAsync : β → Parsed β) (body output : β)
    (h : parseAsync body = Parsed.value output) :
    validateSchema.run parseAsync body = Validated.next body := by
  simp [validateSchema.run, h]

/-- C28 on a registration whose name has blanks around it and whose email has
capital letters: `registerSchema` parses it into a body with the name trimmed,
the email lowercased and the role defaulted, and the middleware hands on the
body as sent, which is another body. -/
theorem validateSchema_keeps_body_witness :
    registerSchema.parse sampleIsEmail
        { name := " Ana Maria ", email := "Ana@Hacienda.co", password := "secret1",
          role := none } =
      Parsed.value
        { name := "Ana Maria", email := "ana@hacienda.co", password := "secret1",
          role := some Role.client } ∧
    validateSchema.run (registerSchema.parse sampleIsEmail)
        { name := " Ana Maria ", email := "Ana@Hacienda.co", password := "secret1",
          role := none } =
      Validated.next
        { name := " Ana Maria ", email := "Ana@Hacienda.co", password := "secret1",
          role := none } :=
  ⟨by decide,
    validateSchema_keeps_body (registerSchema.parse sampleIsEmail)
      { name := " Ana Maria ", email := "Ana@Hacienda.co", password := "secret1",
        role := none }
      { name := "Ana Maria", email := "ana@hacienda.co", password := "secret1",
        role := some Role.client } (by decide)⟩

/-! ## Route order -/

/-- The pattern `/attendances/:id` matches the two literal paths that are
registered after it, and a literal pattern matches its own path only. -/
theorem matchPath_examples :
    matchPath "/attendances/:id" "/attendances/search" = true ∧
    matchPath "/attendances/:id" "/attendances/date-range" = true ∧
    matchPath "/attendances/:id" "/attendances/a-1/" = true ∧
    matchPath "/attendances/:id" "/attendances" = false ∧
    matchPath "/attendances/:id" "/attendances/a-1/exit" = false ∧
    matchPath "/attendances/search" "/Attendances/Search" = true ∧
    matchPath "/attendances/search" "/attendances/a-1" = false := by
  decide

/-- C30: the sample employee, authenticated by the session cookie, requests
`GET /api/attendances/search` and `GET /api/attendances/date-range`; under the
first-match dispatch over the layers in registration order both requests are
handled by `getAttendanceById`, whose route `/attendances/:id` is registered
before the two literal routes, and not by `searchAttendances` or
`getAttendancesByDateRange`.  A request that only the literal route matches,
`GET /api/attendances/statistics/general`, reaches its handler. -/
theorem literal_routes_shadowed_by_id_route :
    dispatch sampleJwt expressMatches sampleAccepts apiLayers
        (sampleAuthed "GET" "/attendances/search") =
      Dispatched.handled "attendance" "getAttendanceById"
        { sampleAuthed "GET" "/attendances/search" with
          user := some { id_user := "u-1", email := "ana@hacienda.co", role := "employee" } } ∧
    dispatch sampleJwt expressMatches sampleAccepts apiLayers
        (sampleAuthed "GET" "/attendances/date-range") =
      Dispatched.handled "attendance" "getAttendanceById"
        { sampleAuthed "GET" "/attendances/date-range" with
          user := some { id_user := "u-1", email := "ana@hacienda.co", role := "employee" } } ∧
    dispatch sampleJwt expressMatches sampleAccepts apiLayers
        (sampleAuthed "GET" "/attendances/statistics/general") =
      Dispatched.handled "attendance" "getGeneralStatistics"
        { sampleAuthed "GET" "/attendances/statistics/general" with
          user := some { id_user := "u-1", email := "ana@hacienda.co", role := "employee" } } := by
  decide

/-- A path that a pattern ending in a literal segment matches is also matched
by the pattern that has a parameter in the place of that segment. -/
theorem matchSegments_param (lit param : List Char) (hlit : lit ≠ [])
    (hl : lit.head? ≠ some ':') (hp : param.head? = some ':') :
    ∀ (pre segs : List (List Char)), matchSegments (pre ++ [lit]) segs = true →
      matchSegments (pre ++ [param]) segs = true := by
  intro pre
  induction pre with
  | nil =>
    intro segs h
    cases segs with
    | nil => simp [matchSegments] at h
    | cons x xs =>
      simp only [List.nil_append, matchSegments, hl, if_false, Bool.and_eq_true,
        decide_eq_true_eq] at h
      simp only [List.nil_append, matchSegments, hp, if_true, Bool.and_eq_true, h.2,
        and_true, Bool.not_eq_true', List.isEmpty_eq_false]
      intro hx
      apply hlit
      have := h.1
      rw [hx] at this
      simpa using this
  | cons q qs ih =>
    intro segs h
    cases segs with
    | nil => simp [matchSegments] at h
    | cons x xs =>
      simp only [List.cons_append, matchSegments, Bool.and_eq_true] at h ⊢
      exact ⟨h.1, ih xs h.2⟩

/-- A request that a route matches whose pattern ends in a literal segment is
matched by the route of the same method whose pattern has a parameter in the
place of that segment. -/
theorem expressMatches_param_of_literal (method literal param m p : String)
    (pre : List (List Char)) (lit par : List Char)
    (h1 : splitChar '/' literal.toList = pre ++ [lit])
    (h2 : splitChar '/' param.toList = pre ++ [par])
    (hlit : lit ≠ []) (hl : lit.head? ≠ some ':') (hp : par.head? = some ':')
    (h : expressMatches method literal m p = true) :
    expressMatches method param m p = true := by
  simp only [expressMatches, matchPath, Bool.and_eq_true] at h ⊢
  refine ⟨h.1, ?_⟩
  rw [h2]
  have hs := h.2
  rw [h1] at hs
  exact matchSegments_param _ _ hlit hl hp _ _ hs

/-- A request that the route `GET /attendances/search` or the route
`GET /attendances/date-range` matches is matched by `GET /attendances/:id`. -/
theorem expressMatches_id_of_literal (m p : String)
    (h : expressMatches "GET" "/attendances/search" m p = true ∨
      expressMatches "GET" "/attendances/date-range" m p = true) :
    expressMatches "GET" "/attendances/:id" m p = true := by
  rcases h with h | h
  · exact expressMatches_param_of_literal "GET" "/attendances/search" "/attendances/:id" m p
      [[], "attendances".toList] "search".toList ":id".toList (by decide) (by decide)
      (by decide) (by decide) (by decide) h
  · exact expressMatches_param_of_literal "GET" "/attendances/date-range" "/attendances/:id"
      m p [[], "attendances".toList] "date-range".toList ":id".toList (by decide) (by decide)
      (by decide) (by decide) (by decide) h

/-- When a route whose stack is a controller function matches the request,
the request is handled by that function or by a function of an earlier layer:
no later layer is reached. -/
theorem dispatch_first_match (jwt : Jwt)
    (matchesRoute : String → String → String → String → Bool)
    (accepts : String → String → Bool) (m p module0 name0 : String) (post : List Layer) :
    ∀ (pre : List Layer) (r : Request), matchesRoute m p r.method r.path = true →
      ∀ module name r',
        dispatch jwt matchesRoute accepts
            (pre ++ Layer.route m p [Middleware.controller module0 name0] :: post) r =
          Dispatched.handled module name r' →
        (module = module0 ∧ name = name0) ∨ routesOf module name pre ≠ [] ∨
          usesController pre = true := by
  intro pre
  induction pre with
  | nil =>
    intro r hm module name r' h
    simp only [List.nil_append, dispatch, hm, if_true, runStack,
      Dispatched.handled.injEq] at h
    exact Or.inl ⟨h.1.symm, h.2.1.symm⟩
  | cons l ls ih =>
    intro r hm module name r' h
    cases l with
    | use mw =>
      simp only [List.cons_append, dispatch] at h
      cases hs : runStack jwt accepts [mw] r with
      | done d =>
        rw [hs] at h
        dsimp only at h
        subst h
        have := runStack_handled_mem jwt accepts [mw] r r' module name hs
        rw [List.mem_singleton] at this
        subst this
        exact Or.inr (Or.inr rfl)
      | next r2 =>
        rw [hs] at h
        dsimp only at h
        obtain ⟨h1, h2⟩ := runStack_next_variant jwt accepts [mw] r r2 hs
        rw [← h1, ← h2] at hm
        rcases ih r2 hm module name r' h with h3 | h3 | h3
        · exact Or.inl h3
        · exact Or.inr (Or.inl (by simpa [routesOf] using h3))
        · refine Or.inr (Or.inr ?_)
          cases mw <;> simp [usesController, h3]
    | route m1 p1 stack =>
      simp only [List.cons_append, dispatch] at h
      have hrest : ∀ r2, r2.method = r.method → r2.path = r.path →
          dispatch jwt matchesRoute accepts
            (ls ++ Layer.route m p [Middleware.controller module0 name0] :: post) r2 =
          Dispatched.handled module name r' →
          (module = module0 ∧ name = name0) ∨
            routesOf module name (Layer.route m1 p1 stack :: ls) ≠ [] ∨
            usesController (Layer.route m1 p1 stack :: ls) = true := by
        intro r2 h1 h2 hd
        rw [← h1, ← h2] at hm
        rcases ih r2 hm module name r' hd with h3 | h3 | h3
        · exact Or.inl h3
        · refine Or.inr (Or.inl ?_)
          simp only [routesOf]
          split
          · simp
          · exact h3
        · exact Or.inr (Or.inr (by simpa [usesController] using h3))
      by_cases hmatch : matchesRoute m1 p1 r.method r.path = true
      · rw [if_pos hmatch] at h
        cases hs : runStack jwt accepts stack r with
        | done d =>
          rw [hs] at h
          dsimp only at h
          subst h
          have := runStack_handled_mem jwt accepts stack r r' module name hs
          refine Or.inr (Or.inl ?_)
          simp [routesOf, this]
        | next r2 =>
          rw [hs] at h
          dsimp only at h
          obtain ⟨h1, h2⟩ := runStack_next_variant jwt accepts stack r r2 hs
          exact hrest r2 h1 h2 h
      · rw [if_neg hmatch] at h
        exact hrest r rfl rfl h

/-- Whatever the token library, the schemas and the request, no request is
handled by `searchAttendances` or by `getAttendancesByDateRange`: a request that
their routes match is matched before by `GET /attendances/:id`. -/
theorem literal_attendance_routes_unreachable (jwt : Jwt) (accepts : String → String → Bool)
    (req r : Request) :
    dispatch jwt expressMatches accepts apiLayers req ≠
        Dispatched.handled "attendance" "searchAttendances" r ∧
    dispatch jwt expressMatches accepts apiLayers req ≠
        Dispatched.handled "attendance" "getAttendancesByDateRange" r := by
  have hsplit : apiLayers =
      (authRoutes ++ userRoutes ++ attendanceRoutes.take 3) ++
        Layer.route "GET" "/attendances/:id"
          [Middleware.controller "attendance" "getAttendanceById"] ::
        (attendanceRoutes.drop 4 ++ campRoutes ++ departmentRoutes ++ positionRoutes) := by
    decide
  constructor
  · intro h
    obtain ⟨mp, hmp, hm⟩ := dispatch_handled_route jwt expressMatches accepts apiLayers req r
      "attendance" "searchAttendances" (by decide) h
    have hroutes : routesOf "attendance" "searchAttendances" apiLayers =
        [("GET", "/attendances/search")] := by decide
    rw [hroutes, List.mem_singleton] at hmp
    subst hmp
    have hid := expressMatches_id_of_literal req.method req.path (Or.inl hm)
    rw [hsplit] at h
    rcases dispatch_first_match jwt expressMatches accepts _ _ _ _ _ _ req hid _ _ _ h with
      h1 | h1 | h1
    · exact absurd h1.2 (by decide)
    · exact h1 (by decide)
    · exact absurd h1 (by decide)
  · intro h
    obtain ⟨mp, hmp, hm⟩ := dispatch_handled_route jwt expressMatches accepts apiLayers req r
      "attendance" "getAttendancesByDateRange" (by decide) h
    have hroutes : routesOf "attendance" "getAttendancesByDateRange" apiLayers =
        [("GET", "/attendances/date-range")] := by decide
    rw [hroutes, List.mem_singleton] at hmp
    subst hmp
    have hid := expressMatches_id_of_literal req.method req.path (Or.inr hm)
    rw [hsplit] at h
    rcases dispatch_first_match jwt expressMatches accepts _ _ _ _ _ _ req hid _ _ _ h with
      h1 | h1 | h1
    · exact absurd h1.2 (by decide)
    · exact h1 (by decide)
    · exact absurd h1 (by decide)

/-- No request is handled by `searchUsers` either: `GET /users/:id` is
registered before `GET /users/search`. -/
theorem searchUsers_unreachable (jwt : Jwt) (accepts : String → String → Bool)
    (req r : Request) :
    dispatch jwt expressMatches accepts apiLayers req ≠
      Dispatched.handled "user" "searchUsers" r := by
  have hsplit : apiLayers =
      (authRoutes ++ userRoutes.take 3) ++
        Layer.route "GET" "/users/:id" [Middleware.controller "user" "getUserById"] ::
        (userRoutes.drop 4 ++ attendanceRoutes ++ campRoutes ++ departmentRoutes ++
          positionRoutes) := by
    decide
  intro h
  obtain ⟨mp, hmp, hm⟩ := dispatch_handled_route jwt expressMatches accepts apiLayers req r
    "user" "searchUsers" (by decide) h
  have hroutes : routesOf "user" "searchUsers" apiLayers = [("GET", "/users/search")] := by
    decide
  rw [hroutes, List.mem_singleton] at hmp
  subst hmp
  have hid := expressMatches_param_of_literal "GET" "/users/search" "/users/:id"
    req.method req.path [[], "users".toList] "search".toList ":id".toList (by decide)
    (by decide) (by decide) (by decide) (by decide) hm
  rw [hsplit] at h
  rcases dispatch_first_match jwt expressMatches accepts _ _ _ _ _ _ req hid _ _ _ h with
    h1 | h1 | h1
  · exact absurd h1.2 (by decide)
  · exact h1 (by decide)
  · exact absurd h1 (by decide)

/-! ## Who may create users -/

/-- No route of the application has `requireRole` in its stack: the functions
of the stacks are `authRequired`, a schema middleware or a controller function, and
the stack of `POST /users` is the schema middleware and `createUser`. -/
theorem createUser_route_stack :
    routesOf "user" "createUser" apiLayers = [("POST", "/users")] ∧
    Layer.route "POST" "/users"
        [Middleware.validateSchema "createUserSchema",
          Middleware.controller "user" "createUser"] ∈ apiLayers := by
  decide

/-- C26: the sample user has the role `employee`.  Authenticated by the session
cookie, the user sends `POST /api/users` with a body that the schema accepts:
the request is dispatched to `createUser` with `req.user.role` equal to
`employee`, and `createUser`, on the body of a new administrator, answers 201
and stores the new user with the role `admin`.  The request of a caller who is
not an administrator is not rejected. -/
theorem createUser_open_to_employee :
    sampleUser.role = Role.employee ∧
    dispatch sampleJwt expressMatches sampleAccepts apiLayers (sampleAuthed "POST" "/users") =
      Dispatched.handled "user" "createUser"
        { sampleAuthed "POST" "/users" with
          user := some { id_user := "u-1", email := "ana@hacienda.co", role := "employee" } } ∧
    createUser sampleHash sampleStore 5 "u-2"
        { name := "Eva", email := "eva@hacienda.co", password := "secret2",
          role := Role.admin, status := none } =
      ({ sampleStore with
          users :=
            [sampleUser,
              { id_user := "u-2", name := "Eva", email := "eva@hacienda.co",
                password := "$2b$10$secret2", role := Role.admin,
                status := Lifecycle.active, created_at := 5, updated_at := 5 }] },
        { status := 201, success := true, message := "User created successfully",
          data := AuthData.user
            { id_user := "u-2", name := "Eva", email := "eva@hacienda.co",
              role := Role.admin, status := Lifecycle.active, created_at := 5,
              updated_at := 5 },
          cookie := none }) := by
  decide

/-! ## Columns that an attendance update can set -/

/-- C29: the body `{ "record_status": "deleted" }` declares none of the keys of
`updateAttendanceSchema` and passes it; through the route, `updateAttendance`
answers 200 and the record `a-1` of the sample store has its `record_status`
changed from `active` to `deleted`.  In the store with two users, the body
`{ "id_employee": "u-2" }` passes as well and moves the record from the
employee `u-1` to the user `u-2`. -/
theorem updateAttendance_sets_undeclared_columns :
    updateAttendanceSchema
        { date := none, entry_time := none, exit_time := none, status := none,
          observations := none, id_employee := none,
          record_status := some Lifecycle.deleted } = true ∧
    updateAttendanceRoute sampleStore 9 "a-1"
        { date := none, entry_time := none, exit_time := none, status := none,
          observations := none, id_employee := none,
          record_status := some Lifecycle.deleted } =
      ({ sampleStore with
          attendances :=
            [{ sampleAttendance with record_status := Lifecycle.deleted, updated_at := 9 }] },
        { status := 200, success := true, message := "Attendance updated successfully",
          data := Data.one
            (withEmployee sampleStore
              { sampleAttendance with
                record_status := Lifecycle.deleted, updated_at := 9 }) }) ∧
    sampleAttendance.record_status = Lifecycle.active ∧
    updateAttendanceSchema
        { date := none, entry_time := none, exit_time := none, status := none,
          observations := none, id_employee := some "u-2", record_status := none } = true ∧
    (updateAttendanceRoute sampleStoreTwo 9 "a-1"
        { date := none, entry_time := none, exit_time := none, status := none,
          observations := none, id_employee := some "u-2", record_status := none }).2.status =
      200 ∧
    (updateAttendanceRoute sampleStoreTwo 9 "a-1"
        { date := none, entry_time := none, exit_time := none, status := none,
          observations := none, id_employee := some "u-2",
          record_status := none }).1.attendances =
      [{ sampleAttendance with id_employee := "u-2", updated_at := 9 }] ∧
    sampleAttendance.id_employee = "u-1" := by
  decide

/-- An update with the keys that `updateAttendanceSchema` declares only, in a
store where the primary key holds: the identifier, the employee and the
`record_status` of every record are kept, and a record with another identifier
is unchanged. -/
theorem updateAttendance_declared_keys (s : Store) (now : Nat) (id : String)
    (updateData : UpdateAttendanceBody) (hpk : primaryKeyHolds s)
    (he : updateData.id_employee = none) (hr : updateData.record_status = none) :
    (updateAttendance s now id updateData).1.users = s.users ∧
    List.Forall₂ (fun a b : Attendance =>
        b.id_attendance = a.id_attendance ∧ b.id_employee = a.id_employee ∧
        b.record_status = a.record_status ∧ b.created_at = a.created_at ∧
        (a.id_attendance ≠ id → b = a))
      s.attendances (updateAttendance s now id updateData).1.attendances := by
  have hsame : List.Forall₂ (fun a b : Attendance =>
        b.id_attendance = a.id_attendance ∧ b.id_employee = a.id_employee ∧
        b.record_status = a.record_status ∧ b.created_at = a.created_at ∧
        (a.id_attendance ≠ id → b = a))
      s.attendances s.attendances := by
    rw [List.forall₂_same]
    intro a _
    exact ⟨rfl, rfl, rfl, rfl, fun _ => rfl⟩
  unfold updateAttendance
  split
  · exact ⟨rfl, hsame⟩
  · rename_i old hf
    obtain ⟨hmem, hid, -⟩ := findOne_byId_some s id old hf
    split
    · exact ⟨rfl, hsame⟩
    · rename_i s' hu
      unfold Attendance.update at hu
      split at hu
      · cases hu
        exact ⟨rfl, hsame⟩
      · dsimp only at hu
        split at hu
        · exact absurd hu (by simp)
        · split at hu
          · exact absurd hu (by simp)
          · cases hu
            refine ⟨rfl, ?_⟩
            dsimp only
            rw [List.forall₂_map_right_iff, List.forall₂_same]
            intro a ha
            by_cases h : a.id_attendance = old.id_attendance
            · have hao := eq_of_primaryKey s hpk a old ha hmem h
              subst hao
              simp [applyUpdate, he, hr, hid]
            · simp [h]

/-! ## Pagination -/

/-- The length of the window `offset, limit` of a list, for a page and a limit
that are at least `1`. -/
theorem window_length {α : Type} (l : List α) (page limit : Int) (hp : 1 ≤ page)
    (hl : 1 ≤ limit) :
    (((l.drop ((page - 1) * limit).toNat).take limit.toNat).length : Int) =
      min limit (max 0 ((l.length : Int) - (page - 1) * limit)) := by
  have ho : 0 ≤ (page - 1) * limit := mul_nonneg (by omega) (by omega)
  generalize (page - 1) * limit = o at ho ⊢
  rw [List.length_take, List.length_drop]
  omega

/-- For a limit that is at least `1`, `totalPages` is the ceiling of the
quotient of the count by the limit. -/
theorem totalPages_eq_ceil (count : Nat) (limit : Int) (hl : 1 ≤ limit) :
    totalPages count limit = some ⌈(count : ℚ) / (limit : ℚ)⌉ := by
  unfold totalPages
  rw [if_neg (by omega)]
  congr 1
  obtain ⟨n, rfl⟩ := Int.eq_ofNat_of_zero_le (by omega : 0 ≤ limit)
  have h := Rat.floor_intCast_div_natCast (-(count : Int)) n
  have h2 : ⌈(count : ℚ) / ((n : Int) : ℚ)⌉ = -⌊-((count : ℚ) / ((n : Int) : ℚ))⌋ := by
    rw [Int.floor_neg, neg_neg]
  rw [h2, ← h]
  congr 2
  push_cast
  ring

/-- A list response built from `Attendance.findAndCountAll`, for a page and a
limit that are at least `1`: the status is 200, the rows are the window of the
ordered result that starts at `(page - 1) * limit` and has at most `limit` rows,
their number is `min(limit, max(0, T - (page - 1) * limit))` for the number `T`
of rows that pass the filter, and `pagination` holds `T`, the page, the limit
and the ceiling of `T / limit`. -/
theorem attendance_list_pagination (s : Store) (wh : AttendanceView → Bool)
    (order : AttendanceView → AttendanceView → Bool) (message errorMessage : String)
    (q : PageQuery) (hp : 1 ≤ q.pageNumber) (hl : 1 ≤ q.limitNumber) :
    ∃ rows : List AttendanceView,
      listResponse message errorMessage q.pageNumber q.limitNumber
          (Attendance.findAndCountAll s wh order q.limitNumber q.offset) =
        { status := 200, success := true, message := message,
          data := Data.many rows
            { total := ((s.attendances.map (withEmployee s)).filter wh).length,
              page := q.pageNumber, limit := q.limitNumber,
              totalPages := some ⌈(((s.attendances.map (withEmployee s)).filter wh).length : ℚ) /
                (q.limitNumber : ℚ)⌉ } } ∧
      rows = ((((s.attendances.map (withEmployee s)).filter wh).insertionSort
        fun a b => order a b = true).drop ((q.pageNumber - 1) * q.limitNumber).toNat).take
          q.limitNumber.toNat ∧
      (rows.length : Int) =
        min q.limitNumber
          (max 0 ((((s.attendances.map (withEmployee s)).filter wh).length : Int) -
            (q.pageNumber - 1) * q.limitNumber)) := by
  have ho : 0 ≤ (q.pageNumber - 1) * q.limitNumber := mul_nonneg (by omega) (by omega)
  refine ⟨_, ?_, rfl, ?_⟩
  · have h1 : ¬ (q.limitNumber < 0 ∨ (q.pageNumber - 1) * q.limitNumber < 0) := by omega
    simp only [Attendance.findAndCountAll, PageQuery.offset, if_neg h1, listResponse,
      totalPages_eq_ceil _ _ hl]
  · have := window_length
      (((s.attendances.map (withEmployee s)).filter wh).insertionSort
        fun a b => order a b = true) q.pageNumber q.limitNumber hp hl
    rw [List.length_insertionSort] at this
    exact this

/-- The handler `getAllAttendances` paginates as `attendance_list_pagination`
says, over the records that are not deleted in the order of the handler. -/
theorem getAllAttendances_pagination (s : Store) (q : PageQuery) (hp : 1 ≤ q.pageNumber)
    (hl : 1 ≤ q.limitNumber) :
    ∃ rows : List AttendanceView,
      getAllAttendances s q =
        { status := 200, success := true, message := "Attendances retrieved successfully",
          data := Data.many rows
            { total := ((s.attendances.map (withEmployee s)).filter
                fun v => activeOrInactive v.attendance).length,
              page := q.pageNumber, limit := q.limitNumber,
              totalPages := some ⌈(((s.attendances.map (withEmployee s)).filter
                fun v => activeOrInactive v.attendance).length : ℚ) / (q.limitNumber : ℚ)⌉ } } ∧
      (rows.length : Int) =
        min q.limitNumber
          (max 0 ((((s.attendances.map (withEmployee s)).filter
            fun v => activeOrInactive v.attendance).length : Int) -
              (q.pageNumber - 1) * q.limitNumber)) := by
  obtain ⟨rows, h1, -, h3⟩ := attendance_list_pagination s
    (fun v => activeOrInactive v.attendance) dateEntryDesc
    "Attendances retrieved successfully" "Error getting attendances" q hp hl
  exact ⟨rows, h1, h3⟩

/-- The example of the specification on `getAllAttendances`: page 2 with limit
5 over 12 records that are not deleted holds 5 records and `totalPages` is 3;
without `page` and `limit` the page is 1 and the limit 10. -/
theorem getAllAttendances_example (s : Store)
    (h : ((s.attendances.map (withEmployee s)).filter
      fun v => activeOrInactive v.attendance).length = 12) :
    (∃ rows : List AttendanceView,
      getAllAttendances s { page := some 2, limit := some 5 } =
        { status := 200, success := true, message := "Attendances retrieved successfully",
          data := Data.many rows { total := 12, page := 2, limit := 5, totalPages := some 3 } } ∧
      rows.length = 5) ∧
    ∃ rows : List AttendanceView,
      getAllAttendances s { page := none, limit := none } =
        { status := 200, success := true, message := "Attendances retrieved successfully",
          data := Data.many rows
            { total := 12, page := 1, limit := 10, totalPages := some 2 } } ∧
      rows.length = 10 := by
  constructor
  · obtain ⟨rows, h1, h2⟩ := getAllAttendances_pagination s { page := some 2, limit := some 5 }
      (by decide) (by decide)
    rw [h] at h1 h2
    refine ⟨rows, ?_, ?_⟩
    · rw [h1]
      have : ⌈((12 : Nat) : ℚ) / (((5 : Int)) : ℚ)⌉ = 3 := by
        rw [Int.ceil_eq_iff]
        norm_num
      simp only [PageQuery.pageNumber, PageQuery.limitNumber, Option.getD_some, this]
    · simp only [PageQuery.pageNumber, PageQuery.limitNumber, Option.getD_some] at h2
      omega
  · obtain ⟨rows, h1, h2⟩ := getAllAttendances_pagination s { page := none, limit := none }
      (by decide) (by decide)
    rw [h] at h1 h2
    refine ⟨rows, ?_, ?_⟩
    · rw [h1]
      have : ⌈((12 : Nat) : ℚ) / (((10 : Int)) : ℚ)⌉ = 2 := by
        rw [Int.ceil_eq_iff]
        norm_num
      simp only [PageQuery.pageNumber, PageQuery.limitNumber, Option.getD_none, this]
    · simp only [PageQuery.pageNumber, PageQuery.limitNumber, Option.getD_none] at h2
      omega

/-- The list of users of `getAllUsers` paginates in the same way over the users
that are not deleted: the count of the query is the `total`. -/
theorem getAllUsers_pagination (s : Store) (q : PageQuery) (hp : 1 ≤ q.pageNumber)
    (hl : 1 ≤ q.limitNumber) :
    ∃ users : List JsonObject,
      getAllUsers s q =
        { status := 200, success := true, message := some "Users retrieved successfully",
          data := UserData.many users
            { total := (s.users.filter liveUser).length,
              page := q.pageNumber, limit := q.limitNumber,
              totalPages :=
                some ⌈((s.users.filter liveUser).length : ℚ) / (q.limitNumber : ℚ)⌉ } } ∧
      (users.length : Int) =
        min q.limitNumber
          (max 0 (((s.users.filter liveUser).length : Int) -
            (q.pageNumber - 1) * q.limitNumber)) := by
  have ho : 0 ≤ (q.pageNumber - 1) * q.limitNumber := mul_nonneg (by omega) (by omega)
  have h1 : ¬ (q.limitNumber < 0 ∨ (q.pageNumber - 1) * q.limitNumber < 0) := by omega
  refine ⟨((((s.users.filter liveUser).insertionSort fun a b => createdDesc a b = true).drop
    ((q.pageNumber - 1) * q.limitNumber).toNat).take q.limitNumber.toNat).map
      fun user => withoutPassword user.toJSON, ?_, ?_⟩
  · simp only [getAllUsers, User.findAndCountAll, PageQuery.offset, if_neg h1,
      userListResponse, totalPages_eq_ceil _ _ hl]
  · have := window_length
      ((s.users.filter liveUser).insertionSort fun a b => createdDesc a b = true)
      q.pageNumber q.limitNumber hp hl
    rw [List.length_insertionSort] at this
    rw [List.length_map]
    exact this

/-- The handler `searchUsers`, which no request reaches, cuts the page before it
matches the rows against the search term.  In a store of twelve active users
whose emails all contain `hacienda`, the search for `hacienda` with page 2 and
limit 5 returns 5 users with `total` 5 and `totalPages` 1, where `getAllUsers`
reports 12 and 3 on the same store; the search for `e3@` matches one user, and
page 1 with limit 5 returns no user and `total` 0. -/
theorem searchUsers_total_is_page_length :
    (sampleStoreTwelve.users.filter fun u =>
      liveUser u && containsChars "hacienda".toList (jsToLowerCase u.email).toList).length =
        12 ∧
    (searchUsers sampleStoreTwelve (some "hacienda")
      { page := some 2, limit := some 5 }).userObjects.length = 5 ∧
    (searchUsers sampleStoreTwelve (some "hacienda")
      { page := some 2, limit := some 5 }).pagination =
        some { total := 5, page := 2, limit := 5, totalPages := some 1 } ∧
    (getAllUsers sampleStoreTwelve { page := some 2, limit := some 5 }).pagination =
      some { total := 12, page := 2, limit := 5, totalPages := some 3 } ∧
    (sampleStoreTwelve.users.filter fun u =>
      liveUser u && containsChars "e3@".toList (jsToLowerCase u.email).toList).length = 1 ∧
    (searchUsers sampleStoreTwelve (some "e3@")
      { page := some 1, limit := some 5 }).userObjects = [] ∧
    (searchUsers sampleStoreTwelve (some "e3@")
      { page := some 1, limit := some 5 }).pagination =
        some { total := 0, page := 1, limit := 5, totalPages := some 0 } := by
  decide

/-! ### Every list endpoint -/

/-- The window of a list at the offset of a page is the page that the
specification describes, with the count of the query as `total`. -/
theorem isPageOf_window {α : Type} (found sorted : List α) (page limit : Int)
    (hp : 1 ≤ page) (hl : 1 ≤ limit) (hlen : sorted.length = found.length) :
    IsPageOf sorted ((sorted.drop ((page - 1) * limit).toNat).take limit.toNat) page limit
      { total := found.length, page := page, limit := limit,
        totalPages := totalPages found.length limit } := by
  refine ⟨rfl, window_length sorted page limit hp hl, ?_⟩
  rw [totalPages_eq_ceil _ _ hl, hlen]

/-- A list response built from `Attendance.findAndCountAll` is the page of the
ordered rows that pass the filter. -/
theorem attendance_list_isPageOf (s : Store) (wh : AttendanceView → Bool)
    (order : AttendanceView → AttendanceView → Bool) (message errorMessage : String)
    (q : PageQuery) (hp : 1 ≤ q.pageNumber) (hl : 1 ≤ q.limitNumber) :
    ∃ (rows : List AttendanceView) (pagination : Pagination),
      listResponse message errorMessage q.pageNumber q.limitNumber
          (Attendance.findAndCountAll s wh order q.limitNumber q.offset) =
        { status := 200, success := true, message := message,
          data := Data.many rows pagination } ∧
      IsPageOf
        (((s.attendances.map (withEmployee s)).filter wh).insertionSort
          fun a b => order a b = true)
        rows q.pageNumber q.limitNumber pagination := by
  have ho : 0 ≤ (q.pageNumber - 1) * q.limitNumber := mul_nonneg (by omega) (by omega)
  have h1 : ¬ (q.limitNumber < 0 ∨ (q.pageNumber - 1) * q.limitNumber < 0) := by omega
  refine ⟨_, _, ?_, isPageOf_window ((s.attendances.map (withEmployee s)).filter wh) _
    q.pageNumber q.limitNumber hp hl (List.length_insertionSort _ _)⟩
  simp only [Attendance.findAndCountAll, PageQuery.offset, if_neg h1, listResponse]

/-- For a page and a limit that are at least `1` the offset and the limit are
not negative, and the query is answered. -/
theorem page_not_refused (q : PageQuery) (hp : 1 ≤ q.pageNumber) (hl : 1 ≤ q.limitNumber) :
    ¬ (q.limitNumber < 0 ∨ q.offset < 0) := by
  have ho : 0 ≤ (q.pageNumber - 1) * q.limitNumber := mul_nonneg (by omega) (by omega)
  unfold PageQuery.offset
  omega

/-! ## The profile of the caller -/

theorem findByPk_user_some (s : Store) (id : String) (u : User)
    (h : User.findByPk s id = some u) : u ∈ s.users ∧ u.id_user = id := by
  refine ⟨List.mem_of_find?_eq_some h, ?_⟩
  simpa using List.find?_some h

/-- What a write of `User.update` leaves of the users: every row keeps its
identifier, and a row with another identifier than `old` is not changed; the
columns for which the values have no key are kept. -/
theorem userUpdate_rows (s s' : Store) (old : User) (values : UpdateUserBody) (now : Nat)
    (h : User.update s old values now = some s') :
    s'.attendances = s.attendances ∧
    List.Forall₂ (fun u u' : User =>
        u'.id_user = u.id_user ∧ (u.id_user ≠ old.id_user → u' = u) ∧
        (values.role = none → u'.role = u.role) ∧
        (values.status = none → u'.status = u.status) ∧
        (values.password = none → u'.password = u.password))
      s.users s'.users := by
  have hsame : List.Forall₂ (fun u u' : User =>
        u'.id_user = u.id_user ∧ (u.id_user ≠ old.id_user → u' = u) ∧
        (values.role = none → u'.role = u.role) ∧
        (values.status = none → u'.status = u.status) ∧
        (values.password = none → u'.password = u.password))
      s.users s.users := by
    rw [List.forall₂_same]
    intro u _
    exact ⟨rfl, fun _ => rfl, fun _ => rfl, fun _ => rfl, fun _ => rfl⟩
  unfold User.update at h
  dsimp only at h
  split at h
  · cases h
    exact ⟨rfl, hsame⟩
  · split at h
    · exact absurd h (by simp)
    · split at h
      · exact absurd h (by simp)
      · cases h
        refine ⟨rfl, ?_⟩
        rw [List.forall₂_map_right_iff, List.forall₂_same]
        intro u _
        by_cases hu : u.id_user = old.id_user
        · simp only [hu, if_true, ne_eq, not_true_eq_false, false_implies, true_and]
          refine ⟨?_, ?_, ?_, ?_⟩
          · simp [User.set, hu]
          · intro hr
            simp [User.set, hr]
          · intro hr
            simp [User.set, hr]
          · intro hr
            simp [User.set, hr]
        · simp [hu]

/-- C27: for every store, clock reading, identity `req.user` and request body,
with or without the keys `role`, `status` and `password`, the users after
`updateProfile` are the users before, row by row, with the same identifier,
role, status and password hash, and every row whose identifier is not the one
of the caller is unchanged; the attendances are unchanged. -/
theorem updateProfile_keeps_role_status_password (s : Store) (now : Nat)
    (user : Option ReqUser) (body : UpdateUserBody) :
    List.Forall₂ (fun u u' : User =>
        u'.id_user = u.id_user ∧ u'.role = u.role ∧ u'.status = u.status ∧
        u'.password = u.password ∧
        (some u.id_user ≠ user.map (fun reqUser => reqUser.id_user) → u' = u))
      s.users (updateProfile s now user body).1.users ∧
    (updateProfile s now user body).1.attendances = s.attendances := by
  have hsame : List.Forall₂ (fun u u' : User =>
        u'.id_user = u.id_user ∧ u'.role = u.role ∧ u'.status = u.status ∧
        u'.password = u.password ∧
        (some u.id_user ≠ user.map (fun reqUser => reqUser.id_user) → u' = u))
      s.users s.users := by
    rw [List.forall₂_same]
    intro u _
    exact ⟨rfl, rfl, rfl, rfl, fun _ => rfl⟩
  unfold updateProfile
  cases user with
  | none => exact ⟨hsame, rfl⟩
  | some reqUser =>
    dsimp only
    cases hf : User.findByPk s reqUser.id_user with
    | none => exact ⟨hsame, rfl⟩
    | some old =>
      dsimp only
      split
      · exact ⟨hsame, rfl⟩
      · cases hu : User.update s old
            { body with role := none, status := none, password := none } now with
        | none => exact ⟨hsame, rfl⟩
        | some s' =>
          obtain ⟨ha, hrows⟩ := userUpdate_rows s s' old _ now hu
          refine ⟨?_, ha⟩
          dsimp only
          refine hrows.imp ?_
          intro u u' ⟨h1, h2, h3, h4, h5⟩
          refine ⟨h1, h3 rfl, h4 rfl, h5 rfl, ?_⟩
          intro hne
          apply h2
          rw [(findByPk_user_some s _ old hf).2]
          intro he
          apply hne
          simp [he]

/-- On the store with two users, the employee `u-1` sends a profile update that
also asks for the role `admin`, the status `deleted` and a new password: the
name and the email are changed, the role, the status and the password hash are
kept, and the other user is not touched. -/
theorem updateProfile_example :
    (updateProfile sampleStoreTwo 9
        (some { id_user := "u-1", email := "ana@hacienda.co", role := "employee" })
        { name := some " Ana Maria ", email := some "Ana.Maria@hacienda.co",
          password := some "secret9", role := some Role.admin,
          status := some Lifecycle.deleted }).1.users =
      [{ sampleUser with name := "Ana Maria", email := "ana.maria@hacienda.co",
                         updated_at := 9 },
        sampleColleague] := by
  decide

/-! ## Departments and their positions -/

theorem findByPk_department_some (o : OrgStore) (id : String) (d : Department)
    (h : Department.findByPk o id = some d) :
    d ∈ o.departments ∧ d.id_department = id ∧ d.status ≠ Lifecycle.deleted := by
  have h1 := List.mem_of_find?_eq_some h
  have h2 := List.find?_some h
  simp only [liveDepartment, Bool.and_eq_true, decide_eq_true_eq, Bool.or_eq_true] at h2
  refine ⟨h1, h2.1, ?_⟩
  rcases h2.2 with h3 | h3 <;> simp [h3]

/-- The count of `deleteDepartment` is positive exactly when a position that is
active or inactive references the department. -/
theorem count_position_pos_iff (o : OrgStore) (id : String) :
    0 < Position.count o id ↔
      ∃ p ∈ o.positions, p.id_department = id ∧
        (p.status = Lifecycle.active ∨ p.status = Lifecycle.inactive) := by
  unfold Position.count
  rw [List.length_pos_iff_exists_mem]
  simp only [List.mem_filter, livePosition, Bool.and_eq_true, decide_eq_true_eq,
    Bool.or_eq_true]

/-- C22: for a department that `Department.findByPk` finds, so one that exists
and is not deleted: when a position that is active or inactive references it,
`deleteDepartment` answers 400 with the conflict message and leaves the store
as it was; when every position that references it is deleted,
`deleteDepartment` answers 200, leaves the positions as they were, and sets the
status `deleted` (and `updated_at`) on the department, the other departments
being unchanged. -/
theorem deleteDepartment_guard (o : OrgStore) (now : Nat) (id : String) (d : Department)
    (hd : Department.findByPk o id = some d) :
    ((∃ p ∈ o.positions, p.id_department = id ∧
        (p.status = Lifecycle.active ∨ p.status = Lifecycle.inactive)) →
      deleteDepartment o now id =
        (o, { status := 400, success := false,
              message := "Cannot delete department because it has positions assigned",
              data := DepartmentData.absent })) ∧
    ((∀ p ∈ o.positions, p.id_department = id → p.status = Lifecycle.deleted) →
      (deleteDepartment o now id).2 =
        { status := 200, success := true, message := "Department deleted successfully",
          data := DepartmentData.absent } ∧
      (deleteDepartment o now id).1.positions = o.positions ∧
      List.Forall₂ (fun a b : Department =>
          if a.id_department = id then
            b = { a with status := Lifecycle.deleted, updated_at := now }
          else b = a)
        o.departments (deleteDepartment o now id).1.departments) := by
  obtain ⟨-, hid, hlive⟩ := findByPk_department_some o id d hd
  constructor
  · intro hp
    have hc := (count_position_pos_iff o id).mpr hp
    simp [deleteDepartment, hd, hc, orgReply]
  · intro hall
    have hc : ¬ 0 < Position.count o id := by
      rw [count_position_pos_iff]
      rintro ⟨p, hp, h1, h2⟩
      have := hall p hp h1
      rcases h2 with h2 | h2 <;> simp [h2] at this
    have hne : Department.set d
        { name := none, description := none, status := some Lifecycle.deleted } ≠ d := by
      intro he
      apply hlive
      rw [← he]
      rfl
    have hname : (Department.set d
        { name := none, description := none, status := some Lifecycle.deleted }).name =
          d.name := rfl
    have hu : Department.update o d
        { name := none, description := none, status := some Lifecycle.deleted } now =
        some { o with departments := o.departments.map fun a =>
          if a.id_department = d.id_department then
            { Department.set a
                { name := none, description := none, status := some Lifecycle.deleted } with
              updated_at := now }
          else a } := by
      unfold Department.update
      simp only [hne, if_false, hname, ne_eq, not_true_eq_false, false_and]
    simp only [deleteDepartment, hd, gt_iff_lt, hc, if_false, hu]
    refine ⟨rfl, trivial, ?_⟩
    rw [List.forall₂_map_right_iff, List.forall₂_same]
    intro a _
    rw [hid]
    by_cases ha : a.id_department = id
    · simp [ha, Department.set]
    · simp [ha]

/-- C22 on the sample department and its one active position: the deletion of
the department is answered 400 and nothing changes; after `deletePosition` has
soft-deleted the position, the deletion is answered 200 and the department has
the status `deleted`. -/
theorem deleteDepartment_guard_witness :
    deleteDepartment sampleOrg 9 "d-1" =
      (sampleOrg, { status := 400, success := false,
                    message := "Cannot delete department because it has positions assigned",
                    data := DepartmentData.absent }) ∧
    (deletePosition (fun _ => some 0) sampleOrg 8 "p-1").1.positions =
      [{ samplePosition with status := Lifecycle.deleted, updated_at := 8 }] ∧
    (deleteDepartment (deletePosition (fun _ => some 0) sampleOrg 8 "p-1").1 9 "d-1").2 =
      { status := 200, success := true, message := "Department deleted successfully",
        data := DepartmentData.absent } ∧
    (deleteDepartment (deletePosition (fun _ => some 0) sampleOrg 8 "p-1").1 9 "d-1").1.departments =
      [{ sampleDepartment with status := Lifecycle.deleted, updated_at := 9 }] :=
  have h := (deleteDepartment_guard (deletePosition (fun _ => some 0) sampleOrg 8 "p-1").1 9
    "d-1" sampleDepartment (by decide)).2 (by decide)
  ⟨(deleteDepartment_guard sampleOrg 9 "d-1" sampleDepartment (by decide)).1
      ⟨samplePosition, by decide, rfl, Or.inl rfl⟩,
    by decide, h.1, by decide⟩

/-- C23: the body `{ "status": "deleted" }` passes `updateDepartmentSchema`,
and through the route `updateDepartment` answers 200 with `success: true` and
moves the sample department from `active` to `deleted`, while the position
`p-1`, which is active, references it; `deleteDepartment` on the same store
refuses with 400. -/
theorem updateDepartment_deletes_despite_positions :
    updateDepartmentSchema
        { name := none, description := none, status := some Lifecycle.deleted } = true ∧
    updateDepartmentRoute sampleOrg 9 "d-1"
        { name := none, description := none, status := some Lifecycle.deleted } =
      ({ sampleOrg with
          departments :=
            [{ sampleDepartment with status := Lifecycle.deleted, updated_at := 9 }] },
        { status := 200, success := true, message := "Department updated successfully",
          data := DepartmentData.null }) ∧
    sampleDepartment.status = Lifecycle.active ∧
    samplePosition ∈ sampleOrg.positions ∧ samplePosition.id_department = "d-1" ∧
    samplePosition.status = Lifecycle.active ∧
    (deleteDepartment sampleOrg 9 "d-1").2.status = 400 := by
  decide

/-! ## The password in the responses -/

/-- The stored row, serialised whole, has the key `password`. -/
theorem toJSON_has_password (u : User) : "password" ∈ JsonObject.keys u.toJSON := by
  simp [JsonObject.keys, User.toJSON]

theorem withoutPassword_keys (o : JsonObject) :
    "password" ∉ JsonObject.keys (withoutPassword o) := by
  simp [JsonObject.keys, withoutPassword, List.mem_filter]

theorem pickAttributes_keys (attributes : List String) (o : JsonObject)
    (h : "password" ∉ attributes) :
    "password" ∉ JsonObject.keys (pickAttributes attributes o) := by
  simp only [JsonObject.keys, pickAttributes, List.mem_map, List.mem_filter, not_exists,
    not_and]
  rintro ⟨k, v⟩ ⟨-, hk⟩ rfl
  exact h (by simpa using hk)

/-- The view of the credential handlers is the row without its password. -/
theorem view_toJSON (u : User) : u.view.toJSON = withoutPassword u.toJSON := by
  simp [UserView.toJSON, User.view, withoutPassword, User.toJSON, List.filter]

/-- The employee of an attendance is the joined user read with the four
attributes of the `include`. -/
theorem withEmployee_toJSON (s : Store) (a : Attendance) :
    (withEmployee s a).employee.map EmployeeInfo.toJSON =
      (User.findByPk s a.id_employee).map fun u =>
        pickAttributes ["id_user", "name", "email", "role"] u.toJSON := by
  simp only [withEmployee, Option.map_map]
  congr 1

theorem noPassword_nil : noPassword [] := by
  intro o ho
  simp at ho

theorem noPassword_toList (x : Option JsonObject)
    (h : ∀ o, x = some o → "password" ∉ JsonObject.keys o) : noPassword x.toList := by
  intro o ho
  cases x with
  | none => simp at ho
  | some y =>
    simp only [Option.toList, List.mem_singleton] at ho
    rw [ho]
    exact h y rfl

theorem noPassword_filterMap {α : Type} (l : List α) (f : α → Option JsonObject)
    (h : ∀ a ∈ l, ∀ o, f a = some o → "password" ∉ JsonObject.keys o) :
    noPassword (l.filterMap f) := by
  intro o ho
  obtain ⟨a, ha, hf⟩ := List.mem_filterMap.mp ho
  exact h a ha o hf

theorem noPassword_map {α : Type} (l : List α) (f : α → JsonObject)
    (h : ∀ a, "password" ∉ JsonObject.keys (f a)) : noPassword (l.map f) := by
  intro o ho
  obtain ⟨a, -, rfl⟩ := List.mem_map.mp ho
  exact h a

theorem noPassword_singleton (o : JsonObject) (h : "password" ∉ JsonObject.keys o) :
    noPassword [o] := by
  intro x hx
  rw [List.mem_singleton.mp hx]
  exact h

/-- No response of the credential handlers has a user with the key
`password`. -/
theorem authResponse_noPassword (r : AuthResponse) : noPassword r.userObjects := by
  unfold AuthResponse.userObjects
  split
  · exact noPassword_nil
  · exact noPassword_singleton _ (by simp [JsonObject.keys, UserView.toJSON])
  · exact noPassword_singleton _ (by simp [JsonObject.keys, UserView.toJSON])

/-- No response of the attendance handlers has an employee with the key
`password`. -/
theorem response_noPassword (r : Response) : noPassword r.employeeObjects := by
  unfold Response.employeeObjects
  split
  · apply noPassword_toList
    intro o ho
    obtain ⟨e, -, rfl⟩ := Option.map_eq_some'.mp ho
    simp [JsonObject.keys, EmployeeInfo.toJSON]
  · apply noPassword_filterMap
    intro v _ o ho
    obtain ⟨e, -, rfl⟩ := Option.map_eq_some'.mp ho
    simp [JsonObject.keys, EmployeeInfo.toJSON]
  · exact noPassword_nil

theorem userReply_noPassword (status : Nat) (success : Bool) (message : String) :
    noPassword (userReply status success message).userObjects :=
  noPassword_nil

theorem userListResponse_noPassword (message errorMessage : String) (page limit : Int)
    (r : Option UserPage) :
    noPassword (userListResponse message errorMessage page limit r).userObjects := by
  unfold userListResponse
  split
  · exact noPassword_nil
  · exact noPassword_map _ _ fun u => withoutPassword_keys _

theorem updatedUserResponse_noPassword (s : Store) (id message errorMessage : String) :
    noPassword (updatedUserResponse s id message errorMessage).userObjects := by
  unfold updatedUserResponse
  split
  · exact noPassword_nil
  · exact noPassword_singleton _ (withoutPassword_keys _)

theorem getUserById_noPassword (s : Store) (id : String) :
    noPassword (getUserById s id).userObjects := by
  unfold getUserById
  split
  · exact noPassword_nil
  · exact noPassword_singleton _ (withoutPassword_keys _)

theorem searchUsers_noPassword (s : Store) (q : Option String) (pq : PageQuery) :
    noPassword (searchUsers s q pq).userObjects := by
  unfold searchUsers
  split
  · exact noPassword_nil
  · split
    · exact noPassword_nil
    · exact noPassword_map _ _ fun u => withoutPassword_keys _

theorem updateUser_noPassword (hash : String → String) (s : Store) (now : Nat) (id : String)
    (body : UpdateUserBody) : noPassword (updateUser hash s now id body).2.userObjects := by
  unfold updateUser
  split
  · exact noPassword_nil
  · split
    · exact noPassword_nil
    · dsimp only
      split
      · exact noPassword_nil
      · exact updatedUserResponse_noPassword _ _ _ _

theorem updateProfile_noPassword (s : Store) (now : Nat) (user : Option ReqUser)
    (body : UpdateUserBody) : noPassword (updateProfile s now user body).2.userObjects := by
  unfold updateProfile
  split
  · exact noPassword_nil
  · dsimp only
    split
    · exact noPassword_nil
    · split
      · exact noPassword_nil
      · split
        · exact noPassword_nil
        · exact updatedUserResponse_noPassword _ _ _ _

theorem verifyToken_noPassword (jwt : Jwt) (s : Store) (tokenBody cookieToken : Option String) :
    noPassword (verifyToken jwt s tokenBody cookieToken).userObjects := by
  unfold verifyToken
  dsimp only
  repeat' split
  all_goals first
    | exact noPassword_nil
    | exact noPassword_singleton _ (withoutPassword_keys _)

theorem getProfile_noPassword (s : Store) (user : Option ReqUser) :
    noPassword (getProfile s user).userObjects := by
  unfold getProfile
  split
  · exact noPassword_nil
  · split
    · exact noPassword_nil
    · exact noPassword_singleton _ (withoutPassword_keys _)

theorem getEmployeesByPosition_noPassword (hasPosition : String → User → Bool) (o : OrgStore)
    (s : Store) (id : String) (q : PageQuery) :
    noPassword (getEmployeesByPosition hasPosition o s id q).userObjects := by
  unfold getEmployeesByPosition
  split
  · exact noPassword_nil
  · split
    · exact noPassword_nil
    · exact noPassword_map _ _ fun u => pickAttributes_keys _ _ (by decide)

/-! ### Camps -/

theorem campWithEmployee_noPassword (s : Store) (c : Camp) :
    (campWithEmployee s c).noPassword := by
  intro o ho
  obtain ⟨u, -, rfl⟩ := Option.map_eq_some'.mp ho
  exact pickAttributes_keys _ _ (by decide)

theorem campReply_noPassword (status : Nat) (success : Bool) (message : String) :
    noPassword (campReply status success message).employeeObjects :=
  noPassword_nil

theorem campResponse_one_noPassword (status : Nat) (success : Bool) (message : String)
    (v : CampView) (h : v.noPassword) :
    noPassword ({ status := status, success := success, message := message,
                  data := CampData.one v } : CampResponse).employeeObjects :=
  noPassword_toList _ h

theorem campResponse_many_noPassword (status : Nat) (success : Bool) (message : String)
    (rows : List CampView) (pagination : Pagination) (h : ∀ v ∈ rows, v.noPassword) :
    noPassword ({ status := status, success := success, message := message,
                  data := CampData.many rows pagination } : CampResponse).employeeObjects :=
  noPassword_filterMap _ _ fun v hv o ho => h v hv o ho

theorem campByPk_noPassword (status : Nat) (success : Bool) (message : String) (s : Store)
    (camps : List Camp) (id : String) :
    noPassword ({ status := status, success := success, message := message,
                  data := campByPk s camps id } : CampResponse).employeeObjects := by
  unfold campByPk
  split
  · exact campResponse_one_noPassword _ _ _ _ (campWithEmployee_noPassword s _)
  · exact noPassword_nil

theorem findAndCountAll_camp_rows (s : Store) (camps : List Camp)
    (wh : Camp → Option User → Bool) (limit offset : Int) (p : CampPage)
    (h : Camp.findAndCountAll s camps wh limit offset = some p) :
    ∀ v ∈ p.rows, v.noPassword := by
  unfold Camp.findAndCountAll at h
  split at h
  · exact absurd h (by simp)
  · cases h
    intro v hv
    obtain ⟨c, -, rfl⟩ := List.mem_map.mp hv
    exact campWithEmployee_noPassword s c

theorem campListResponse_noPassword (s : Store) (camps : List Camp)
    (wh : Camp → Option User → Bool) (message errorMessage : String)
    (page limit offset : Int) :
    noPassword (campListResponse message errorMessage page limit
      (Camp.findAndCountAll s camps wh limit offset)).employeeObjects := by
  cases h : Camp.findAndCountAll s camps wh limit offset with
  | none => exact noPassword_nil
  | some p =>
    exact campResponse_many_noPassword _ _ _ _ _ (findAndCountAll_camp_rows s camps wh _ _ p h)

theorem uniqueRows_subset (l : List CampView) : ∀ v ∈ uniqueRows l, v ∈ l := by
  induction l with
  | nil =>
    intro v hv
    simp [uniqueRows] at hv
  | cons a as ih =>
    intro v hv
    simp only [uniqueRows, List.mem_cons, List.mem_filter] at hv
    rcases hv with rfl | ⟨h, -⟩
    · exact List.mem_cons_self _ _
    · exact List.mem_cons_of_mem _ (ih v h)

theorem createCamp_noPassword (s : Store) (camps : List Camp) (now : Nat) (id_camp : String)
    (body : CreateCampBody) :
    noPassword (createCamp s camps now id_camp body).2.employeeObjects := by
  unfold createCamp
  repeat' split
  all_goals first
    | exact noPassword_nil
    | exact campByPk_noPassword _ _ _ _ _ _

theorem getCampById_noPassword (s : Store) (camps : List Camp) (id : String) :
    noPassword (getCampById s camps id).employeeObjects := by
  unfold getCampById
  split
  · exact noPassword_nil
  · exact campResponse_one_noPassword _ _ _ _ (campWithEmployee_noPassword s _)

theorem updateCamp_noPassword (s : Store) (camps : List Camp) (now : Nat) (id : String)
    (updateData : UpdateCampBody) :
    noPassword (updateCamp s camps now id updateData).2.employeeObjects := by
  unfold updateCamp
  repeat' split
  all_goals first
    | exact noPassword_nil
    | exact campByPk_noPassword _ _ _ _ _ _

theorem assignEmployee_noPassword (s : Store) (camps : List Camp) (now : Nat)
    (id id_employee : String) :
    noPassword (assignEmployee s camps now id id_employee).2.employeeObjects := by
  unfold assignEmployee
  repeat' split
  all_goals first
    | exact noPassword_nil
    | exact campByPk_noPassword _ _ _ _ _ _

theorem removeEmployee_noPassword (s : Store) (camps : List Camp) (now : Nat) (id : String) :
    noPassword (removeEmployee s camps now id).2.employeeObjects := by
  unfold removeEmployee
  repeat' split
  all_goals first
    | exact noPassword_nil
    | exact campByPk_noPassword _ _ _ _ _ _

theorem searchCamps_noPassword (like : String → String → Bool) (s : Store)
    (camps : List Camp) (q : Option String) (pq : PageQuery) :
    noPassword (searchCamps like s camps q pq).employeeObjects := by
  unfold searchCamps
  split
  · exact noPassword_nil
  · dsimp only
    split
    · exact noPassword_nil
    · rename_i p hp
      split
      · exact noPassword_nil
      · rename_i e he
        apply campResponse_many_noPassword
        intro v hv
        have h1 := uniqueRows_subset _ v (List.mem_of_mem_take hv)
        rcases List.mem_append.mp h1 with h2 | h2
        · exact findAndCountAll_camp_rows s camps _ _ _ p hp v h2
        · exact findAndCountAll_camp_rows s camps _ _ _ e he v h2

/-- C21: the stored row of a user, serialised whole, has the key `password`;
the view that `login`, `register` and `createUser` return is that object without
the key, and the employee embedded in an attendance is that object read with
the attributes `id_user`, `name`, `email` and `role`.  For every store, every
request and every library behaviour, no user object in the response of
`login`, `register`, `verifyToken`, `getProfile`, `createUser`, `getAllUsers`,
`getUserById`, `updateUser`, `getUsersByRole`, `searchUsers` or `updateProfile`
has the key `password`, and no employee object embedded in a response of the
attendance handlers, of the camp handlers or of `getEmployeesByPosition` has
it. -/
theorem no_password_in_responses (compare : String → String → Bool) (hash : String → String)
    (jwt : Jwt) (like : String → String → Bool) (hasPosition : String → User → Bool)
    (s : Store) (o : OrgStore) (camps : List Camp) (now : Nat)
    (id id_new date end_date exit_time : String) (q token cookie : Option String) (pq : PageQuery) (reqUser : Option ReqUser)
    (role : Role) (status : AttendanceStatus) (campStatus : CampStatus)
    (loginBody : LoginBody) (registerBody : RegisterBody) (createUserBody : CreateUserBody)
    (updateUserBody : UpdateUserBody) (createAttendanceBody : CreateAttendanceBody)
    (registerEntryBody : RegisterEntryBody) (updateAttendanceBody : UpdateAttendanceBody)
    (createCampBody : CreateCampBody) (updateCampBody : UpdateCampBody) :
    (∀ u : User, "password" ∈ JsonObject.keys u.toJSON) ∧
    (∀ u : User, u.view.toJSON = withoutPassword u.toJSON) ∧
    (∀ a : Attendance, (withEmployee s a).employee.map EmployeeInfo.toJSON =
      (User.findByPk s a.id_employee).map fun u =>
        pickAttributes ["id_user", "name", "email", "role"] u.toJSON) ∧
    (∀ r ∈ login compare jwt s loginBody, noPassword r.userObjects) ∧
    noPassword (register hash s now id_new registerBody).2.userObjects ∧
    noPassword (verifyToken jwt s token cookie).userObjects ∧
    noPassword (getProfile s reqUser).userObjects ∧
    noPassword (createUser hash s now id_new createUserBody).2.userObjects ∧
    noPassword (getAllUsers s pq).userObjects ∧
    noPassword (getUserById s id).userObjects ∧
    noPassword (updateUser hash s now id updateUserBody).2.userObjects ∧
    noPassword (getUsersByRole s role pq).userObjects ∧
    noPassword (searchUsers s q pq).userObjects ∧
    noPassword (updateProfile s now reqUser updateUserBody).2.userObjects ∧
    noPassword (createAttendance s now id_new createAttendanceBody).2.employeeObjects ∧
    noPassword (registerEntry s now id_new registerEntryBody).2.employeeObjects ∧
    noPassword (registerExit s now id exit_time).2.employeeObjects ∧
    noPassword (updateAttendance s now id updateAttendanceBody).2.employeeObjects ∧
    noPassword (getAttendanceById s id).employeeObjects ∧
    noPassword (getAllAttendances s pq).employeeObjects ∧
    noPassword (getAttendancesByEmployee s id pq).employeeObjects ∧
    noPassword (getAttendancesByDate s date pq).employeeObjects ∧
    noPassword (getAttendancesByDateRange s date end_date pq).employeeObjects ∧
    noPassword (getAttendancesByStatus s status pq).employeeObjects ∧
    noPassword (searchAttendances like s q pq).employeeObjects ∧
    noPassword (createCamp s camps now id_new createCampBody).2.employeeObjects ∧
    noPassword (getAllCamps s camps pq).employeeObjects ∧
    noPassword (getCampById s camps id).employeeObjects ∧
    noPassword (getCampsByEmployee s camps id pq).employeeObjects ∧
    noPassword (getCampsByStatus s camps campStatus pq).employeeObjects ∧
    noPassword (updateCamp s camps now id updateCampBody).2.employeeObjects ∧
    noPassword (searchCamps like s camps q pq).employeeObjects ∧
    noPassword (assignEmployee s camps now id id_new).2.employeeObjects ∧
    noPassword (removeEmployee s camps now id).2.employeeObjects ∧
    noPassword (getEmployeesByPosition hasPosition o s id pq).userObjects :=
  ⟨toJSON_has_password, view_toJSON, withEmployee_toJSON s,
    fun r _ => authResponse_noPassword r,
    authResponse_noPassword _,
    verifyToken_noPassword jwt s token cookie,
    getProfile_noPassword s reqUser,
    authResponse_noPassword _,
    userListResponse_noPassword _ _ _ _ _,
    getUserById_noPassword s id,
    updateUser_noPassword hash s now id updateUserBody,
    userListResponse_noPassword _ _ _ _ _,
    searchUsers_noPassword s q pq,
    updateProfile_noPassword s now reqUser updateUserBody,
    response_noPassword _, response_noPassword _, response_noPassword _,
    response_noPassword _, response_noPassword _, response_noPassword _,
    response_noPassword _, response_noPassword _, response_noPassword _,
    response_noPassword _, response_noPassword _,
    createCamp_noPassword s camps now id_new createCampBody,
    campListResponse_noPassword s camps _ _ _ _ _ _,
    getCampById_noPassword s camps id,
    campListResponse_noPassword s camps _ _ _ _ _ _,
    campListResponse_noPassword s camps _ _ _ _ _ _,
    updateCamp_noPassword s camps now id updateCampBody,
    searchCamps_noPassword like s camps q pq,
    assignEmployee_noPassword s camps now id id_new,
    removeEmployee_noPassword s camps now id,
    getEmployeesByPosition_noPassword hasPosition o s id pq⟩

/-- The responses of `getUserById` and `getCampById` for the sample employee
and a camp of that employee: the user has every column but the password, the
employee of the camp the four attributes of the `include`. -/
theorem responses_example :
    getUserById sampleStore "u-1" =
      { status := 200, success := true, message := some "User retrieved successfully",
        data := UserData.one
          [("id_user", "u-1"), ("name", "Ana"), ("email", "ana@hacienda.co"),
            ("role", "employee"), ("status", "active"), ("created_at", "1"),
            ("updated_at", "1")] } ∧
    getCampById sampleStore [sampleCamp] "c-1" =
      { status := 200, success := true, message := "Camp retrieved successfully",
        data := CampData.one
          { camp := sampleCamp,
            employee := some
              [("id_user", "u-1"), ("name", "Ana"), ("email", "ana@hacienda.co"),
                ("role", "employee")] } } := by
  decide

/-! ## Route order of the search handlers -/

/-- No request is handled by `searchCamps`: `GET /camps/:id` is registered
before `GET /camps/search`. -/
theorem searchCamps_unreachable (jwt : Jwt) (accepts : String → String → Bool)
    (req r : Request) :
    dispatch jwt expressMatches accepts apiLayers req ≠
      Dispatched.handled "camp" "searchCamps" r := by
  have hsplit : apiLayers =
      (authRoutes ++ userRoutes ++ attendanceRoutes ++ campRoutes.take 3) ++
        Layer.route "GET" "/camps/:id" [Middleware.controller "camp" "getCampById"] ::
        (campRoutes.drop 4 ++ departmentRoutes ++ positionRoutes) := by
    decide
  intro h
  obtain ⟨mp, hmp, hm⟩ := dispatch_handled_route jwt expressMatches accepts apiLayers req r
    "camp" "searchCamps" (by decide) h
  have hroutes : routesOf "camp" "searchCamps" apiLayers = [("GET", "/camps/search")] := by
    decide
  rw [hroutes, List.mem_singleton] at hmp
  subst hmp
  have hid := expressMatches_param_of_literal "GET" "/camps/search" "/camps/:id"
    req.method req.path [[], "camps".toList] "search".toList ":id".toList (by decide)
    (by decide) (by decide) (by decide) (by decide) hm
  rw [hsplit] at h
  rcases dispatch_first_match jwt expressMatches accepts _ _ _ _ _ _ req hid _ _ _ h with
    h1 | h1 | h1
  · exact absurd h1.2 (by decide)
  · exact h1 (by decide)
  · exact absurd h1 (by decide)

/-- No request is handled by `searchDepartments`: `GET /departments/:id` is
registered before `GET /departments/search`. -/
theorem searchDepartments_unreachable (jwt : Jwt) (accepts : String → String → Bool)
    (req r : Request) :
    dispatch jwt expressMatches accepts apiLayers req ≠
      Dispatched.handled "department" "searchDepartments" r := by
  have hsplit : apiLayers =
      (authRoutes ++ userRoutes ++ attendanceRoutes ++ campRoutes ++
          departmentRoutes.take 3) ++
        Layer.route "GET" "/departments/:id"
          [Middleware.controller "department" "getDepartmentById"] ::
        (departmentRoutes.drop 4 ++ positionRoutes) := by
    decide
  intro h
  obtain ⟨mp, hmp, hm⟩ := dispatch_handled_route jwt expressMatches accepts apiLayers req r
    "department" "searchDepartments" (by decide) h
  have hroutes : routesOf "department" "searchDepartments" apiLayers =
      [("GET", "/departments/search")] := by
    decide
  rw [hroutes, List.mem_singleton] at hmp
  subst hmp
  have hid := expressMatches_param_of_literal "GET" "/departments/search" "/departments/:id"
    req.method req.path [[], "departments".toList] "search".toList ":id".toList (by decide)
    (by decide) (by decide) (by decide) (by decide) hm
  rw [hsplit] at h
  rcases dispatch_first_match jwt expressMatches accepts _ _ _ _ _ _ req hid _ _ _ h with
    h1 | h1 | h1
  · exact absurd h1.2 (by decide)
  · exact h1 (by decide)
  · exact absurd h1 (by decide)

/-- No request is handled by `searchPositions`: `GET /positions/:id` is
registered before `GET /positions/search`. -/
theorem searchPositions_unreachable (jwt : Jwt) (accepts : String → String → Bool)
    (req r : Request) :
    dispatch jwt expressMatches accepts apiLayers req ≠
      Dispatched.handled "position" "searchPositions" r := by
  have hsplit : apiLayers =
      (authRoutes ++ userRoutes ++ attendanceRoutes ++ campRoutes ++ departmentRoutes ++
          positionRoutes.take 3) ++
        Layer.route "GET" "/positions/:id"
          [Middleware.controller "position" "getPositionById"] ::
        positionRoutes.drop 4 := by
    decide
  intro h
  obtain ⟨mp, hmp, hm⟩ := dispatch_handled_route jwt expressMatches accepts apiLayers req r
    "position" "searchPositions" (by decide) h
  have hroutes : routesOf "position" "searchPositions" apiLayers =
      [("GET", "/positions/search")] := by
    decide
  rw [hroutes, List.mem_singleton] at hmp
  subst hmp
  have hid := expressMatches_param_of_literal "GET" "/positions/search" "/positions/:id"
    req.method req.path [[], "positions".toList] "search".toList ":id".toList (by decide)
    (by decide) (by decide) (by decide) (by decide) hm
  rw [hsplit] at h
  rcases dispatch_first_match jwt expressMatches accepts _ _ _ _ _ _ req hid _ _ _ h with
    h1 | h1 | h1
  · exact absurd h1.2 (by decide)
  · exact h1 (by decide)
  · exact absurd h1 (by decide)

/-- The list handlers that the routes reach: the sample employee, authenticated
by the session cookie, requests each list route and the request is handled by
the list handler of that route. -/
theorem list_routes_reached :
    (∀ route ∈
        [("/attendances", "attendance", "getAllAttendances"),
          ("/attendances/employee/u-1", "attendance", "getAttendancesByEmployee"),
          ("/attendances/date/2024-05-06", "attendance", "getAttendancesByDate"),
          ("/attendances/status/present", "attendance", "getAttendancesByStatus"),
          ("/users", "user", "getAllUsers"),
          ("/users/role/employee", "user", "getUsersByRole"),
          ("/camps", "camp", "getAllCamps"),
          ("/camps/employee/u-1", "camp", "getCampsByEmployee"),
          ("/camps/status/active", "camp", "getCampsByStatus"),
          ("/departments", "department", "getAllDepartments"),
          ("/departments/d-1/positions", "department", "getPositionsByDepartment"),
          ("/positions", "position", "getAllPositions"),
          ("/positions/department/d-1", "position", "getPositionsByDepartment"),
          ("/positions/p-1/employees", "position", "getEmployeesByPosition")],
      dispatch sampleJwt expressMatches sampleAccepts apiLayers (sampleAuthed "GET" route.1) =
        Dispatched.handled route.2.1 route.2.2
          { sampleAuthed "GET" route.1 with
            user := some { id_user := "u-1", email := "ana@hacienda.co",
                           role := "employee" } }) := by
  decide

/-! ## Pagination of the list endpoints -/

/-- C24: for every page and limit that are at least `1`, every list handler
that a request reaches and that is backed by `findAndCountAll` answers 200 with
the page that the specification describes: the items are the ordered matching
records from offset `(page - 1) * limit` on, at most `limit` of them, which is
`min(limit, max(0, T - (page - 1) * limit))` items for the number `T` of
matching records, and `pagination` is `{ total: T, page, limit, totalPages:
ceil(T / limit) }`.  These handlers are `getAllAttendances`,
`getAttendancesByEmployee`, `getAttendancesByDate`, `getAttendancesByStatus`,
`getAllUsers`, `getUsersByRole`, `getAllDepartments`, the two
`getPositionsByDepartment` (for a department that is found, in
`department.controller.js`), `getAllPositions`, `getEmployeesByPosition` (for a
position that is found), `getAllCamps`, `getCampsByEmployee` and
`getCampsByStatus`.  An absent `page` is `1` and an absent `limit` is `10`, and
page 2 with limit 5 of twelve records has 5 items and `totalPages` 3.  The six
other handlers that call `findAndCountAll` are not list endpoints: whatever the
token library, the schemas and the request, no request is handled by
`getAttendancesByDateRange`, `searchAttendances`, `searchUsers`, `searchCamps`,
`searchDepartments` or `searchPositions`. -/
theorem list_endpoints_paginate (s : Store) (o : OrgStore) (camps : List Camp)
    (q : PageQuery) (id_employee date id : String) (status : AttendanceStatus) (role : Role)
    (campStatus : CampStatus) (required : Bool) (hasPosition : String → User → Bool)
    (hp : 1 ≤ q.pageNumber) (hl : 1 ≤ q.limitNumber) :
    (∃ (rows : List AttendanceView) (pagination : Pagination),
      getAllAttendances s q =
        { status := 200, success := true, message := "Attendances retrieved successfully",
          data := Data.many rows pagination } ∧
      IsPageOf
        (((s.attendances.map (withEmployee s)).filter
          fun v => activeOrInactive v.attendance).insertionSort
            fun a b => dateEntryDesc a b = true)
        rows q.pageNumber q.limitNumber pagination) ∧
    (∃ (rows : List AttendanceView) (pagination : Pagination),
      getAttendancesByEmployee s id_employee q =
        { status := 200, success := true, message := "Attendances retrieved successfully",
          data := Data.many rows pagination } ∧
      IsPageOf
        (((s.attendances.map (withEmployee s)).filter
          fun v => decide (v.attendance.id_employee = id_employee) &&
            activeOrInactive v.attendance).insertionSort
              fun a b => dateDesc a b = true)
        rows q.pageNumber q.limitNumber pagination) ∧
    (∃ (rows : List AttendanceView) (pagination : Pagination),
      getAttendancesByDate s date q =
        { status := 200, success := true, message := "Attendances retrieved successfully",
          data := Data.many rows pagination } ∧
      IsPageOf
        (((s.attendances.map (withEmployee s)).filter
          fun v => decide (v.attendance.date = date) &&
            activeOrInactive v.attendance).insertionSort
              fun a b => employeeNameAsc a b = true)
        rows q.pageNumber q.limitNumber pagination) ∧
    (∃ (rows : List AttendanceView) (pagination : Pagination),
      getAttendancesByStatus s status q =
        { status := 200, success := true, message := "Attendances retrieved successfully",
          data := Data.many rows pagination } ∧
      IsPageOf
        (((s.attendances.map (withEmployee s)).filter
          fun v => decide (v.attendance.status = status) &&
            activeOrInactive v.attendance).insertionSort
              fun a b => dateDesc a b = true)
        rows q.pageNumber q.limitNumber pagination) ∧
    (∃ (rows : List User) (pagination : Pagination),
      getAllUsers s q =
        { status := 200, success := true, message := some "Users retrieved successfully",
          data := UserData.many (rows.map fun user => withoutPassword user.toJSON)
            pagination } ∧
      IsPageOf ((s.users.filter liveUser).insertionSort fun a b => createdDesc a b = true)
        rows q.pageNumber q.limitNumber pagination) ∧
    (∃ (rows : List User) (pagination : Pagination),
      getUsersByRole s role q =
        { status := 200, success := true, message := some "Users retrieved successfully",
          data := UserData.many (rows.map fun user => withoutPassword user.toJSON)
            pagination } ∧
      IsPageOf
        ((s.users.filter fun u => decide (u.role = role) && liveUser u).insertionSort
          fun a b => createdDesc a b = true)
        rows q.pageNumber q.limitNumber pagination) ∧
    (∃ (rows : List Department) (pagination : Pagination),
      getAllDepartments o q =
        { status := 200, success := true, message := "Departments retrieved successfully",
          data := some rows, pagination := some pagination } ∧
      IsPageOf
        ((o.departments.filter liveDepartment).insertionSort
          fun a b => departmentNameAsc a b = true)
        rows q.pageNumber q.limitNumber pagination) ∧
    (∀ department : Department, Department.findByPk o id = some department →
      ∃ (rows : List Position) (pagination : Pagination),
        DepartmentController.getPositionsByDepartment o id q =
          { status := 200, success := true, message := "Positions retrieved successfully",
            data := some rows, pagination := some pagination } ∧
        IsPageOf
          ((o.positions.filter fun p =>
            livePosition p && decide (p.id_department = id)).insertionSort
              fun a b => positionNameAsc a b = true)
          rows q.pageNumber q.limitNumber pagination) ∧
    (∃ (rows : List Position) (pagination : Pagination),
      getAllPositions required o q =
        { status := 200, success := true, message := "Positions retrieved successfully",
          data := some (rows.map (positionWithDepartment o)),
          pagination := some pagination } ∧
      IsPageOf
        ((o.positions.filter fun p =>
          livePosition p && departmentJoined required o p).insertionSort
            fun a b => positionNameAsc a b = true)
        rows q.pageNumber q.limitNumber pagination) ∧
    (∃ (rows : List Position) (pagination : Pagination),
      PositionController.getPositionsByDepartment required o id q =
        { status := 200, success := true, message := "Positions retrieved successfully",
          data := some (rows.map (positionWithDepartment o)),
          pagination := some pagination } ∧
      IsPageOf
        ((o.positions.filter fun p =>
          livePosition p &&
            (decide (p.id_department = id) && departmentJoined required o p)).insertionSort
              fun a b => positionNameAsc a b = true)
        rows q.pageNumber q.limitNumber pagination) ∧
    (∀ position : Position, Position.findByPk o id = some position →
      ∃ (rows : List User) (pagination : Pagination),
        getEmployeesByPosition hasPosition o s id q =
          { status := 200, success := true,
            message := some "Employees retrieved successfully",
            data := UserData.many
              (rows.map fun user =>
                pickAttributes ["id_user", "name", "email", "role", "status"] user.toJSON)
              pagination } ∧
        IsPageOf
          ((s.users.filter fun u => hasPosition id u && liveUser u).insertionSort
            fun a b => userNameAsc a b = true)
          rows q.pageNumber q.limitNumber pagination) ∧
    (∃ (rows : List Camp) (pagination : Pagination),
      getAllCamps s camps q =
        { status := 200, success := true, message := "Camps retrieved successfully",
          data := CampData.many (rows.map (campWithEmployee s)) pagination } ∧
      IsPageOf ((camps.filter fun _ => true).insertionSort fun a b => campNameAsc a b = true)
        rows q.pageNumber q.limitNumber pagination) ∧
    (∃ (rows : List Camp) (pagination : Pagination),
      getCampsByEmployee s camps id_employee q =
        { status := 200, success := true, message := "Camps retrieved successfully",
          data := CampData.many (rows.map (campWithEmployee s)) pagination } ∧
      IsPageOf
        ((camps.filter fun c => decide (c.id_employee = some id_employee)).insertionSort
          fun a b => campNameAsc a b = true)
        rows q.pageNumber q.limitNumber pagination) ∧
    (∃ (rows : List Camp) (pagination : Pagination),
      getCampsByStatus s camps campStatus q =
        { status := 200, success := true, message := "Camps retrieved successfully",
          data := CampData.many (rows.map (campWithEmployee s)) pagination } ∧
      IsPageOf
        ((camps.filter fun c => decide (c.status = campStatus)).insertionSort
          fun a b => campNameAsc a b = true)
        rows q.pageNumber q.limitNumber pagination) ∧
    (∀ limit : Option Int, PageQuery.pageNumber { page := none, limit := limit } = 1) ∧
    (∀ page : Option Int, PageQuery.limitNumber { page := page, limit := none } = 10) ∧
    (∀ (matching items : List AttendanceView) (pagination : Pagination),
      matching.length = 12 → IsPageOf matching items 2 5 pagination →
      items.length = 5 ∧
        pagination = { total := 12, page := 2, limit := 5, totalPages := some 3 }) ∧
    (∀ (jwt : Jwt) (accepts : String → String → Bool) (req r : Request),
      dispatch jwt expressMatches accepts apiLayers req ≠
          Dispatched.handled "attendance" "getAttendancesByDateRange" r ∧
        dispatch jwt expressMatches accepts apiLayers req ≠
          Dispatched.handled "attendance" "searchAttendances" r ∧
        dispatch jwt expressMatches accepts apiLayers req ≠
          Dispatched.handled "user" "searchUsers" r ∧
        dispatch jwt expressMatches accepts apiLayers req ≠
          Dispatched.handled "camp" "searchCamps" r ∧
        dispatch jwt expressMatches accepts apiLayers req ≠
          Dispatched.handled "department" "searchDepartments" r ∧
        dispatch jwt expressMatches accepts apiLayers req ≠
          Dispatched.handled "position" "searchPositions" r) := by
  have h1 := page_not_refused q hp hl
  simp only [PageQuery.offset] at h1
  refine ⟨?_, ?_, ?_, ?_, ?_, ?_, ?_, ?_, ?_, ?_, ?_, ?_, ?_, ?_, ?_, ?_, ?_, ?_⟩
  · exact attendance_list_isPageOf s _ _ _ _ q hp hl
  · exact attendance_list_isPageOf s _ _ _ _ q hp hl
  · exact attendance_list_isPageOf s _ _ _ _ q hp hl
  · exact attendance_list_isPageOf s _ _ _ _ q hp hl
  · refine ⟨_, _, ?_, isPageOf_window (s.users.filter liveUser) _ q.pageNumber q.limitNumber
      hp hl (List.length_insertionSort _ _)⟩
    simp only [getAllUsers, User.findAndCountAll, PageQuery.offset, if_neg h1,
      userListResponse]
  · refine ⟨_, _, ?_, isPageOf_window (s.users.filter _) _ q.pageNumber q.limitNumber
      hp hl (List.length_insertionSort _ _)⟩
    simp only [getUsersByRole, User.findAndCountAll, PageQuery.offset, if_neg h1,
      userListResponse]
  · refine ⟨_, _, ?_, isPageOf_window (o.departments.filter liveDepartment) _ q.pageNumber
      q.limitNumber hp hl (List.length_insertionSort _ _)⟩
    simp only [getAllDepartments, Department.findAndCountAll, PageQuery.offset, if_neg h1,
      orgListResponse, Bool.and_true]
  · intro department hd
    refine ⟨_, _, ?_, isPageOf_window (o.positions.filter _) _ q.pageNumber
      q.limitNumber hp hl (List.length_insertionSort _ _)⟩
    simp only [DepartmentController.getPositionsByDepartment, hd, Position.findAndCountAll,
      PageQuery.offset, if_neg h1, orgListResponse]
  · refine ⟨_, _, ?_, isPageOf_window (o.positions.filter _) _ q.pageNumber
      q.limitNumber hp hl (List.length_insertionSort _ _)⟩
    simp only [getAllPositions, Position.findAndCountAll, PageQuery.offset, if_neg h1,
      orgListResponse, Option.map_some', OrgPage.withDepartment]
  · refine ⟨_, _, ?_, isPageOf_window (o.positions.filter _) _ q.pageNumber
      q.limitNumber hp hl (List.length_insertionSort _ _)⟩
    simp only [PositionController.getPositionsByDepartment, Position.findAndCountAll,
      PageQuery.offset, if_neg h1, orgListResponse, Option.map_some', OrgPage.withDepartment]
  · intro position hpos
    refine ⟨_, _, ?_, isPageOf_window (s.users.filter _) _ q.pageNumber q.limitNumber
      hp hl (List.length_insertionSort _ _)⟩
    simp only [getEmployeesByPosition, hpos, User.findAndCountAll, PageQuery.offset,
      if_neg h1]
  · refine ⟨_, _, ?_, isPageOf_window (camps.filter _) _ q.pageNumber q.limitNumber
      hp hl (List.length_insertionSort _ _)⟩
    simp only [getAllCamps, Camp.findAndCountAll, PageQuery.offset, if_neg h1,
      campListResponse]
  · refine ⟨_, _, ?_, isPageOf_window (camps.filter _) _ q.pageNumber q.limitNumber
      hp hl (List.length_insertionSort _ _)⟩
    simp only [getCampsByEmployee, Camp.findAndCountAll, PageQuery.offset, if_neg h1,
      campListResponse]
  · refine ⟨_, _, ?_, isPageOf_window (camps.filter _) _ q.pageNumber q.limitNumber
      hp hl (List.length_insertionSort _ _)⟩
    simp only [getCampsByStatus, Camp.findAndCountAll, PageQuery.offset, if_neg h1,
      campListResponse]
  · intro limit
    rfl
  · intro page
    rfl
  · intro matching items pagination hlen hpage
    obtain ⟨-, h2, h3⟩ := hpage
    rw [hlen] at h2 h3
    constructor
    · have : (items.length : Int) = 5 := by
        rw [h2]
        decide
      exact_mod_cast this
    · rw [h3]
      have : ⌈((12 : Nat) : ℚ) / (((5 : Int)) : ℚ)⌉ = 3 := by
        rw [Int.ceil_eq_iff]
        norm_num
      rw [this]
  · intro jwt accepts req r
    exact ⟨(literal_attendance_routes_unreachable jwt accepts req r).2,
      (literal_attendance_routes_unreachable jwt accepts req r).1,
      searchUsers_unreachable jwt accepts req r, searchCamps_unreachable jwt accepts req r,
      searchDepartments_unreachable jwt accepts req r,
      searchPositions_unreachable jwt accepts req r⟩

/-- C24 on a ledger of twelve attendances, twelve users, the sample department
and the sample camp, for page 2 with limit 5: every list handler answers with
the page of the specification, and `getAllAttendances` answers with the five
attendances of the days 16 down to 12 and `pagination`
`{ total: 12, page: 2, limit: 5, totalPages: 3 }`. -/
theorem list_endpoints_paginate_witness :
    (∃ (rows : List AttendanceView) (pagination : Pagination),
      getAllAttendances sampleLedgerTwelve { page := some 2, limit := some 5 } =
        { status := 200, success := true, message := "Attendances retrieved successfully",
          data := Data.many rows pagination } ∧
      IsPageOf
        (((sampleLedgerTwelve.attendances.map (withEmployee sampleLedgerTwelve)).filter
          fun v => activeOrInactive v.attendance).insertionSort
            fun a b => dateEntryDesc a b = true)
        rows 2 5 pagination) ∧
    getAllAttendances sampleLedgerTwelve { page := some 2, limit := some 5 } =
      { status := 200, success := true, message := "Attendances retrieved successfully",
        data := Data.many
          ([6, 5, 4, 3, 2].map fun i => withEmployee sampleLedgerTwelve (sampleDay i))
          { total := 12, page := 2, limit := 5, totalPages := some 3 } } ∧
    (sampleDay 6).date = "2024-05-16" ∧ (sampleDay 2).date = "2024-05-12" :=
  ⟨(list_endpoints_paginate sampleLedgerTwelve sampleOrg [sampleCamp]
      { page := some 2, limit := some 5 } "u-1" "2024-05-16" "d-1" AttendanceStatus.present
      Role.employee sampleCamp.status true (fun _ _ => true) (by decide) (by decide)).1,
    by decide, by decide, by decide⟩

end Hacienda
